import Mathlib

/-
Verification development for the arcade survival game in src/game.js.

The gameplay core (the Utils helpers, the Player / Enemy / ExpOrb / Chest /
Particle entity classes and the Game simulation driver) is shallowly embedded
below.  JavaScript numbers are modelled as real numbers (ℝ); the rendering,
audio and DOM code is omitted (it never touches the simulation state fields
modelled here).  Randomness (Math.random) is modelled by explicit draw
oracles supplied per frame, and the two setTimeout-based delayed effects
(the boss attack resolution and the speed-buff revert) are modelled by
pending-event lists that the driver's event loop fires between frames.
-/

noncomputable section

open Real (pi)

namespace Rogue

/-! ## Utils (src/game.js lines 64-96) -/

namespace Utils

/-- Utils.distance: Math.sqrt((x2-x1)**2 + (y2-y1)**2). -/
def distance (x1 y1 x2 y2 : ℝ) : ℝ :=
  Real.sqrt ((x2 - x1) ^ 2 + (y2 - y1) ^ 2)

/-- Utils.circleCollision: distance(...) < r1 + r2. -/
def circleCollision (x1 y1 r1 x2 y2 r2 : ℝ) : Prop :=
  distance x1 y1 x2 y2 < r1 + r2

instance (x1 y1 r1 x2 y2 r2 : ℝ) : Decidable (circleCollision x1 y1 r1 x2 y2 r2) :=
  inferInstanceAs (Decidable (_ < _))

/-- Utils.clamp: Math.max(min, Math.min(max, value)). -/
def clamp (value lo hi : ℝ) : ℝ := max lo (min hi value)

end Utils

/-! ## Input snapshot (the keys dictionary maintained by Game.setupInput) -/

/-- The held-key snapshot the driver reads each frame.  `space` models both
the ' ' and 'space' entries the driver tests for forced attraction. -/
structure Keys where
  w : Bool
  a : Bool
  s : Bool
  d : Bool
  arrowup : Bool
  arrowdown : Bool
  arrowleft : Bool
  arrowright : Bool
  space : Bool

/-- No key held. -/
def Keys.none : Keys := ⟨false, false, false, false, false, false, false, false, false⟩

/-! ## Player (src/game.js lines 160-412; draw code omitted) -/

structure Player where
  x : ℝ
  y : ℝ
  radius : ℝ
  hp : ℝ
  maxHp : ℝ
  speed : ℝ
  level : ℕ
  exp : ℝ
  expToLevel : ℝ
  weaponCount : ℕ
  weaponDamage : ℝ
  weaponRadius : ℝ
  rotateSpeed : ℝ
  currentAngle : ℝ
  defenseRate : ℝ
  vx : ℝ
  vy : ℝ
  targetX : Option ℝ
  targetY : Option ℝ
  autoCollectBuff : ℝ
  speedBuff : ℝ
  invincible : ℝ
  weaponType : ℕ

/-- Player constructor (lines 161-200).  The weaponColors list is cosmetic
(used only by draw) and is omitted. -/
def Player.init (x y : ℝ) : Player where
  x := x
  y := y
  radius := 20
  hp := 100
  maxHp := 100
  speed := 100
  level := 1
  exp := 0
  expToLevel := 100
  weaponCount := 2
  weaponDamage := 10
  weaponRadius := 80
  rotateSpeed := 120
  currentAngle := 0
  defenseRate := 0
  vx := 0
  vy := 0
  targetX := Option.none
  targetY := Option.none
  autoCollectBuff := 0
  speedBuff := 1
  invincible := 0
  weaponType := 0

/-- The mouse-seek step of Player.update (lines 214-226): if a target is set
and farther than 5px, steer toward it; if a target is set and within 5px,
clear it.  Returns the velocity components and the (possibly cleared)
target fields. -/
def Player.mouseStep (p : Player) (vx vy : ℝ) : ℝ × ℝ × Option ℝ × Option ℝ :=
  match p.targetX, p.targetY with
  | some tx, some ty =>
      let dx := tx - p.x
      let dy := ty - p.y
      let dist := Real.sqrt (dx * dx + dy * dy)
      if 5 < dist then (dx / dist, dy / dist, some tx, some ty)
      else (vx, vy, Option.none, Option.none)
  | tx, ty => (vx, vy, tx, ty)

/-- The boundary clamp of Player.update (lines 241-247), x coordinate: when
distance-from-origin plus the player radius exceeds the arena radius, the
position is pulled radially onto the circle of radius arenaRadius - radius
(the angle comes from Math.atan2, modelled by Complex.arg). -/
def Player.confineX (arenaRadius radius x y : ℝ) : ℝ :=
  if arenaRadius < Real.sqrt (x * x + y * y) + radius then
    Real.cos (Complex.arg ⟨x, y⟩) * (arenaRadius - radius)
  else x

/-- The boundary clamp of Player.update (lines 241-247), y coordinate. -/
def Player.confineY (arenaRadius radius x y : ℝ) : ℝ :=
  if arenaRadius < Real.sqrt (x * x + y * y) + radius then
    Real.sin (Complex.arg ⟨x, y⟩) * (arenaRadius - radius)
  else y

/-- Player.update(deltaTime, keys, arenaRadius) (lines 202-266). -/
def Player.update (deltaTime : ℝ) (keys : Keys) (arenaRadius : ℝ) (p : Player) : Player :=
  -- keyboard movement: later assignments override earlier ones
  let vy1 : ℝ := if keys.w || keys.arrowup then -1 else 0
  let vy2 : ℝ := if keys.s || keys.arrowdown then 1 else vy1
  let vx1 : ℝ := if keys.a || keys.arrowleft then -1 else 0
  let vx2 : ℝ := if keys.d || keys.arrowright then 1 else vx1
  -- mouse movement
  let m := p.mouseStep vx2 vy2
  let vx3 := m.1
  let vy3 := m.2.1
  let tx := m.2.2.1
  let ty := m.2.2.2
  -- normalize the movement vector
  let mag := Real.sqrt (vx3 * vx3 + vy3 * vy3)
  let vx4 := if 0 < mag then vx3 / mag else vx3
  let vy4 := if 0 < mag then vy3 / mag else vy3
  -- apply speed
  let effectiveSpeed := p.speed * p.speedBuff
  let x1 := p.x + vx4 * effectiveSpeed * deltaTime
  let y1 := p.y + vy4 * effectiveSpeed * deltaTime
  -- circular boundary confinement
  let x2 := Player.confineX arenaRadius p.radius x1 y1
  let y2 := Player.confineY arenaRadius p.radius x1 y1
  -- weapon rotation (wraps at 360)
  let a1 := p.currentAngle + p.rotateSpeed * deltaTime
  let a2 := if 360 ≤ a1 then a1 - 360 else a1
  -- buff and invincibility timers
  let auto1 := if 0 < p.autoCollectBuff then p.autoCollectBuff - deltaTime else p.autoCollectBuff
  let inv1 := if 0 < p.invincible then p.invincible - deltaTime else p.invincible
  { p with
    x := x2
    y := y2
    vx := vx4
    vy := vy4
    targetX := tx
    targetY := ty
    currentAngle := a2
    autoCollectBuff := auto1
    invincible := inv1 }

/-- The arguments of one Player.update call made by the driver. -/
structure UpdFrame where
  dt : ℝ
  keys : Keys
  arenaRadius : ℝ

/-- A sequence of Player.update calls, as the driver performs across
consecutive frames. -/
def Player.runUpdates (frames : List UpdFrame) (p : Player) : Player :=
  frames.foldl (fun q f => q.update f.dt f.keys f.arenaRadius) p

/-- Player.takeDamage(damage) (lines 268-276). -/
def Player.takeDamage (damage : ℝ) (p : Player) : Player :=
  if 0 < p.invincible then p
  else
    let actualDamage := max 1 (damage * (1 - p.defenseRate))
    let hp1 := p.hp - actualDamage
    let hp2 := if hp1 < 0 then 0 else hp1
    { p with hp := hp2, invincible := 0.5 }

/-- Player.gainExp(amount) (lines 278-280). -/
def Player.gainExp (amount : ℝ) (p : Player) : Player :=
  { p with exp := p.exp + amount }

/-- Player.checkLevelUp() (lines 282-289): returns the boolean result and the
mutated player. -/
def Player.checkLevelUp (p : Player) : Bool × Player :=
  if p.expToLevel ≤ p.exp then
    (true, { p with exp := p.exp - p.expToLevel, level := p.level + 1 })
  else (false, p)

/-- Player.heal(amount) (lines 291-293). -/
def Player.heal (amount : ℝ) (p : Player) : Player :=
  { p with hp := min p.maxHp (p.hp + amount) }

/-- One orbiting weapon position (the angle field is kept for the renderer). -/
structure WeaponPos where
  x : ℝ
  y : ℝ
  angle : ℝ

/-- Player.getWeaponPositions() (lines 295-309). -/
def Player.getWeaponPositions (p : Player) : List WeaponPos :=
  let angleStep : ℝ := 360 / (p.weaponCount : ℝ)
  (List.range p.weaponCount).map fun i =>
    let angle := ((p.currentAngle + (i : ℝ) * angleStep)) * pi / 180
    ⟨p.x + Real.cos angle * p.weaponRadius, p.y + Real.sin angle * p.weaponRadius, angle⟩

/-- Player.getPower() (lines 409-411). -/
def Player.getPower (p : Player) : ℤ :=
  ⌊(100 : ℝ) + (p.weaponCount : ℝ) * 10 + p.weaponDamage * 0.5 + p.defenseRate * 800⌋

/-! ## Enemy (src/game.js lines 415-556; draw code omitted) -/

inductive EType where
  | minion
  | elite
  | boss
deriving DecidableEq

/-- The per-archetype stat presets (lines 421-425). -/
structure EConfig where
  hp : ℝ
  speed : ℝ
  damage : ℝ
  exp : ℝ
  radius : ℝ
  color : String

def enemyConfigs : EType → EConfig
  | .minion => ⟨20, 80, 5, 5, 15, "#ff4444"⟩
  | .elite => ⟨80, 100, 10, 20, 18, "#ff8800"⟩
  | .boss => ⟨300, 120, 15, 100, 40, "#aa0000"⟩

/-- An enemy.  `id` is a modelling artifact standing for JavaScript object
identity: the delayed boss-attack callback closes over the enemy object, so
pending attacks record the id and look the object up when they fire.
The attackCooldown/attackInterval fields exist on every record but are only
read under a boss-type guard, exactly as in the source (where non-boss
enemies simply lack them). -/
structure Enemy where
  id : ℕ
  x : ℝ
  y : ℝ
  type : EType
  hp : ℝ
  maxHp : ℝ
  speed : ℝ
  damage : ℝ
  exp : ℝ
  radius : ℝ
  color : String
  isDead : Bool
  slowEffect : ℝ
  attackCooldown : ℝ
  attackInterval : ℝ

/-- Enemy constructor (lines 416-444).  For non-boss types the attack fields
are never read; they are initialised to 0 here. -/
def Enemy.init (id : ℕ) (x y : ℝ) (type : EType) : Enemy :=
  let config := enemyConfigs type
  { id := id
    x := x
    y := y
    type := type
    hp := config.hp
    maxHp := config.hp
    speed := config.speed
    damage := config.damage
    exp := config.exp
    radius := config.radius
    color := config.color
    isDead := false
    slowEffect := 0
    attackCooldown := 0
    attackInterval := if type = .boss then 5 else 0 }

/-- Enemy.update(deltaTime, playerX, playerY) (lines 446-469). -/
def Enemy.update (deltaTime playerX playerY : ℝ) (e : Enemy) : Enemy :=
  if e.isDead then e
  else
    let slow1 := if 0 < e.slowEffect then e.slowEffect - deltaTime else e.slowEffect
    let dx := playerX - e.x
    let dy := playerY - e.y
    let dist := Real.sqrt (dx * dx + dy * dy)
    let speedMult : ℝ := if 0 < slow1 then 0.7 else 1
    let x1 := if 0 < dist then e.x + (dx / dist) * e.speed * speedMult * deltaTime else e.x
    let y1 := if 0 < dist then e.y + (dy / dist) * e.speed * speedMult * deltaTime else e.y
    let cd1 := if e.type = .boss then e.attackCooldown - deltaTime else e.attackCooldown
    { e with x := x1, y := y1, slowEffect := slow1, attackCooldown := cd1 }

/-- Enemy.takeDamage(damage) (lines 471-477). -/
def Enemy.takeDamage (damage : ℝ) (e : Enemy) : Enemy :=
  let hp1 := e.hp - damage
  if hp1 ≤ 0 then { e with hp := 0, isDead := true }
  else { e with hp := hp1 }

/-- Enemy.applySlow() (lines 479-483). -/
def Enemy.applySlow (e : Enemy) : Enemy :=
  if e.type = .elite then { e with slowEffect := 2 } else e

/-- Enemy.canAttack() (lines 549-551). -/
def Enemy.canAttack (e : Enemy) : Prop :=
  e.type = .boss ∧ e.attackCooldown ≤ 0

instance (e : Enemy) : Decidable e.canAttack :=
  inferInstanceAs (Decidable (_ ∧ _))

/-- Enemy.performAttack() (lines 553-555). -/
def Enemy.performAttack (e : Enemy) : Enemy :=
  { e with attackCooldown := e.attackInterval }

/-! ## ExpOrb (src/game.js lines 559-640; draw code omitted) -/

structure ExpOrb where
  x : ℝ
  y : ℝ
  value : ℝ
  radius : ℝ
  collected : Bool
  attractDistance : ℝ
  attractSpeed : ℝ
  fastAttractDistance : ℝ
  fastAttractSpeed : ℝ

/-- ExpOrb constructor (lines 560-570). -/
def ExpOrb.init (x y value : ℝ) : ExpOrb :=
  ⟨x, y, value, 5, false, 100, 50, 300, 200⟩

/-- ExpOrb.update(deltaTime, player, forceAttract) (lines 572-605): returns
the mutated orb and the collected experience value (0 when nothing was
collected, matching the `gained > 0` test in the driver). -/
def ExpOrb.update (deltaTime : ℝ) (player : Player) (forceAttract : Bool)
    (o : ExpOrb) : ExpOrb × ℝ :=
  if o.collected then (o, 0)
  else
    let dx := player.x - o.x
    let dy := player.y - o.y
    let dist := Real.sqrt (dx * dx + dy * dy)
    let auto := 0 < player.autoCollectBuff ∨ dist < o.attractDistance
    let fast := forceAttract = true ∧ dist < o.fastAttractDistance
    let shouldAttract := auto ∨ fast
    let speed := if fast then o.fastAttractSpeed else if auto then o.attractSpeed else o.attractSpeed
    let x1 := if shouldAttract ∧ 1 < dist then o.x + (dx / dist) * speed * deltaTime else o.x
    let y1 := if shouldAttract ∧ 1 < dist then o.y + (dy / dist) * speed * deltaTime else o.y
    if Utils.circleCollision x1 y1 o.radius player.x player.y player.radius then
      ({ o with x := x1, y := y1, collected := true }, o.value)
    else ({ o with x := x1, y := y1 }, 0)

/-! ## Chest (src/game.js lines 643-718; draw code omitted) -/

/-- A chest reward descriptor (lines 668-674); the display name and
description strings are cosmetic and omitted. -/
inductive RewardId where
  | weapon_supply
  | sharp_upgrade
  | auto_collect
  | speed_burst
  | weapon_swap
deriving DecidableEq

/-- The fixed 5-entry chest reward catalog, in source order. -/
def chestRewards : List RewardId :=
  [.weapon_supply, .sharp_upgrade, .auto_collect, .speed_burst, .weapon_swap]

structure Chest where
  x : ℝ
  y : ℝ
  radius : ℝ
  isOpen : Bool
  collected : Bool
  glowPhase : ℝ

/-- Chest constructor (lines 644-651). -/
def Chest.init (x y : ℝ) : Chest := ⟨x, y, 25, false, false, 0⟩

/-- Chest.update(deltaTime, player) (lines 653-665).  `draw` is the
randomInt(0, 4) draw made by getRandomReward when the chest is collected. -/
def Chest.update (deltaTime : ℝ) (player : Player) (draw : Fin 5)
    (c : Chest) : Chest × Option RewardId :=
  if c.collected then (c, Option.none)
  else
    let glow1 := c.glowPhase + deltaTime * 3
    if c.isOpen = false ∧
        Utils.circleCollision c.x c.y c.radius player.x player.y player.radius then
      ({ c with glowPhase := glow1, isOpen := true, collected := true },
        chestRewards.get? draw)
    else ({ c with glowPhase := glow1 }, Option.none)

/-! ## Particle (src/game.js lines 721-752; draw code omitted) -/

structure Particle where
  x : ℝ
  y : ℝ
  color : String
  size : ℝ
  vx : ℝ
  vy : ℝ
  life : ℝ
  maxLife : ℝ

/-- Particle constructor (lines 722-731). -/
def Particle.init (x y : ℝ) (color : String) (size vx vy life : ℝ) : Particle :=
  ⟨x, y, color, size, vx, vy, life, life⟩

/-- Particle.update(deltaTime) (lines 733-737). -/
def Particle.update (deltaTime : ℝ) (pt : Particle) : Particle :=
  { pt with
    x := pt.x + pt.vx * deltaTime
    y := pt.y + pt.vy * deltaTime
    life := pt.life - deltaTime }

/-- Particle.isDead() (lines 749-751). -/
def Particle.isDead (pt : Particle) : Prop := pt.life ≤ 0

instance (pt : Particle) : Decidable pt.isDead :=
  inferInstanceAs (Decidable (_ ≤ _))

/-! ## Game driver (src/game.js lines 755-1330; rendering, audio and DOM
widget code omitted).

The driver's Math.random draws are supplied by an explicit `Env` oracle per
frame, and the two setTimeout uses (delayed boss-attack resolution, line
913, and the speed-burst revert, line 1097) are modelled as pending-event
lists fired by the event-loop step between frames. -/

/-- this.state: 'playing', 'paused', 'levelup', 'gameover', 'victory'
(line 777; gameplay only ever sets playing, levelup and gameover). -/
inductive GState where
  | playing
  | paused
  | levelup
  | gameover
  | victory
deriving DecidableEq

/-- The 9-entry level-up skill catalog (lines 1152-1162); display strings
are cosmetic and omitted. -/
inductive Skill where
  | add_weapon
  | damage_boost
  | radius_expand
  | rotate_faster
  | hp_boost
  | speed_boost
  | defense_up
  | emergency_heal
  | exp_magnet
deriving DecidableEq

/-- The random draws consumed by one Game.killEnemy call: offsets for the 3
experience orbs (randomFloat(-20,20)) and angle/speed/size/life for the 10
burst particles. -/
structure KillDraw where
  orbOffX : Fin 3 → ℝ
  orbOffY : Fin 3 → ℝ
  pAngle : Fin 10 → ℝ
  pSpeed : Fin 10 → ℝ
  pSize : Fin 10 → ℝ
  pLife : Fin 10 → ℝ

/-- The random draws consumed when one chest is collected: the reward index
(randomInt(0,4)) and, for the weapon_swap reward, the new weapon type. -/
structure ChestDraw where
  reward : Fin 5
  swapType : ℕ

/-- The per-frame oracle for every Math.random consumption of one driver
update, plus the held-key snapshot.  killDraws is indexed by the kill count
at the time of the kill, chestDraws by the chest's position in the chest
list, chestAngle/chestDist by the spawn attempt number. -/
structure Env where
  keys : Keys
  killDraws : ℕ → KillDraw
  chestDraws : ℕ → ChestDraw
  minionAngle : ℕ → ℝ
  eliteAngle : ℝ
  bossAngle : ℝ
  chestAngle : ℕ → ℝ
  chestDist : ℕ → ℝ
  shuffledSkills : List Skill

/-- A scheduled boss-attack resolution (the setTimeout at lines 913-918):
the callback closes over the enemy object, modelled by its id. -/
structure PendingAttack where
  remaining : ℝ
  enemyId : ℕ

structure GameState where
  state : GState
  isPaused : Bool
  player : Player
  enemies : List Enemy
  expOrbs : List ExpOrb
  chests : List Chest
  particles : List Particle
  score : ℝ
  killCount : ℕ
  survivalTime : ℝ
  enemySpawnTimer : ℝ
  eliteSpawnTimer : ℝ
  chestSpawnTimer : ℝ
  bossSpawned : Bool
  bossAlive : Bool
  pendingSkills : List Skill
  pendingAttacks : List PendingAttack
  pendingReverts : List ℝ
  removedEnemies : List Enemy
  nextId : ℕ

namespace Game

/-- canvas.width / 2 (line 762). -/
def centerX : ℝ := 600
/-- canvas.height / 2 (line 763). -/
def centerY : ℝ := 400
/-- this.arenaRadius (line 764). -/
def arenaRadius : ℝ := 500

/-- Game.init() (lines 776-798).  removedEnemies keeps the enemy objects
that were filtered out of the active array but may still be referenced by a
pending attack callback (a modelling artifact for the JavaScript heap). -/
def initState : GameState where
  state := .playing
  isPaused := false
  player := Player.init centerX centerY
  enemies := []
  expOrbs := []
  chests := []
  particles := []
  score := 0
  killCount := 0
  survivalTime := 0
  enemySpawnTimer := 0
  eliteSpawnTimer := 0
  chestSpawnTimer := 0
  bossSpawned := false
  bossAlive := false
  pendingSkills := []
  pendingAttacks := []
  pendingReverts := []
  removedEnemies := []
  nextId := 0

/-- Game.gameOver(victory) (lines 1220-1246): both outcomes set the same
terminal 'gameover' state; the rest of the method is DOM/audio output. -/
def gameOver (_victory : Bool) (s : GameState) : GameState :=
  { s with state := .gameover }

/-- Game.killEnemy(enemy) (lines 1034-1064). -/
def killEnemy (kd : ℕ → KillDraw) (s : GameState) (enemy : Enemy) : GameState :=
  let d := kd s.killCount
  let s1 : GameState := { s with killCount := s.killCount + 1 }
  let orbs := List.ofFn fun i : Fin 3 =>
    ExpOrb.init (enemy.x + d.orbOffX i) (enemy.y + d.orbOffY i) (enemy.exp / 3)
  let s2 : GameState := { s1 with expOrbs := s1.expOrbs ++ orbs }
  let parts := List.ofFn fun i : Fin 10 =>
    Particle.init enemy.x enemy.y enemy.color (d.pSize i)
      (Real.cos (d.pAngle i) * d.pSpeed i) (Real.sin (d.pAngle i) * d.pSpeed i)
      (d.pLife i)
  let s3 : GameState := { s2 with particles := s2.particles ++ parts }
  if enemy.type = .boss then
    gameOver true { s3 with bossAlive := false, score := s3.score + 50 }
  else s3

/-- Game.createBossAttackWarning(x, y) (lines 1066-1082): 30 stationary
warning particles on the radius-200 circle around the trigger position. -/
def createBossAttackWarning (x y : ℝ) (s : GameState) : GameState :=
  let parts := (List.range 30).map fun i =>
    let angle := ((i : ℝ) / 30) * (2 * pi)
    Particle.init (x + Real.cos angle * 200) (y + Real.sin angle * 200)
      "#ff0000" 4 0 0 0.5
  { s with particles := s.particles ++ parts }

/-- The weapon-vs-enemy inner loop of Game.update (lines 896-906): for each
weapon position, on overlap apply weapon damage and, if the enemy is (now)
dead, run killEnemy.  Returns the driver state and the mutated enemy. -/
def weaponLoop (kd : ℕ → KillDraw) (weaponDamage : ℝ) :
    List WeaponPos → GameState → Enemy → GameState × Enemy
  | [], s, e => (s, e)
  | wp :: rest, s, e =>
      if Utils.circleCollision wp.x wp.y 8 e.x e.y e.radius then
        let e1 := e.takeDamage weaponDamage
        let s1 : GameState := if e1.isDead then killEnemy kd s e1 else s
        weaponLoop kd weaponDamage rest s1 e1
      else weaponLoop kd weaponDamage rest s e

/-- The body of the enemies.forEach in Game.update (lines 884-920): advance
the enemy, apply contact damage to the player, run the weapon loop, and
trigger the delayed boss attack when eligible. -/
def processOneEnemy (deltaTime : ℝ) (kd : ℕ → KillDraw) (s : GameState)
    (e : Enemy) : GameState × Enemy :=
  let e1 := e.update deltaTime s.player.x s.player.y
  let s1 : GameState :=
    if Utils.circleCollision e1.x e1.y e1.radius s.player.x s.player.y s.player.radius then
      { s with player := s.player.takeDamage e1.damage }
    else s
  let wps := s1.player.getWeaponPositions
  let r := weaponLoop kd s1.player.weaponDamage wps s1 e1
  let s2 : GameState := r.1
  let e2 := r.2
  if e2.canAttack then
    let e3 := e2.performAttack
    let s3 : GameState := createBossAttackWarning e2.x e2.y s2
    ({ s3 with pendingAttacks := s3.pendingAttacks ++ [⟨0.5, e2.id⟩] }, e3)
  else (s2, e2)

/-- The enemies.forEach traversal (lines 884-920), threading the driver
state and collecting the mutated enemies in order. -/
def enemiesLoop (deltaTime : ℝ) (kd : ℕ → KillDraw) :
    GameState → List Enemy → GameState × List Enemy
  | s, [] => (s, [])
  | s, e :: rest =>
      let r := processOneEnemy deltaTime kd s e
      let rr := enemiesLoop deltaTime kd r.1 rest
      (rr.1, r.2 :: rr.2)

/-- The expOrbs.forEach traversal (lines 926-932): each collected orb's
value is added to the player's experience. -/
def orbLoop (deltaTime : ℝ) (forceAttract : Bool) :
    Player → List ExpOrb → Player × List ExpOrb
  | pl, [] => (pl, [])
  | pl, o :: rest =>
      let r := ExpOrb.update deltaTime pl forceAttract o
      let pl1 := if 0 < r.2 then pl.gainExp r.2 else pl
      let rr := orbLoop deltaTime forceAttract pl1 rest
      (rr.1, r.1 :: rr.2)

/-- Game.applyChestReward(reward) (lines 1084-1107).  The speed_burst case
schedules a 10-second revert of the speed buff (the setTimeout at line
1097), modelled by pushing onto pendingReverts. -/
def applyChestReward (cd : ChestDraw) (reward : RewardId) (s : GameState) : GameState :=
  match reward with
  | .weapon_supply =>
      { s with player := { s.player with weaponCount := min 8 (s.player.weaponCount + 4) } }
  | .sharp_upgrade =>
      { s with player := { s.player with weaponDamage := s.player.weaponDamage + 10 } }
  | .auto_collect =>
      { s with player := { s.player with autoCollectBuff := 30 } }
  | .speed_burst =>
      { s with
        player := { s.player with speedBuff := 1.5 }
        pendingReverts := s.pendingReverts ++ [10] }
  | .weapon_swap =>
      { s with player := { s.player with weaponType := cd.swapType } }

/-- The chests.forEach traversal (lines 936-942); the index selects the
chest's random draws from the oracle. -/
def chestLoop (deltaTime : ℝ) (cds : ℕ → ChestDraw) :
    ℕ → GameState → List Chest → GameState × List Chest
  | _, s, [] => (s, [])
  | i, s, c :: rest =>
      let r := Chest.update deltaTime s.player (cds i).reward c
      let s1 : GameState := match r.2 with
        | some reward => applyChestReward (cds i) reward s
        | Option.none => s
      let rr := chestLoop deltaTime cds (i + 1) s1 rest
      (rr.1, r.1 :: rr.2)

/-- Game.spawnEnemy(type) (lines 994-1000) at a given boundary angle. -/
def mkBoundaryEnemy (id : ℕ) (angle : ℝ) (type : EType) : Enemy :=
  Enemy.init id (centerX + Real.cos angle * arenaRadius)
    (centerY + Real.sin angle * arenaRadius) type

/-- Game.spawnEnemies(deltaTime) (lines 973-992). -/
def spawnEnemies (deltaTime : ℝ) (env : Env) (s : GameState) : GameState :=
  -- minion wave
  let t1 := s.enemySpawnTimer + deltaTime
  let s1 : GameState :=
    if 10 ≤ t1 then
      let count : ℕ := (min (3 + ⌊s.survivalTime / 60⌋) 8 : ℤ).toNat
      { s with
        enemies := s.enemies ++ ((List.range count).map fun i =>
          mkBoundaryEnemy (s.nextId + i) (env.minionAngle i) .minion)
        nextId := s.nextId + count
        enemySpawnTimer := 0 }
    else { s with enemySpawnTimer := t1 }
  -- elite spawning starts after 30s of survival
  if 30 ≤ s1.survivalTime then
    let t2 := s1.eliteSpawnTimer + deltaTime
    if 30 ≤ t2 then
      { s1 with
        enemies := s1.enemies ++ [mkBoundaryEnemy s1.nextId env.eliteAngle .elite]
        nextId := s1.nextId + 1
        eliteSpawnTimer := 0 }
    else { s1 with eliteSpawnTimer := t2 }
  else s1

/-- The candidate-rejection loop of Game.spawnChest (lines 1002-1018):
try up to 10 random positions, placing a chest at the first one at least
80 units from the player; if all attempts fail no chest spawns. -/
def trySpawnChest (player : Player) : List (ℝ × ℝ) → List Chest → List Chest
  | [], chests => chests
  | c :: rest, chests =>
      let x := centerX + Real.cos c.1 * c.2
      let y := centerY + Real.sin c.1 * c.2
      if Utils.distance x y player.x player.y < 80 then trySpawnChest player rest chests
      else chests ++ [Chest.init x y]

/-- Game.spawnChest() (lines 1002-1018). -/
def spawnChest (env : Env) (s : GameState) : GameState :=
  { s with
    chests := trySpawnChest s.player
      ((List.range 10).map fun i => (env.chestAngle i, env.chestDist i)) s.chests }

/-- Game.spawnBoss() (lines 1020-1032); the warning modal and audio cue are
external output. -/
def spawnBoss (env : Env) (s : GameState) : GameState :=
  { s with
    bossSpawned := true
    bossAlive := true
    enemies := s.enemies ++ [mkBoundaryEnemy s.nextId env.bossAngle .boss]
    nextId := s.nextId + 1 }

/-- Game.showSkillSelection() (lines 1114-1149): suspend gameplay and store
the three offered skills (the shuffled catalog's first three entries; the
countdown and modal are external UI). -/
def showSkillSelection (env : Env) (s : GameState) : GameState :=
  { s with state := .levelup, pendingSkills := env.shuffledSkills.take 3 }

/-- Game.update step 1 (line 871): accumulate survival time. -/
def updSurvivalTime (deltaTime : ℝ) (s : GameState) : GameState :=
  { s with survivalTime := s.survivalTime + deltaTime }

/-- Game.update step 2 (line 875): advance the player. -/
def updPlayer (deltaTime : ℝ) (env : Env) (s : GameState) : GameState :=
  { s with player := s.player.update deltaTime env.keys arenaRadius }

/-- Game.update step 3 (lines 878-881): the level-up check; on level-up the
skill-selection pause opens. -/
def updLevelUp (env : Env) (s : GameState) : GameState :=
  let lv := s.player.checkLevelUp
  let s1 : GameState := { s with player := lv.2 }
  if lv.1 then showSkillSelection env s1 else s1

/-- Game.update step 4 (lines 884-920): the enemies pass. -/
def updEnemies (deltaTime : ℝ) (env : Env) (s : GameState) : GameState :=
  let er := enemiesLoop deltaTime env.killDraws s s.enemies
  { er.1 with enemies := er.2 }

/-- Game.update step 5 (line 923): drop dead enemies from the active array
(the objects stay on the modelled heap). -/
def updRemoveDead (s : GameState) : GameState :=
  { s with
    enemies := s.enemies.filter fun e => !e.isDead
    removedEnemies := s.removedEnemies ++ (s.enemies.filter fun e => e.isDead) }

/-- Game.update step 6 (lines 926-933): the experience-orb pass. -/
def updOrbs (deltaTime : ℝ) (forceAttract : Bool) (s : GameState) : GameState :=
  let orr := orbLoop deltaTime forceAttract s.player s.expOrbs
  { s with player := orr.1, expOrbs := orr.2.filter fun o => !o.collected }

/-- Game.update step 7 (lines 936-943): the chest pass. -/
def updChests (deltaTime : ℝ) (env : Env) (s : GameState) : GameState :=
  let cr := chestLoop deltaTime env.chestDraws 0 s s.chests
  { cr.1 with chests := cr.2.filter fun c => !c.collected }

/-- Game.update step 8 (lines 946-947): the particle pass. -/
def updParticles (deltaTime : ℝ) (s : GameState) : GameState :=
  { s with
    particles := (s.particles.map (Particle.update deltaTime)).filter
      fun pt => decide (¬ pt.isDead) }

/-- Game.update step 9b (lines 953-957): the chest spawn timer. -/
def updChestSpawn (deltaTime : ℝ) (env : Env) (s : GameState) : GameState :=
  let t := s.chestSpawnTimer + deltaTime
  if 45 ≤ t then { spawnChest env s with chestSpawnTimer := 0 }
  else { s with chestSpawnTimer := t }

/-- Game.update step 10 (lines 960-962): the boss spawn check. -/
def updBossCheck (env : Env) (s : GameState) : GameState :=
  if s.bossSpawned = false ∧ (10 ≤ s.player.level ∨ 120 ≤ s.survivalTime) then
    spawnBoss env s
  else s

/-- Game.update step 11 (lines 965-967): the defeat check. -/
def updDefeatCheck (s : GameState) : GameState :=
  if s.player.hp ≤ 0 then gameOver false s else s

/-- Game.update step 12 (line 970): the score recompute. -/
def updScore (s : GameState) : GameState :=
  { s with score := (s.killCount : ℝ) * 10 + (⌊s.survivalTime⌋ : ℝ) * 2 }

/-- Game.update(deltaTime) (lines 870-971), as the composition of its
sequential steps. -/
def update (deltaTime : ℝ) (env : Env) (s : GameState) : GameState :=
  updScore (updDefeatCheck (updBossCheck env (updChestSpawn deltaTime env
    (spawnEnemies deltaTime env (updParticles deltaTime (updChests deltaTime env
      (updOrbs deltaTime env.keys.space (updRemoveDead (updEnemies deltaTime env
        (updLevelUp env (updPlayer deltaTime env (updSurvivalTime deltaTime s))))))))))))

/-- The delayed boss-attack callback (lines 913-918): reads the captured
enemy object's position at resolution time and the player's current
position; damage applies only within 200 units. -/
def resolveBossAttack (aid : ℕ) (s : GameState) : GameState :=
  match (s.enemies ++ s.removedEnemies).find? fun e => e.id == aid with
  | some enemy =>
      if Utils.distance s.player.x s.player.y enemy.x enemy.y < 200 then
        { s with player := s.player.takeDamage 15 }
      else s
  | Option.none => s

/-- The event-loop step between frames: advance both pending-timer kinds by
the frame time and fire the expired ones (boss-attack resolutions, then
speed-buff reverts). -/
def fireTimers (deltaTime : ℝ) (s : GameState) : GameState :=
  let atks := s.pendingAttacks.map fun a => { a with remaining := a.remaining - deltaTime }
  let s1 : GameState := (atks.filter fun a => decide (a.remaining ≤ 0)).foldl
    (fun acc a => resolveBossAttack a.enemyId acc) s
  let s2 : GameState := { s1 with pendingAttacks := atks.filter fun a => decide (0 < a.remaining) }
  let revs := s.pendingReverts.map fun r => r - deltaTime
  let s3 : GameState := (revs.filter fun r => decide (r ≤ 0)).foldl
    (fun acc _ => { acc with player := { acc.player with speedBuff := 1.0 } }) s2
  { s3 with pendingReverts := revs.filter fun r => decide (0 < r) }

/-- Game.selectSkill(skill) (lines 1168-1175). -/
def selectSkill (skill : Skill) (s : GameState) : GameState :=
  let s1 : GameState := applySkill skill s
  { s1 with state := .playing }
where
  /-- Game.applySkill(skill) (lines 1177-1209). -/
  applySkill (skill : Skill) (s : GameState) : GameState :=
    match skill with
    | .add_weapon =>
        { s with player := { s.player with weaponCount := min 8 (s.player.weaponCount + 1) } }
    | .damage_boost =>
        { s with player := { s.player with weaponDamage := s.player.weaponDamage * 1.1 } }
    | .radius_expand =>
        { s with player := { s.player with weaponRadius := min 150 (s.player.weaponRadius + 10) } }
    | .rotate_faster =>
        { s with player := { s.player with rotateSpeed := s.player.rotateSpeed * 1.25 } }
    | .hp_boost =>
        { s with player := { s.player with maxHp := s.player.maxHp + 20, hp := s.player.hp + 20 } }
    | .speed_boost =>
        { s with player := { s.player with speed := min 200 (s.player.speed * 1.05) } }
    | .defense_up =>
        { s with player := { s.player with defenseRate := min 0.5 (s.player.defenseRate + 0.1) } }
    | .emergency_heal =>
        { s with player := s.player.heal 40 }
    | .exp_magnet =>
        { s with
          player := s.player.gainExp (s.expOrbs.foldr (fun o sum => sum + o.value) 0)
          expOrbs := s.expOrbs.map fun o => { o with collected := true } }

/-- One driver frame input: the (externally clamped) frame time, the input
events delivered since the last frame (pointer target, skill-card click or
countdown expiry with the chosen index), and the oracle for this frame's
random draws. -/
structure FrameInput where
  dt : ℝ
  mouse : Option (ℝ × ℝ)
  select : Bool
  skillIndex : ℕ
  env : Env

/-- One iteration of the driver's cooperative loop: fire expired timers,
deliver pointer input (Game.handleMouseMove, lines 846-853), then run the
state-appropriate step — Game.update while playing, skill selection while
paused for level-up, nothing after game over. -/
def frame (inp : FrameInput) (s : GameState) : GameState :=
  let s1 : GameState := fireTimers inp.dt s
  let s2 : GameState := match inp.mouse with
    | some m =>
        { s1 with player := { s1.player with targetX := some m.1, targetY := some m.2 } }
    | Option.none => s1
  match s2.state with
  | .playing => update inp.dt inp.env s2
  | .levelup =>
      if inp.select then
        selectSkill (s2.pendingSkills.getD inp.skillIndex .add_weapon) s2
      else s2
  | _ => s2

/-- The states a single game session can reach: the constructor state
followed by any number of driver frames. -/
inductive Reachable : GameState → Prop
  | init : Reachable initState
  | step (inp : FrameInput) {s : GameState} : Reachable s → Reachable (frame inp s)

/-- The trace of driver states under a stream of frame inputs. -/
def run (inputs : ℕ → FrameInput) : ℕ → GameState
  | 0 => initState
  | n + 1 => frame (inputs n) (run inputs n)

end Game

/-! ## Concrete scenario states used to exercise the driver -/

/-- A draw oracle with fixed, in-range values: orb offsets 0, particle
angle 0, speed 50, size 2, life 0.5. -/
def trivialKillDraw : KillDraw :=
  ⟨fun _ => 0, fun _ => 0, fun _ => 0, fun _ => 50, fun _ => 2, fun _ => 0.5⟩

/-- A frame oracle with no keys held and fixed random draws. -/
def trivialEnv : Env where
  keys := Keys.none
  killDraws := fun _ => trivialKillDraw
  chestDraws := fun _ => ⟨0, 0⟩
  minionAngle := fun _ => 0
  eliteAngle := 0
  bossAngle := 0
  chestAngle := fun _ => 0
  chestDist := fun _ => 0
  shuffledSkills := []

/-- The number of weapon positions in wps that overlap enemy e (weapon
collision circles have radius 8, as in Game.update line 898). -/
def collidingCount (wps : List WeaponPos) (e : Enemy) : ℕ :=
  wps.countP fun wp => decide (Utils.circleCollision wp.x wp.y 8 e.x e.y e.radius)

/-- How many kill resolutions the weapon pass runs on an enemy that enters
it alive with the given hit points, per-hit damage and number of colliding
weapon positions: one per colliding hit from the killing one onward, i.e.
the number of j in [1..c] with hp ≤ j * dmg. -/
def killResolutions (hp dmg : ℝ) (c : ℕ) : ℕ :=
  (List.range c).countP fun (j : ℕ) => decide (hp ≤ dmg * ((j : ℝ) + 1))

/-- A boss on the positive x axis at distance 120 from the player origin,
worn down to 10 hp, with its attack on cooldown. -/
def c3Boss : Enemy :=
  { Enemy.init 0 120 0 .boss with hp := 10, attackCooldown := 5 }

/-- Scenario state for the score claim: the player at the origin with the
base two weapons (one of which overlaps the boss), and the 10-hp boss about
to die this frame. -/
def c3State : GameState :=
  { Game.initState with
    player := Player.init 0 0
    enemies := [c3Boss]
    bossSpawned := true
    bossAlive := true }

/-- A player at the origin that has grown to six orbiting weapons. -/
def c2Player : Player := { Player.init 0 0 with weaponCount := 6 }

/-- A 10-hp boss placed at (60, 20*sqrt 3), equidistant (40 units) from two
adjacent weapon positions of the six-weapon orbit, attack on cooldown. -/
def c2Boss : Enemy :=
  { Enemy.init 0 60 (20 * Real.sqrt 3) .boss with hp := 10, attackCooldown := 5 }

/-- Scenario state for the kill-resolution claim: two of the player's six
weapon positions overlap the dying boss in the same frame. -/
def c2State : GameState :=
  { Game.initState with
    player := c2Player
    enemies := [c2Boss]
    bossSpawned := true
    bossAlive := true }

/-- Boss-attack scenario (C8): the boss starts at (360, 0) with 0.1s left on
its attack cooldown; the player idles at (140, 0). -/
def c8Boss : Enemy := { Enemy.init 7 360 0 .boss with attackCooldown := 0.1 }

def c8State : GameState :=
  { Game.initState with
    player := Player.init 140 0
    enemies := [c8Boss]
    bossSpawned := true
    bossAlive := true }

/-- An idle frame input (no keys held, no pointer event, no skill click). -/
def c8Inp (dt : ℝ) : Game.FrameInput := ⟨dt, Option.none, false, 0, trivialEnv⟩

/-- The 30 warning-ring particles spawned at the trigger position (348, 0),
as they stand after the trigger frame's own particle pass (life 0.4). -/
def c8Parts : List Particle :=
  (List.range 30).map fun i =>
    ⟨348 + Real.cos (((i : ℝ) / 30) * (2 * pi)) * 200,
      0 + Real.sin (((i : ℝ) / 30) * (2 * pi)) * 200, "#ff0000", 4, 0, 0, 0.4, 0.5⟩

/-- The driver state after the trigger frame (dt = 0.1): the boss moved to
x = 348 and scheduled the delayed attack. -/
def c8S1 : GameState :=
  { Game.initState with
    player := { Player.init 140 0 with currentAngle := 12 }
    enemies := [{ c8Boss with x := 348, attackCooldown := 5 }]
    particles := c8Parts
    survivalTime := 0.1
    enemySpawnTimer := 0.1
    chestSpawnTimer := 0.1
    bossSpawned := true
    bossAlive := true
    pendingAttacks := [⟨0.5, 7⟩] }

/-- The driver state after the second frame (dt = 0.4): the boss moved on to
x = 300 while the pending attack still has 0.1s left. -/
def c8S2 : GameState :=
  { Game.initState with
    player := { Player.init 140 0 with currentAngle := 60 }
    enemies := [{ c8Boss with x := 300, attackCooldown := 4.6 }]
    survivalTime := 0.5
    enemySpawnTimer := 0.5
    chestSpawnTimer := 0.5
    bossSpawned := true
    bossAlive := true
    pendingAttacks := [⟨0.1, 7⟩] }

/-- The driver state after the third frame (dt = 0.1): the attack fired
against the boss's live position x = 300 (160 < 200 away), so the player
took the 15 damage. -/
def c8S3 : GameState :=
  { Game.initState with
    player := { Player.init 140 0 with currentAngle := 72, hp := 85, invincible := 0.4 }
    enemies := [{ c8Boss with x := 288, attackCooldown := 4.5 }]
    survivalTime := 0.6
    enemySpawnTimer := 0.6
    chestSpawnTimer := 0.6
    bossSpawned := true
    bossAlive := true }

/-! ## Basic facts about Player.update -/

@[simp] theorem Player.update_radius (dt : ℝ) (keys : Keys) (R : ℝ) (p : Player) :
    (p.update dt keys R).radius = p.radius := rfl

@[simp] theorem Player.update_hp (dt : ℝ) (keys : Keys) (R : ℝ) (p : Player) :
    (p.update dt keys R).hp = p.hp := rfl

@[simp] theorem Player.update_maxHp (dt : ℝ) (keys : Keys) (R : ℝ) (p : Player) :
    (p.update dt keys R).maxHp = p.maxHp := rfl

@[simp] theorem Player.update_level (dt : ℝ) (keys : Keys) (R : ℝ) (p : Player) :
    (p.update dt keys R).level = p.level := rfl

@[simp] theorem Player.update_exp (dt : ℝ) (keys : Keys) (R : ℝ) (p : Player) :
    (p.update dt keys R).exp = p.exp := rfl

@[simp] theorem Player.update_expToLevel (dt : ℝ) (keys : Keys) (R : ℝ) (p : Player) :
    (p.update dt keys R).expToLevel = p.expToLevel := rfl

@[simp] theorem Player.update_weaponCount (dt : ℝ) (keys : Keys) (R : ℝ) (p : Player) :
    (p.update dt keys R).weaponCount = p.weaponCount := rfl

@[simp] theorem Player.update_weaponDamage (dt : ℝ) (keys : Keys) (R : ℝ) (p : Player) :
    (p.update dt keys R).weaponDamage = p.weaponDamage := rfl

@[simp] theorem Player.update_weaponRadius (dt : ℝ) (keys : Keys) (R : ℝ) (p : Player) :
    (p.update dt keys R).weaponRadius = p.weaponRadius := rfl

@[simp] theorem Player.update_rotateSpeed (dt : ℝ) (keys : Keys) (R : ℝ) (p : Player) :
    (p.update dt keys R).rotateSpeed = p.rotateSpeed := rfl

@[simp] theorem Player.update_defenseRate (dt : ℝ) (keys : Keys) (R : ℝ) (p : Player) :
    (p.update dt keys R).defenseRate = p.defenseRate := rfl

@[simp] theorem Player.update_speed (dt : ℝ) (keys : Keys) (R : ℝ) (p : Player) :
    (p.update dt keys R).speed = p.speed := rfl

@[simp] theorem Player.update_speedBuff (dt : ℝ) (keys : Keys) (R : ℝ) (p : Player) :
    (p.update dt keys R).speedBuff = p.speedBuff := rfl

@[simp] theorem Player.update_weaponType (dt : ℝ) (keys : Keys) (R : ℝ) (p : Player) :
    (p.update dt keys R).weaponType = p.weaponType := rfl

/-- The invincibility timer after Player.update: decremented only while
positive (lines 263-265). -/
theorem Player.update_invincible (dt : ℝ) (keys : Keys) (R : ℝ) (p : Player) :
    (p.update dt keys R).invincible =
      if 0 < p.invincible then p.invincible - dt else p.invincible := rfl

/-- The auto-collect buff timer after Player.update: decremented only while
positive (lines 254-256). -/
theorem Player.update_autoCollectBuff (dt : ℝ) (keys : Keys) (R : ℝ) (p : Player) :
    (p.update dt keys R).autoCollectBuff =
      if 0 < p.autoCollectBuff then p.autoCollectBuff - dt else p.autoCollectBuff := rfl

/-- The radial clamp keeps the position within distance arenaRadius - radius
from the arena origin. -/
theorem Player.confine_dist_le (R r x y : ℝ) (hR : r ≤ R) :
    Utils.distance 0 0 (Player.confineX R r x y) (Player.confineY R r x y) ≤ R - r := by
  unfold Player.confineX Player.confineY Utils.distance
  by_cases hc : R < Real.sqrt (x * x + y * y) + r
  · rw [if_pos hc, if_pos hc]
    have h2 := Real.sin_sq_add_cos_sq (Complex.arg ⟨x, y⟩)
    have h1 : (Real.cos (Complex.arg ⟨x, y⟩) * (R - r) - 0) ^ 2 +
        (Real.sin (Complex.arg ⟨x, y⟩) * (R - r) - 0) ^ 2 = (R - r) ^ 2 := by
      nlinarith [h2]
    rw [h1, Real.sqrt_sq_eq_abs, abs_of_nonneg (by linarith)]
  · rw [if_neg hc, if_neg hc]
    push_neg at hc
    have h3 : (x - 0) ^ 2 + (y - 0) ^ 2 = x * x + y * y := by ring
    rw [h3]
    have h4 := Real.sqrt_nonneg (x * x + y * y)
    linarith

/-- C1: for every frame time, every input snapshot and every starting state,
Player.update leaves the player's distance from the arena origin at most
arenaRadius - radius: the player is confined to the arena disk. -/
theorem player_update_confined (deltaTime : ℝ) (keys : Keys) (arenaRadius : ℝ)
    (p : Player) (hR : p.radius ≤ arenaRadius) :
    Utils.distance 0 0 (p.update deltaTime keys arenaRadius).x
      (p.update deltaTime keys arenaRadius).y ≤ arenaRadius - p.radius := by
  simp only [Player.update]
  exact Player.confine_dist_le _ _ _ _ hR

/-- Witness for C1 at a concrete state: the freshly constructed player with
the game's arena radius 500. -/
theorem player_update_confined_witness :
    Utils.distance 0 0 ((Player.init 0 0).update 0 Keys.none 500).x
      ((Player.init 0 0).update 0 Keys.none 500).y ≤ 500 - (Player.init 0 0).radius :=
  player_update_confined 0 Keys.none 500 (Player.init 0 0) (by norm_num [Player.init])

/-! ## Basic facts about Player.takeDamage and the grace window -/

theorem Player.takeDamage_of_invincible {p : Player} (d : ℝ) (h : 0 < p.invincible) :
    p.takeDamage d = p := by
  simp [Player.takeDamage, h]

theorem Player.takeDamage_hp_of_vulnerable {p : Player} (d : ℝ) (h : p.invincible ≤ 0) :
    (p.takeDamage d).hp = max 0 (p.hp - max 1 (d * (1 - p.defenseRate))) := by
  rw [Player.takeDamage, if_neg (not_lt.mpr h)]
  by_cases hh : p.hp - max 1 (d * (1 - p.defenseRate)) < 0
  · simp only [if_pos hh]
    exact (max_eq_left hh.le).symm
  · simp only [if_neg hh]
    exact (max_eq_right (not_lt.mp hh)).symm

theorem Player.takeDamage_invincible_of_vulnerable {p : Player} (d : ℝ)
    (h : p.invincible ≤ 0) : (p.takeDamage d).invincible = 0.5 := by
  rw [Player.takeDamage, if_neg (not_lt.mpr h)]

theorem Player.runUpdates_hp (frames : List UpdFrame) (p : Player) :
    (Player.runUpdates frames p).hp = p.hp := by
  induction frames generalizing p with
  | nil => rfl
  | cons f rest ih =>
      simp only [Player.runUpdates, List.foldl_cons] at ih ⊢
      rw [ih]
      exact Player.update_hp _ _ _ _

/-- While more frame time than the run consumes remains on the invincibility
timer, successive Player.update calls just count it down. -/
theorem Player.runUpdates_invincible (frames : List UpdFrame) (p : Player)
    (hnn : ∀ f ∈ frames, 0 ≤ f.dt)
    (hlt : (frames.map UpdFrame.dt).sum < p.invincible) :
    (Player.runUpdates frames p).invincible
      = p.invincible - (frames.map UpdFrame.dt).sum := by
  induction frames generalizing p with
  | nil => simp [Player.runUpdates]
  | cons f rest ih =>
      have hf : 0 ≤ f.dt := hnn f (by simp)
      have hrest : ∀ g ∈ rest, 0 ≤ g.dt := fun g hg => hnn g (by simp [hg])
      have hsum : 0 ≤ (rest.map UpdFrame.dt).sum := by
        refine List.sum_nonneg ?_
        intro a ha
        obtain ⟨g, hg, rfl⟩ := List.mem_map.mp ha
        exact hrest g hg
      have hpos : 0 < p.invincible := by
        simp only [List.map_cons, List.sum_cons] at hlt
        linarith
      have hstep : (p.update f.dt f.keys f.arenaRadius).invincible = p.invincible - f.dt := by
        rw [Player.update_invincible, if_pos hpos]
      simp only [Player.runUpdates, List.foldl_cons] at ih ⊢
      rw [ih _ hrest, hstep]
      · simp only [List.map_cons, List.sum_cons]
        ring
      · rw [hstep]
        simp only [List.map_cons, List.sum_cons] at hlt
        linarith

/-- C4: takeDamage is a no-op while invincible; otherwise it subtracts
max(1, amount * (1 - defenseRate)) from hp (floored at 0) and starts the
0.5-second grace window, so a second call after any run of updates
consuming less than 0.5 seconds leaves hp unchanged. -/
theorem player_takeDamage_spec (p : Player) (d : ℝ) :
    (0 < p.invincible → p.takeDamage d = p) ∧
    (p.invincible ≤ 0 →
      (p.takeDamage d).hp = max 0 (p.hp - max 1 (d * (1 - p.defenseRate))) ∧
      (p.takeDamage d).invincible = 0.5) ∧
    (∀ d2 : ℝ, ∀ frames : List UpdFrame, p.invincible ≤ 0 →
      (∀ f ∈ frames, 0 ≤ f.dt) → (frames.map UpdFrame.dt).sum < 0.5 →
      ((Player.runUpdates frames (p.takeDamage d)).takeDamage d2).hp
        = (p.takeDamage d).hp) := by
  refine ⟨fun h => Player.takeDamage_of_invincible d h,
    fun h => ⟨Player.takeDamage_hp_of_vulnerable d h,
      Player.takeDamage_invincible_of_vulnerable d h⟩,
    fun d2 frames h hnn hsum => ?_⟩
  have hinv : (p.takeDamage d).invincible = 0.5 :=
    Player.takeDamage_invincible_of_vulnerable d h
  have hrun : (Player.runUpdates frames (p.takeDamage d)).invincible
      = (p.takeDamage d).invincible - (frames.map UpdFrame.dt).sum := by
    refine Player.runUpdates_invincible frames _ hnn ?_
    rw [hinv]; exact hsum
  have hpos : 0 < (Player.runUpdates frames (p.takeDamage d)).invincible := by
    rw [hrun, hinv]; linarith
  rw [Player.takeDamage_of_invincible d2 hpos, Player.runUpdates_hp]

/-- Witness for C4: a fresh player hit for 30, then updated for 0.1 seconds,
then hit again: hp drops from 100 to 70 exactly once. -/
theorem player_takeDamage_spec_witness :
    ((Player.init 0 0).takeDamage 30).hp = 70 ∧
    ((Player.runUpdates [⟨0.1, Keys.none, 500⟩]
        ((Player.init 0 0).takeDamage 30)).takeDamage 30).hp = 70 := by
  have h := player_takeDamage_spec (Player.init 0 0) 30
  have h1 : ((Player.init 0 0).takeDamage 30).hp = 70 := by
    rw [(h.2.1 (by norm_num [Player.init])).1]
    norm_num [Player.init]
  refine ⟨h1, ?_⟩
  rw [h.2.2 30 [⟨0.1, Keys.none, 500⟩] (by norm_num [Player.init])
    (by intro f hf; simp at hf; rw [hf]; norm_num) (by norm_num)]
  exact h1

/-! ## C5: the level-up check advances at most one level per call -/

/-- C5: Player.checkLevelUp advances at most one level per call: when the
threshold is met it subtracts it once, increments the level by exactly one
and reports true; in particular exp=100 at threshold 100 levels once and
resets exp to 0, and exp=250 at threshold 100 levels once leaving exp=150. -/
theorem player_checkLevelUp_single_step (p : Player) :
    (p.checkLevelUp.2.level ≤ p.level + 1) ∧
    (p.checkLevelUp.1 = true →
      p.checkLevelUp.2.level = p.level + 1 ∧
      p.checkLevelUp.2.exp = p.exp - p.expToLevel) ∧
    (p.checkLevelUp.1 = false → p.checkLevelUp.2 = p) ∧
    (p.exp = 100 → p.expToLevel = 100 →
      (p.gainExp 0).checkLevelUp.1 = true ∧
      (p.gainExp 0).checkLevelUp.2.level = p.level + 1 ∧
      (p.gainExp 0).checkLevelUp.2.exp = 0) ∧
    (p.exp = 250 → p.expToLevel = 100 →
      p.checkLevelUp.1 = true ∧
      p.checkLevelUp.2.level = p.level + 1 ∧
      p.checkLevelUp.2.exp = 150) := by
  have hup : ∀ q : Player, q.expToLevel ≤ q.exp →
      q.checkLevelUp = (true, { q with exp := q.exp - q.expToLevel, level := q.level + 1 }) := by
    intro q hq
    simp only [Player.checkLevelUp, if_pos hq]
  have hdown : ∀ q : Player, ¬ q.expToLevel ≤ q.exp → q.checkLevelUp = (false, q) := by
    intro q hq
    simp only [Player.checkLevelUp, if_neg hq]
  by_cases hc : p.expToLevel ≤ p.exp
  · have h := hup p hc
    rw [h]
    refine ⟨le_refl _, ?_, ?_, ?_, ?_⟩
    · intro _
      exact ⟨rfl, rfl⟩
    · intro h2
      simp at h2
    · intro he ht
      have hg : (p.gainExp 0).expToLevel ≤ (p.gainExp 0).exp := by
        simp [Player.gainExp, he, ht]
      rw [hup _ hg]
      refine ⟨rfl, rfl, ?_⟩
      simp [Player.gainExp, he, ht]
    · intro he ht
      refine ⟨rfl, rfl, ?_⟩
      show p.exp - p.expToLevel = 150
      rw [he, ht]
      norm_num
  · have h := hdown p hc
    rw [h]
    refine ⟨Nat.le_succ _, ?_, ?_, ?_, ?_⟩
    · intro h2
      simp at h2
    · intro _
      rfl
    · intro he ht
      refine absurd ?_ hc
      rw [he, ht]
    · intro he ht
      refine absurd ?_ hc
      rw [he, ht]
      norm_num

/-- Witness for C5: a fresh player given 250 experience levels from 1 to 2
with 150 experience left after one checkLevelUp call. -/
theorem player_checkLevelUp_single_step_witness :
    ({ Player.init 0 0 with exp := 250 } : Player).checkLevelUp.1 = true ∧
    ({ Player.init 0 0 with exp := 250 } : Player).checkLevelUp.2.level = 2 ∧
    ({ Player.init 0 0 with exp := 250 } : Player).checkLevelUp.2.exp = 150 := by
  have h := (player_checkLevelUp_single_step ({ Player.init 0 0 with exp := 250 })).2.2.2.2
    (by norm_num [Player.init]) (by norm_num [Player.init])
  refine ⟨h.1, ?_, h.2.2⟩
  rw [h.2.1]
  norm_num [Player.init]

/-! ## C6: the countdown timers in Player.update -/

/-- C6 counterexample: with 0.05s left on each timer, an update frame of
0.1s leaves both the invincibility and auto-collect countdowns negative —
Player.update does not floor them at zero. -/
theorem player_update_timers_can_go_negative :
    (({ Player.init 0 0 with invincible := 0.05, autoCollectBuff := 0.05 } : Player).update
      0.1 Keys.none 500).invincible < 0 ∧
    (({ Player.init 0 0 with invincible := 0.05, autoCollectBuff := 0.05 } : Player).update
      0.1 Keys.none 500).autoCollectBuff < 0 := by
  rw [Player.update_invincible, Player.update_autoCollectBuff]
  norm_num

/-- C6 amended: Player.update decrements each timer by dt only while the
timer is positive and leaves it unchanged otherwise; hence a timer that
held at least dt stays nonnegative, a nonnegative timer never drops below
-dt, and a non-positive timer is never decremented further. -/
theorem player_update_timers_spec (dt : ℝ) (keys : Keys) (R : ℝ) (p : Player)
    (hdt : 0 ≤ dt) :
    ((0 < p.invincible → (p.update dt keys R).invincible = p.invincible - dt) ∧
     (p.invincible ≤ 0 → (p.update dt keys R).invincible = p.invincible) ∧
     (dt ≤ p.invincible → 0 ≤ (p.update dt keys R).invincible) ∧
     (0 ≤ p.invincible → -dt ≤ (p.update dt keys R).invincible)) ∧
    ((0 < p.autoCollectBuff → (p.update dt keys R).autoCollectBuff = p.autoCollectBuff - dt) ∧
     (p.autoCollectBuff ≤ 0 → (p.update dt keys R).autoCollectBuff = p.autoCollectBuff) ∧
     (dt ≤ p.autoCollectBuff → 0 ≤ (p.update dt keys R).autoCollectBuff) ∧
     (0 ≤ p.autoCollectBuff → -dt ≤ (p.update dt keys R).autoCollectBuff)) := by
  rw [Player.update_invincible, Player.update_autoCollectBuff]
  constructor
  · refine ⟨fun h => if_pos h, fun h => if_neg (not_lt.mpr h), fun h => ?_, fun h => ?_⟩
    · by_cases hp : 0 < p.invincible
      · rw [if_pos hp]; linarith
      · rw [if_neg hp]; linarith [not_lt.mp hp]
    · by_cases hp : 0 < p.invincible
      · rw [if_pos hp]; linarith
      · rw [if_neg hp]; linarith
  · refine ⟨fun h => if_pos h, fun h => if_neg (not_lt.mpr h), fun h => ?_, fun h => ?_⟩
    · by_cases hp : 0 < p.autoCollectBuff
      · rw [if_pos hp]; linarith
      · rw [if_neg hp]; linarith [not_lt.mp hp]
    · by_cases hp : 0 < p.autoCollectBuff
      · rw [if_pos hp]; linarith
      · rw [if_neg hp]; linarith

/-- Witness for the amended C6: a timer of 0.5 survives a 0.1s frame at 0.4,
and a zero timer stays untouched. -/
theorem player_update_timers_spec_witness :
    (({ Player.init 0 0 with invincible := 0.5 } : Player).update
      0.1 Keys.none 500).invincible = 0.4 ∧
    (({ Player.init 0 0 with invincible := 0.5 } : Player).update
      0.1 Keys.none 500).autoCollectBuff = 0 := by
  have h := player_update_timers_spec 0.1 Keys.none 500
    ({ Player.init 0 0 with invincible := 0.5 }) (by norm_num)
  constructor
  · rw [h.1.1 (by norm_num [Player.init])]
    norm_num [Player.init]
  · rw [h.2.2.1 (by norm_num [Player.init])]
    norm_num [Player.init]

/-! ## C3: the end-of-step score recompute -/

/-- C3 amended: after every driver update step the score equals
killCount*10 + floor(survivalTime)*2, with no exception — the unconditional
recompute at the end of Game.update overwrites any victory bonus added by
killEnemy earlier in the same step. -/
theorem game_update_score (deltaTime : ℝ) (env : Env) (s : GameState) :
    (Game.update deltaTime env s).score =
      ((Game.update deltaTime env s).killCount : ℝ) * 10 +
        (⌊(Game.update deltaTime env s).survivalTime⌋ : ℝ) * 2 := rfl

/-! ## Evaluation lemmas for the concrete scenarios -/

theorem sqrt_fact_1600 : Real.sqrt 1600 = 40 := by
  rw [show (1600 : ℝ) = 40 ^ 2 by norm_num, Real.sqrt_sq (by norm_num : (0:ℝ) ≤ 40)]

theorem sqrt_fact_14400 : Real.sqrt 14400 = 120 := by
  rw [show (14400 : ℝ) = 120 ^ 2 by norm_num, Real.sqrt_sq (by norm_num : (0:ℝ) ≤ 120)]

theorem sqrt_fact_40000 : Real.sqrt 40000 = 200 := by
  rw [show (40000 : ℝ) = 200 ^ 2 by norm_num, Real.sqrt_sq (by norm_num : (0:ℝ) ≤ 200)]

/-- At the origin, with no keys held and no pointer target, a zero-time
update leaves the scenario player unchanged. -/
theorem c3_player_update :
    Player.update 0 Keys.none Game.arenaRadius (Player.init 0 0) = Player.init 0 0 := by
  simp [Player.update, Player.mouseStep, Player.confineX, Player.confineY, Player.init,
    Game.arenaRadius, Keys.none]
  norm_num

theorem c3_checkLevelUp : (Player.init 0 0).checkLevelUp = (false, Player.init 0 0) := by
  simp [Player.checkLevelUp, Player.init]

theorem c3_wps :
    (Player.init 0 0).getWeaponPositions = [⟨80, 0, 0⟩, ⟨-80, 0, pi⟩] := by
  simp [Player.getWeaponPositions, Player.init,
    show List.range 2 = [0, 1] by decide]
  rw [show (360 : ℝ) / 2 * pi / 180 = pi by ring, Real.cos_pi, Real.sin_pi]
  norm_num

theorem c3_boss_update : Enemy.update 0 0 0 c3Boss = c3Boss := by
  simp [Enemy.update, c3Boss, Enemy.init, enemyConfigs, Real.sqrt_pos]

/-- The dead boss object after the killing weapon hit. -/
theorem c3_boss_dead : c3Boss.takeDamage 10 = { c3Boss with hp := 0, isDead := true } := by
  simp [Enemy.takeDamage, c3Boss, Enemy.init, enemyConfigs]

/-- Running the weapon pass over the scenario: the first weapon (at (80,0))
overlaps and kills the 10-hp boss, the second (at (-80,0)) misses; exactly
one kill resolution runs. -/
theorem c3_weaponLoop (s : GameState) :
    Game.weaponLoop (fun _ => trivialKillDraw) 10
      [⟨80, 0, 0⟩, ⟨-80, 0, pi⟩] s c3Boss =
      ({ s with
          killCount := s.killCount + 1
          expOrbs := s.expOrbs ++
            [ExpOrb.init 120 0 (100 / 3), ExpOrb.init 120 0 (100 / 3),
              ExpOrb.init 120 0 (100 / 3)]
          particles := s.particles ++
            List.ofFn (fun _ : Fin 10 => Particle.init 120 0 "#aa0000" 2 50 0 0.5)
          bossAlive := false
          score := s.score + 50
          state := .gameover },
        { c3Boss with hp := 0, isDead := true }) := by
  have hcol1 : Utils.circleCollision 80 0 8 c3Boss.x c3Boss.y c3Boss.radius := by
    simp only [Utils.circleCollision, Utils.distance, c3Boss, Enemy.init, enemyConfigs]
    norm_num
    rw [sqrt_fact_1600]
    norm_num
  have hcol2 : ¬ Utils.circleCollision (-80) 0 8 c3Boss.x c3Boss.y c3Boss.radius := by
    simp only [Utils.circleCollision, Utils.distance, c3Boss, Enemy.init, enemyConfigs]
    norm_num
    rw [sqrt_fact_40000]
    norm_num
  have hcol2' : ¬ Utils.circleCollision (-80) 0 8 ({ c3Boss with hp := 0, isDead := true } : Enemy).x
      ({ c3Boss with hp := 0, isDead := true } : Enemy).y
      ({ c3Boss with hp := 0, isDead := true } : Enemy).radius := hcol2
  rw [Game.weaponLoop, if_pos hcol1, c3_boss_dead]
  simp only [show ({ c3Boss with hp := 0, isDead := true } : Enemy).isDead = true from rfl,
    if_pos]
  rw [Game.weaponLoop, if_neg hcol2', Game.weaponLoop]
  simp [Game.killEnemy, Game.gameOver, trivialKillDraw, c3Boss, Enemy.init, enemyConfigs,
    List.ofFn_succ]

theorem c3_contact_miss :
    ¬ Utils.circleCollision c3Boss.x c3Boss.y c3Boss.radius 0 0 20 := by
  simp only [Utils.circleCollision, Utils.distance, c3Boss, Enemy.init, enemyConfigs]
  norm_num
  rw [sqrt_fact_14400]
  norm_num

theorem c3_dead_boss_no_attack :
    ¬ ({ c3Boss with hp := 0, isDead := true } : Enemy).canAttack := by
  simp [Enemy.canAttack, c3Boss, Enemy.init, enemyConfigs]

/-- Processing the scenario boss for one zero-time step: it dies to the
first weapon, exactly one kill resolution runs, and no boss attack is
scheduled (its cooldown is 5). -/
theorem c3_processOneEnemy (s : GameState) (hpl : s.player = Player.init 0 0) :
    Game.processOneEnemy 0 (fun _ => trivialKillDraw) s c3Boss =
      ({ s with
          killCount := s.killCount + 1
          expOrbs := s.expOrbs ++
            [ExpOrb.init 120 0 (100 / 3), ExpOrb.init 120 0 (100 / 3),
              ExpOrb.init 120 0 (100 / 3)]
          particles := s.particles ++
            List.ofFn (fun _ : Fin 10 => Particle.init 120 0 "#aa0000" 2 50 0 0.5)
          bossAlive := false
          score := s.score + 50
          state := .gameover },
        { c3Boss with hp := 0, isDead := true }) := by
  simp only [Game.processOneEnemy, hpl,
    show (Player.init 0 0).x = 0 from rfl, show (Player.init 0 0).y = 0 from rfl,
    show (Player.init 0 0).radius = 20 from rfl,
    show (Player.init 0 0).weaponDamage = 10 from rfl,
    c3_boss_update, c3_wps, c3_contact_miss, if_false, ite_false, if_neg c3_contact_miss]
  rw [c3_weaponLoop]
  simp only [if_neg c3_dead_boss_no_attack]
  rw [hpl]

/-- The enemies pass over the single scenario boss. -/
theorem c3_enemiesLoop (s : GameState) (hpl : s.player = Player.init 0 0) :
    Game.enemiesLoop 0 (fun _ => trivialKillDraw) s [c3Boss] =
      ({ s with
          killCount := s.killCount + 1
          expOrbs := s.expOrbs ++
            [ExpOrb.init 120 0 (100 / 3), ExpOrb.init 120 0 (100 / 3),
              ExpOrb.init 120 0 (100 / 3)]
          particles := s.particles ++
            List.ofFn (fun _ : Fin 10 => Particle.init 120 0 "#aa0000" 2 50 0 0.5)
          bossAlive := false
          score := s.score + 50
          state := .gameover },
        [{ c3Boss with hp := 0, isDead := true }]) := by
  simp only [Game.enemiesLoop, c3_processOneEnemy s hpl]

/-- A dropped orb at (120,0) is out of attraction range of the origin
player during a zero-time step and is not collected. -/
theorem c3_orb_update :
    ExpOrb.update 0 (Player.init 0 0) false (ExpOrb.init 120 0 (100 / 3)) =
      (ExpOrb.init 120 0 (100 / 3), 0) := by
  simp only [ExpOrb.update, ExpOrb.init, Player.init, Utils.circleCollision, Utils.distance]
  norm_num
  rw [sqrt_fact_14400]
  norm_num

/-- A zero-time step leaves any particle unchanged. -/
theorem particle_update_zero_dt (pt : Particle) : Particle.update 0 pt = pt := by
  simp [Particle.update]

@[simp] theorem Particle.init_life (x y : ℝ) (c : String) (s vx vy l : ℝ) :
    (Particle.init x y c s vx vy l).life = l := rfl

/-- The full driver step on the scenario: the boss dies, gameOver(true)
fires inside killEnemy (adding the 50-point bonus), and the end-of-step
recompute then overwrites the score with killCount*10 + floor(time)*2. -/
theorem c3_update_eval :
    Game.update 0 trivialEnv c3State =
      { state := GState.gameover
        isPaused := false
        player := Player.init 0 0
        enemies := []
        expOrbs := [ExpOrb.init 120 0 (100 / 3), ExpOrb.init 120 0 (100 / 3),
          ExpOrb.init 120 0 (100 / 3)]
        chests := []
        particles := List.ofFn (fun _ : Fin 10 => Particle.init 120 0 "#aa0000" 2 50 0 0.5)
        score := 10
        killCount := 1
        survivalTime := 0
        enemySpawnTimer := 0
        eliteSpawnTimer := 0
        chestSpawnTimer := 0
        bossSpawned := true
        bossAlive := false
        pendingSkills := []
        pendingAttacks := []
        pendingReverts := []
        removedEnemies := [{ c3Boss with hp := 0, isDead := true }]
        nextId := 0 } := by
  have e1 : Game.updSurvivalTime 0 c3State = c3State := by
    simp [Game.updSurvivalTime]
  have e2 : Game.updPlayer 0 trivialEnv c3State = c3State := by
    simp [Game.updPlayer, trivialEnv, c3_player_update, c3State, Game.initState]
  have e3 : Game.updLevelUp trivialEnv c3State = c3State := by
    simp [Game.updLevelUp, c3_checkLevelUp, c3State, Game.initState]
  have e4 : Game.updEnemies 0 trivialEnv c3State =
      { state := GState.gameover
        isPaused := false
        player := Player.init 0 0
        enemies := [{ c3Boss with hp := 0, isDead := true }]
        expOrbs := [ExpOrb.init 120 0 (100 / 3), ExpOrb.init 120 0 (100 / 3),
          ExpOrb.init 120 0 (100 / 3)]
        chests := []
        particles := List.ofFn (fun _ : Fin 10 => Particle.init 120 0 "#aa0000" 2 50 0 0.5)
        score := 50
        killCount := 1
        survivalTime := 0
        enemySpawnTimer := 0
        eliteSpawnTimer := 0
        chestSpawnTimer := 0
        bossSpawned := true
        bossAlive := false
        pendingSkills := []
        pendingAttacks := []
        pendingReverts := []
        removedEnemies := []
        nextId := 0 } := by
    rw [Game.updEnemies, show c3State.enemies = [c3Boss] from rfl,
      show trivialEnv.killDraws = (fun _ => trivialKillDraw) from rfl,
      c3_enemiesLoop c3State rfl]
    simp [c3State, Game.initState]
  rw [Game.update, e1, e2, e3, e4]
  have e5 : Game.updRemoveDead
      { state := GState.gameover
        isPaused := false
        player := Player.init 0 0
        enemies := [{ c3Boss with hp := 0, isDead := true }]
        expOrbs := [ExpOrb.init 120 0 (100 / 3), ExpOrb.init 120 0 (100 / 3),
          ExpOrb.init 120 0 (100 / 3)]
        chests := []
        particles := List.ofFn (fun _ : Fin 10 => Particle.init 120 0 "#aa0000" 2 50 0 0.5)
        score := 50
        killCount := 1
        survivalTime := 0
        enemySpawnTimer := 0
        eliteSpawnTimer := 0
        chestSpawnTimer := 0
        bossSpawned := true
        bossAlive := false
        pendingSkills := []
        pendingAttacks := []
        pendingReverts := []
        removedEnemies := []
        nextId := 0 } =
      { state := GState.gameover
        isPaused := false
        player := Player.init 0 0
        enemies := []
        expOrbs := [ExpOrb.init 120 0 (100 / 3), ExpOrb.init 120 0 (100 / 3),
          ExpOrb.init 120 0 (100 / 3)]
        chests := []
        particles := List.ofFn (fun _ : Fin 10 => Particle.init 120 0 "#aa0000" 2 50 0 0.5)
        score := 50
        killCount := 1
        survivalTime := 0
        enemySpawnTimer := 0
        eliteSpawnTimer := 0
        chestSpawnTimer := 0
        bossSpawned := true
        bossAlive := false
        pendingSkills := []
        pendingAttacks := []
        pendingReverts := []
        removedEnemies := [{ c3Boss with hp := 0, isDead := true }]
        nextId := 0 } := by
    simp [Game.updRemoveDead]
  rw [e5]
  set M : GameState :=
      { state := GState.gameover
        isPaused := false
        player := Player.init 0 0
        enemies := []
        expOrbs := [ExpOrb.init 120 0 (100 / 3), ExpOrb.init 120 0 (100 / 3),
          ExpOrb.init 120 0 (100 / 3)]
        chests := []
        particles := List.ofFn (fun _ : Fin 10 => Particle.init 120 0 "#aa0000" 2 50 0 0.5)
        score := 50
        killCount := 1
        survivalTime := 0
        enemySpawnTimer := 0
        eliteSpawnTimer := 0
        chestSpawnTimer := 0
        bossSpawned := true
        bossAlive := false
        pendingSkills := []
        pendingAttacks := []
        pendingReverts := []
        removedEnemies := [{ c3Boss with hp := 0, isDead := true }]
        nextId := 0 } with hM
  have e6 : Game.updOrbs 0 trivialEnv.keys.space M = M := by
    rw [hM]
    simp [Game.updOrbs, Game.orbLoop, c3_orb_update, trivialEnv, Keys.none,
      show (ExpOrb.init 120 0 (100 / 3)).collected = false from rfl]
  have e7 : Game.updChests 0 trivialEnv M = M := by
    rw [hM]
    simp [Game.updChests, Game.chestLoop]
  have e8 : Game.updParticles 0 M = M := by
    rw [hM]
    norm_num [Game.updParticles, particle_update_zero_dt, Particle.isDead, List.ofFn_succ,
      List.filter, decide_eq_true_eq]
  have e9 : Game.spawnEnemies 0 trivialEnv M = M := by
    rw [hM]
    norm_num [Game.spawnEnemies]
  have e10 : Game.updChestSpawn 0 trivialEnv M = M := by
    rw [hM]
    norm_num [Game.updChestSpawn]
  have e11 : Game.updBossCheck trivialEnv M = M := by
    rw [hM]
    simp [Game.updBossCheck]
  have e12 : Game.updDefeatCheck M = M := by
    rw [hM]
    norm_num [Game.updDefeatCheck, Player.init]
  rw [e6, e7, e8, e9, e10, e11, e12, hM]
  norm_num [Game.updScore]

/-! ## C2: kill resolution in the weapon pass -/

theorem Enemy.takeDamage_x (d : ℝ) (e : Enemy) : (e.takeDamage d).x = e.x := by
  simp only [Enemy.takeDamage]
  split <;> rfl

theorem Enemy.takeDamage_y (d : ℝ) (e : Enemy) : (e.takeDamage d).y = e.y := by
  simp only [Enemy.takeDamage]
  split <;> rfl

theorem Enemy.takeDamage_radius (d : ℝ) (e : Enemy) : (e.takeDamage d).radius = e.radius := by
  simp only [Enemy.takeDamage]
  split <;> rfl

theorem Game.killEnemy_killCount (kd : ℕ → KillDraw) (s : GameState) (e : Enemy) :
    (Game.killEnemy kd s e).killCount = s.killCount + 1 := by
  simp only [Game.killEnemy, Game.gameOver]
  split <;> rfl

theorem Game.killEnemy_expOrbs_length (kd : ℕ → KillDraw) (s : GameState) (e : Enemy) :
    (Game.killEnemy kd s e).expOrbs.length = s.expOrbs.length + 3 := by
  simp only [Game.killEnemy, Game.gameOver]
  split <;> simp

theorem Game.killEnemy_particles_length (kd : ℕ → KillDraw) (s : GameState) (e : Enemy) :
    (Game.killEnemy kd s e).particles.length = s.particles.length + 10 := by
  simp only [Game.killEnemy, Game.gameOver]
  split <;> simp

theorem collidingCount_nil (e : Enemy) : collidingCount [] e = 0 := rfl

theorem collidingCount_cons (wp : WeaponPos) (wps : List WeaponPos) (e : Enemy) :
    collidingCount (wp :: wps) e =
      collidingCount wps e +
        if Utils.circleCollision wp.x wp.y 8 e.x e.y e.radius then 1 else 0 := by
  simp [collidingCount, List.countP_cons]

theorem collidingCount_takeDamage (wps : List WeaponPos) (d : ℝ) (e : Enemy) :
    collidingCount wps (e.takeDamage d) = collidingCount wps e := by
  simp only [collidingCount, Enemy.takeDamage_x, Enemy.takeDamage_y, Enemy.takeDamage_radius]

theorem killResolutions_all (hp dmg : ℝ) (c : ℕ) (h : hp ≤ dmg) (hd : 0 < dmg) :
    killResolutions hp dmg c = c := by
  unfold killResolutions
  rw [List.countP_eq_length.mpr, List.length_range]
  intro j _
  simp only [decide_eq_true_eq]
  nlinarith [Nat.cast_nonneg (α := ℝ) j]

theorem killResolutions_step (hp dmg : ℝ) (c : ℕ) (h : ¬ hp ≤ dmg) (hd : 0 < dmg) :
    killResolutions hp dmg (c + 1) = killResolutions (hp - dmg) dmg c := by
  unfold killResolutions
  rw [List.range_succ_eq_map, List.countP_cons, List.countP_map]
  have h0 : (decide (hp ≤ dmg * ((0 : ℕ) + 1 : ℝ))) = false := by
    simp only [decide_eq_false_iff_not]
    push_cast
    intro hcon
    exact h (by linarith)
  rw [h0]
  simp only [Bool.false_eq_true, if_false, add_zero]
  refine List.countP_congr ?_
  intro j _
  simp only [Function.comp_apply, decide_eq_true_eq]
  push_cast
  constructor <;> intro hj <;> nlinarith

/-- The weapon pass over an already-dead enemy runs one kill resolution per
overlapping weapon position. -/
theorem weaponLoop_counts_dead (kd : ℕ → KillDraw) (dmg : ℝ) (hd : 0 < dmg)
    (wps : List WeaponPos) :
    ∀ (s : GameState) (e : Enemy), e.isDead = true → e.hp ≤ 0 →
      (Game.weaponLoop kd dmg wps s e).1.killCount
          = s.killCount + collidingCount wps e ∧
      (Game.weaponLoop kd dmg wps s e).1.expOrbs.length
          = s.expOrbs.length + 3 * collidingCount wps e ∧
      (Game.weaponLoop kd dmg wps s e).1.particles.length
          = s.particles.length + 10 * collidingCount wps e := by
  induction wps with
  | nil =>
      intro s e _ _
      simp [Game.weaponLoop, collidingCount_nil]
  | cons wp rest ih =>
      intro s e hdead hhp
      rw [Game.weaponLoop]
      by_cases hc : Utils.circleCollision wp.x wp.y 8 e.x e.y e.radius
      · rw [if_pos hc]
        have he1 : e.takeDamage dmg = { e with hp := 0, isDead := true } := by
          unfold Enemy.takeDamage
          rw [if_pos (by linarith)]
        rw [he1]
        simp only [show ({ e with hp := 0, isDead := true } : Enemy).isDead = true from rfl,
          if_true]
        obtain ⟨ihk, iho, ihp⟩ := ih (Game.killEnemy kd s { e with hp := 0, isDead := true })
          { e with hp := 0, isDead := true } rfl (le_refl 0)
        have hcc : collidingCount rest ({ e with hp := 0, isDead := true } : Enemy)
            = collidingCount rest e := rfl
        rw [ihk, iho, ihp, hcc, Game.killEnemy_killCount, Game.killEnemy_expOrbs_length,
          Game.killEnemy_particles_length, collidingCount_cons, if_pos hc]
        omega
      · rw [if_neg hc]
        obtain ⟨ihk, iho, ihp⟩ := ih s e hdead hhp
        rw [ihk, iho, ihp, collidingCount_cons, if_neg hc]
        omega

/-- C2 amended: for an enemy that enters the driver's weapon pass alive,
kill resolution (killCount +1, 3 orbs, 10 particles) runs once per
colliding weapon position from the killing hit onward — exactly once when a
single weapon position overlaps the dying enemy, but once per overlapping
weapon when several overlap in the same frame. -/
theorem weaponLoop_kill_resolution_spec (kd : ℕ → KillDraw) (dmg : ℝ)
    (wps : List WeaponPos) (s : GameState) (e : Enemy)
    (hd : 0 < dmg) (he : e.isDead = false) :
    (Game.weaponLoop kd dmg wps s e).1.killCount
        = s.killCount + killResolutions e.hp dmg (collidingCount wps e) ∧
    (Game.weaponLoop kd dmg wps s e).1.expOrbs.length
        = s.expOrbs.length + 3 * killResolutions e.hp dmg (collidingCount wps e) ∧
    (Game.weaponLoop kd dmg wps s e).1.particles.length
        = s.particles.length + 10 * killResolutions e.hp dmg (collidingCount wps e) := by
  induction wps generalizing s e with
  | nil =>
      simp [Game.weaponLoop, collidingCount_nil, killResolutions]
  | cons wp rest ih =>
      rw [Game.weaponLoop]
      by_cases hc : Utils.circleCollision wp.x wp.y 8 e.x e.y e.radius
      · rw [if_pos hc]
        by_cases hkill : e.hp - dmg ≤ 0
        · have he1 : e.takeDamage dmg = { e with hp := 0, isDead := true } := by
            unfold Enemy.takeDamage
            rw [if_pos hkill]
          rw [he1]
          simp only [show ({ e with hp := 0, isDead := true } : Enemy).isDead = true from rfl,
            if_true]
          obtain ⟨ihk, iho, ihp⟩ := weaponLoop_counts_dead kd dmg hd rest
            (Game.killEnemy kd s { e with hp := 0, isDead := true })
            { e with hp := 0, isDead := true } rfl (le_refl 0)
          have hcc : collidingCount rest ({ e with hp := 0, isDead := true } : Enemy)
              = collidingCount rest e := rfl
          rw [ihk, iho, ihp, hcc, Game.killEnemy_killCount, Game.killEnemy_expOrbs_length,
            Game.killEnemy_particles_length, collidingCount_cons, if_pos hc,
            killResolutions_all e.hp dmg _ (by linarith) hd]
          omega
        · have he1 : e.takeDamage dmg = { e with hp := e.hp - dmg } := by
            unfold Enemy.takeDamage
            rw [if_neg hkill]
          rw [he1]
          have hnd : ({ e with hp := e.hp - dmg } : Enemy).isDead = false := he
          simp only [he, hnd, Bool.false_eq_true, if_false]
          obtain ⟨ihk, iho, ihp⟩ := ih s { e with hp := e.hp - dmg, isDead := false } rfl
          have hcc : collidingCount rest ({ e with hp := e.hp - dmg, isDead := false } : Enemy)
              = collidingCount rest e := rfl
          rw [ihk, iho, ihp, hcc, collidingCount_cons, if_pos hc,
            killResolutions_step e.hp dmg _ (by intro hcon; exact hkill (by linarith)) hd]
          exact ⟨rfl, rfl, rfl⟩
      · rw [if_neg hc]
        obtain ⟨ihk, iho, ihp⟩ := ih s e he
        rw [ihk, iho, ihp, collidingCount_cons, if_neg hc]
        simp

/-- Witness for the amended C2, at the single-overlap scenario: the claim
theorem applied to the concrete weapon pass that kills the 10-hp boss. -/
theorem weaponLoop_kill_resolution_spec_witness :
    (Game.weaponLoop (fun _ => trivialKillDraw) 10
        [⟨80, 0, 0⟩, ⟨-80, 0, pi⟩] c3State c3Boss).1.killCount
      = c3State.killCount +
        killResolutions c3Boss.hp 10 (collidingCount [⟨80, 0, 0⟩, ⟨-80, 0, pi⟩] c3Boss) :=
  (weaponLoop_kill_resolution_spec (fun _ => trivialKillDraw) 10
    [⟨80, 0, 0⟩, ⟨-80, 0, pi⟩] c3State c3Boss (by norm_num) rfl).1

theorem sqrt3_mul_self : Real.sqrt 3 * Real.sqrt 3 = 3 :=
  Real.mul_self_sqrt (by norm_num)

theorem c2_player_update :
    Player.update 0 Keys.none Game.arenaRadius c2Player = c2Player := by
  simp [Player.update, Player.mouseStep, Player.confineX, Player.confineY, c2Player,
    Player.init, Game.arenaRadius, Keys.none]
  norm_num

theorem c2_checkLevelUp : c2Player.checkLevelUp = (false, c2Player) := by
  simp [Player.checkLevelUp, c2Player, Player.init]

theorem c2_boss_update : Enemy.update 0 0 0 c2Boss = c2Boss := by
  have hpos : (0:ℝ) <
      (0 - 60) * (0 - 60) + (0 - 20 * Real.sqrt 3) * (0 - 20 * Real.sqrt 3) := by
    nlinarith [sqrt3_mul_self]
  simp [Enemy.update, c2Boss, Enemy.init, enemyConfigs, Real.sqrt_pos, hpos]

theorem c2_wps :
    c2Player.getWeaponPositions =
      [⟨80, 0, 0⟩, ⟨40, 40 * Real.sqrt 3, pi / 3⟩, ⟨-40, 40 * Real.sqrt 3, 2 * pi / 3⟩,
        ⟨-80, 0, pi⟩, ⟨-40, -(40 * Real.sqrt 3), 4 * pi / 3⟩,
        ⟨40, -(40 * Real.sqrt 3), 5 * pi / 3⟩] := by
  have hc23 : Real.cos (2 * pi / 3) = -(1 / 2) := by
    rw [show (2 : ℝ) * pi / 3 = pi - pi / 3 by ring, Real.cos_pi_sub, Real.cos_pi_div_three]
  have hs23 : Real.sin (2 * pi / 3) = Real.sqrt 3 / 2 := by
    rw [show (2 : ℝ) * pi / 3 = pi - pi / 3 by ring, Real.sin_pi_sub, Real.sin_pi_div_three]
  have hc43 : Real.cos (4 * pi / 3) = -(1 / 2) := by
    rw [show (4 : ℝ) * pi / 3 = pi + pi / 3 by ring, Real.cos_add, Real.cos_pi, Real.sin_pi,
      Real.cos_pi_div_three]
    ring
  have hs43 : Real.sin (4 * pi / 3) = -(Real.sqrt 3 / 2) := by
    rw [show (4 : ℝ) * pi / 3 = pi + pi / 3 by ring, Real.sin_add, Real.cos_pi, Real.sin_pi,
      Real.sin_pi_div_three]
    ring
  have hc53 : Real.cos (5 * pi / 3) = 1 / 2 := by
    rw [show (5 : ℝ) * pi / 3 = 2 * pi - pi / 3 by ring, Real.cos_two_pi_sub,
      Real.cos_pi_div_three]
  have hs53 : Real.sin (5 * pi / 3) = -(Real.sqrt 3 / 2) := by
    rw [show (5 : ℝ) * pi / 3 = 2 * pi - pi / 3 by ring, Real.sin_two_pi_sub,
      Real.sin_pi_div_three]
  simp [Player.getWeaponPositions, c2Player, Player.init,
    show List.range 6 = [0, 1, 2, 3, 4, 5] by decide]
  norm_num
  rw [show (60 : ℝ) * pi / 180 = pi / 3 by ring, show (120 : ℝ) * pi / 180 = 2 * pi / 3 by ring,
    show (240 : ℝ) * pi / 180 = 4 * pi / 3 by ring,
    show (300 : ℝ) * pi / 180 = 5 * pi / 3 by ring]
  norm_num [Real.cos_pi_div_three, Real.sin_pi_div_three, hc23, hs23, hc43, hs43, hc53, hs53]
  ring

theorem c2_boss_dead :
    c2Boss.takeDamage 10 = { c2Boss with hp := 0, isDead := true } := by
  unfold Enemy.takeDamage
  have h : c2Boss.hp - 10 ≤ 0 := by
    rw [show c2Boss.hp = 10 from rfl]
    norm_num
  rw [if_pos h]

theorem c2_dead_boss_dead_again :
    ({ c2Boss with hp := 0, isDead := true } : Enemy).takeDamage 10 =
      { c2Boss with hp := 0, isDead := true } := by
  unfold Enemy.takeDamage
  have h : ({ c2Boss with hp := 0, isDead := true } : Enemy).hp - 10 ≤ 0 := by
    rw [show ({ c2Boss with hp := 0, isDead := true } : Enemy).hp = 0 from rfl]
    norm_num
  rw [if_pos h]

/-- The enemies pass over the six-weapon scenario: two adjacent weapon
positions overlap the 10-hp boss, so killEnemy runs twice for the one
dying enemy. -/
theorem c2_enemiesLoop :
    Game.enemiesLoop 0 (fun _ => trivialKillDraw) c2State [c2Boss] =
      ({ state := GState.gameover
         isPaused := false
         player := c2Player
         enemies := [c2Boss]
         expOrbs := List.ofFn (fun _ : Fin 6 =>
           ExpOrb.init 60 (20 * Real.sqrt 3) (100 / 3))
         chests := []
         particles := List.ofFn (fun _ : Fin 20 =>
           Particle.init 60 (20 * Real.sqrt 3) "#aa0000" 2 50 0 0.5)
         score := 100
         killCount := 2
         survivalTime := 0
         enemySpawnTimer := 0
         eliteSpawnTimer := 0
         chestSpawnTimer := 0
         bossSpawned := true
         bossAlive := false
         pendingSkills := []
         pendingAttacks := []
         pendingReverts := []
         removedEnemies := []
         nextId := 0 },
       [{ c2Boss with hp := 0, isDead := true }]) := by
  have h3 := sqrt3_mul_self
  have hcontact : ¬ Utils.circleCollision c2Boss.x c2Boss.y c2Boss.radius 0 0 20 := by
    show ¬ Utils.circleCollision 60 (20 * Real.sqrt 3) 40 0 0 20
    unfold Utils.circleCollision Utils.distance
    rw [show ((0:ℝ) - 60) ^ 2 + (0 - 20 * Real.sqrt 3) ^ 2 = 4800 by
      linear_combination (400:ℝ) * h3]
    intro hlt
    have h48 : (60:ℝ) ≤ Real.sqrt 4800 :=
      (Real.le_sqrt (by norm_num) (by norm_num)).mpr (by norm_num)
    norm_num at hlt
    linarith
  have hcol0 : Utils.circleCollision 80 0 8 c2Boss.x c2Boss.y c2Boss.radius := by
    show Utils.circleCollision 80 0 8 60 (20 * Real.sqrt 3) 40
    unfold Utils.circleCollision Utils.distance
    rw [show ((60:ℝ) - 80) ^ 2 + (20 * Real.sqrt 3 - 0) ^ 2 = 1600 by
      linear_combination (400:ℝ) * h3]
    rw [sqrt_fact_1600]
    norm_num
  have hcol1 : Utils.circleCollision 40 (40 * Real.sqrt 3) 8
      c2Boss.x c2Boss.y c2Boss.radius := by
    show Utils.circleCollision 40 (40 * Real.sqrt 3) 8 60 (20 * Real.sqrt 3) 40
    unfold Utils.circleCollision Utils.distance
    rw [show ((60:ℝ) - 40) ^ 2 + (20 * Real.sqrt 3 - 40 * Real.sqrt 3) ^ 2 = 1600 by
      linear_combination (400:ℝ) * h3]
    rw [sqrt_fact_1600]
    norm_num
  have hfar : ∀ a : ℝ, (2304:ℝ) ≤ a → (48:ℝ) ≤ Real.sqrt a := by
    intro a ha
    refine (Real.le_sqrt (by norm_num) (by linarith)).mpr ?_
    norm_num
    linarith
  have hcol2 : ¬ Utils.circleCollision (-40) (40 * Real.sqrt 3) 8
      c2Boss.x c2Boss.y c2Boss.radius := by
    show ¬ Utils.circleCollision (-40) (40 * Real.sqrt 3) 8 60 (20 * Real.sqrt 3) 40
    unfold Utils.circleCollision Utils.distance
    rw [show ((60:ℝ) - -40) ^ 2 + (20 * Real.sqrt 3 - 40 * Real.sqrt 3) ^ 2 = 11200 by
      linear_combination (400:ℝ) * h3]
    norm_num
    exact hfar 11200 (by norm_num)
  have hcol3 : ¬ Utils.circleCollision (-80) 0 8 c2Boss.x c2Boss.y c2Boss.radius := by
    show ¬ Utils.circleCollision (-80) 0 8 60 (20 * Real.sqrt 3) 40
    unfold Utils.circleCollision Utils.distance
    rw [show ((60:ℝ) - -80) ^ 2 + (20 * Real.sqrt 3 - 0) ^ 2 = 20800 by
      linear_combination (400:ℝ) * h3]
    norm_num
    exact hfar 20800 (by norm_num)
  have hcol4 : ¬ Utils.circleCollision (-40) (-(40 * Real.sqrt 3)) 8
      c2Boss.x c2Boss.y c2Boss.radius := by
    show ¬ Utils.circleCollision (-40) (-(40 * Real.sqrt 3)) 8 60 (20 * Real.sqrt 3) 40
    unfold Utils.circleCollision Utils.distance
    rw [show ((60:ℝ) - -40) ^ 2 + (20 * Real.sqrt 3 - -(40 * Real.sqrt 3)) ^ 2 = 20800 by
      linear_combination (3600:ℝ) * h3]
    norm_num
    exact hfar 20800 (by norm_num)
  have hcol5 : ¬ Utils.circleCollision 40 (-(40 * Real.sqrt 3)) 8
      c2Boss.x c2Boss.y c2Boss.radius := by
    show ¬ Utils.circleCollision 40 (-(40 * Real.sqrt 3)) 8 60 (20 * Real.sqrt 3) 40
    unfold Utils.circleCollision Utils.distance
    rw [show ((60:ℝ) - 40) ^ 2 + (20 * Real.sqrt 3 - -(40 * Real.sqrt 3)) ^ 2 = 11200 by
      linear_combination (3600:ℝ) * h3]
    norm_num
    exact hfar 11200 (by norm_num)
  have hatk : ¬ ({ c2Boss with hp := 0, isDead := true } : Enemy).canAttack := by
    rintro ⟨_, hle⟩
    rw [show ({ c2Boss with hp := 0, isDead := true } : Enemy).attackCooldown = 5
      from rfl] at hle
    norm_num at hle
  simp only [Game.enemiesLoop, Game.processOneEnemy,
    show c2State.player = c2Player from rfl,
    show c2Player.x = 0 from rfl, show c2Player.y = 0 from rfl,
    show c2Player.radius = 20 from rfl, show c2Player.weaponDamage = 10 from rfl,
    c2_boss_update, c2_wps, hcontact, if_false, ite_false]
  rw [Game.weaponLoop, if_pos hcol0, c2_boss_dead]
  simp only [show ({ c2Boss with hp := 0, isDead := true } : Enemy).isDead = true from rfl,
    if_true]
  rw [Game.weaponLoop, if_pos hcol1, c2_dead_boss_dead_again]
  simp only [show ({ c2Boss with hp := 0, isDead := true } : Enemy).isDead = true from rfl,
    if_true]
  rw [Game.weaponLoop, if_neg hcol2, Game.weaponLoop, if_neg hcol3,
    Game.weaponLoop, if_neg hcol4, Game.weaponLoop, if_neg hcol5, Game.weaponLoop]
  rw [if_neg hatk]
  simp [Game.killEnemy, Game.gameOver, trivialKillDraw, c2Boss, Enemy.init, enemyConfigs,
    c2State, Game.initState, List.ofFn_succ]
  norm_num

/-- A dropped orb at the c2 boss position is attracted toward the origin
player but a zero-time step moves and collects nothing. -/
theorem c2_orb_update :
    ExpOrb.update 0 c2Player false (ExpOrb.init 60 (20 * Real.sqrt 3) (100 / 3)) =
      (ExpOrb.init 60 (20 * Real.sqrt 3) (100 / 3), 0) := by
  have h3 := sqrt3_mul_self
  have hno : ¬ Utils.circleCollision 60 (20 * Real.sqrt 3) 5 0 0 20 := by
    unfold Utils.circleCollision Utils.distance
    rw [show ((0:ℝ) - 60) ^ 2 + (0 - 20 * Real.sqrt 3) ^ 2 = 4800 by
      linear_combination (400:ℝ) * h3]
    norm_num
    refine (Real.le_sqrt (by norm_num) (by norm_num)).mpr ?_
    norm_num
  simp only [ExpOrb.update, c2Player, Player.init, ExpOrb.init]
  norm_num
  exact hno

/-- The full driver step on the six-weapon scenario: one enemy dies but the
kill count rises by 2, six orbs and twenty particles spawn. -/
theorem c2_update_eval :
    Game.update 0 trivialEnv c2State =
      { state := GState.gameover
        isPaused := false
        player := c2Player
        enemies := []
        expOrbs := List.ofFn (fun _ : Fin 6 =>
          ExpOrb.init 60 (20 * Real.sqrt 3) (100 / 3))
        chests := []
        particles := List.ofFn (fun _ : Fin 20 =>
          Particle.init 60 (20 * Real.sqrt 3) "#aa0000" 2 50 0 0.5)
        score := 20
        killCount := 2
        survivalTime := 0
        enemySpawnTimer := 0
        eliteSpawnTimer := 0
        chestSpawnTimer := 0
        bossSpawned := true
        bossAlive := false
        pendingSkills := []
        pendingAttacks := []
        pendingReverts := []
        removedEnemies := [{ c2Boss with hp := 0, isDead := true }]
        nextId := 0 } := by
  have e1 : Game.updSurvivalTime 0 c2State = c2State := by
    simp [Game.updSurvivalTime]
  have e2 : Game.updPlayer 0 trivialEnv c2State = c2State := by
    simp [Game.updPlayer, trivialEnv, c2_player_update, c2State, Game.initState]
  have e3 : Game.updLevelUp trivialEnv c2State = c2State := by
    simp [Game.updLevelUp, c2_checkLevelUp, c2State, Game.initState]
  have e4 : Game.updEnemies 0 trivialEnv c2State =
      { state := GState.gameover
        isPaused := false
        player := c2Player
        enemies := [{ c2Boss with hp := 0, isDead := true }]
        expOrbs := List.ofFn (fun _ : Fin 6 =>
          ExpOrb.init 60 (20 * Real.sqrt 3) (100 / 3))
        chests := []
        particles := List.ofFn (fun _ : Fin 20 =>
          Particle.init 60 (20 * Real.sqrt 3) "#aa0000" 2 50 0 0.5)
        score := 100
        killCount := 2
        survivalTime := 0
        enemySpawnTimer := 0
        eliteSpawnTimer := 0
        chestSpawnTimer := 0
        bossSpawned := true
        bossAlive := false
        pendingSkills := []
        pendingAttacks := []
        pendingReverts := []
        removedEnemies := []
        nextId := 0 } := by
    rw [Game.updEnemies, show c2State.enemies = [c2Boss] from rfl,
      show trivialEnv.killDraws = (fun _ => trivialKillDraw) from rfl, c2_enemiesLoop]
  rw [Game.update, e1, e2, e3, e4]
  have e5 : Game.updRemoveDead
      { state := GState.gameover
        isPaused := false
        player := c2Player
        enemies := [{ c2Boss with hp := 0, isDead := true }]
        expOrbs := List.ofFn (fun _ : Fin 6 =>
          ExpOrb.init 60 (20 * Real.sqrt 3) (100 / 3))
        chests := []
        particles := List.ofFn (fun _ : Fin 20 =>
          Particle.init 60 (20 * Real.sqrt 3) "#aa0000" 2 50 0 0.5)
        score := 100
        killCount := 2
        survivalTime := 0
        enemySpawnTimer := 0
        eliteSpawnTimer := 0
        chestSpawnTimer := 0
        bossSpawned := true
        bossAlive := false
        pendingSkills := []
        pendingAttacks := []
        pendingReverts := []
        removedEnemies := []
        nextId := 0 } =
      { state := GState.gameover
        isPaused := false
        player := c2Player
        enemies := []
        expOrbs := List.ofFn (fun _ : Fin 6 =>
          ExpOrb.init 60 (20 * Real.sqrt 3) (100 / 3))
        chests := []
        particles := List.ofFn (fun _ : Fin 20 =>
          Particle.init 60 (20 * Real.sqrt 3) "#aa0000" 2 50 0 0.5)
        score := 100
        killCount := 2
        survivalTime := 0
        enemySpawnTimer := 0
        eliteSpawnTimer := 0
        chestSpawnTimer := 0
        bossSpawned := true
        bossAlive := false
        pendingSkills := []
        pendingAttacks := []
        pendingReverts := []
        removedEnemies := [{ c2Boss with hp := 0, isDead := true }]
        nextId := 0 } := by
    simp [Game.updRemoveDead]
  rw [e5]
  set M : GameState :=
      { state := GState.gameover
        isPaused := false
        player := c2Player
        enemies := []
        expOrbs := List.ofFn (fun _ : Fin 6 =>
          ExpOrb.init 60 (20 * Real.sqrt 3) (100 / 3))
        chests := []
        particles := List.ofFn (fun _ : Fin 20 =>
          Particle.init 60 (20 * Real.sqrt 3) "#aa0000" 2 50 0 0.5)
        score := 100
        killCount := 2
        survivalTime := 0
        enemySpawnTimer := 0
        eliteSpawnTimer := 0
        chestSpawnTimer := 0
        bossSpawned := true
        bossAlive := false
        pendingSkills := []
        pendingAttacks := []
        pendingReverts := []
        removedEnemies := [{ c2Boss with hp := 0, isDead := true }]
        nextId := 0 } with hM
  have e6 : Game.updOrbs 0 trivialEnv.keys.space M = M := by
    rw [hM]
    simp [Game.updOrbs, Game.orbLoop, c2_orb_update, trivialEnv, Keys.none, List.ofFn_succ,
      show (ExpOrb.init 60 (20 * Real.sqrt 3) (100 / 3)).collected = false from rfl]
  have e7 : Game.updChests 0 trivialEnv M = M := by
    rw [hM]
    simp [Game.updChests, Game.chestLoop]
  have e8 : Game.updParticles 0 M = M := by
    rw [hM]
    norm_num [Game.updParticles, particle_update_zero_dt, Particle.isDead, List.ofFn_succ,
      List.filter, decide_eq_true_eq]
  have e9 : Game.spawnEnemies 0 trivialEnv M = M := by
    rw [hM]
    norm_num [Game.spawnEnemies]
  have e10 : Game.updChestSpawn 0 trivialEnv M = M := by
    rw [hM]
    norm_num [Game.updChestSpawn]
  have e11 : Game.updBossCheck trivialEnv M = M := by
    rw [hM]
    simp [Game.updBossCheck]
  have e12 : Game.updDefeatCheck M = M := by
    rw [hM]
    norm_num [Game.updDefeatCheck, c2Player, Player.init]
  rw [e6, e7, e8, e9, e10, e11, e12, hM]
  norm_num [Game.updScore]

/-- C2 counterexample: in a single driver step the one (initially alive)
enemy dies, yet the kill count increases by 2, six experience orbs and
twenty particles are spawned — kill resolution ran once per overlapping
weapon position, not once per death. -/
theorem game_update_kill_resolution_runs_twice :
    c2State.enemies.length = 1 ∧
    (∀ e ∈ c2State.enemies, e.isDead = false) ∧
    c2State.killCount = 0 ∧
    c2State.expOrbs.length = 0 ∧
    c2State.particles.length = 0 ∧
    (Game.update 0 trivialEnv c2State).enemies = [] ∧
    (Game.update 0 trivialEnv c2State).killCount = 2 ∧
    (Game.update 0 trivialEnv c2State).expOrbs.length = 6 ∧
    (Game.update 0 trivialEnv c2State).particles.length = 20 := by
  rw [c2_update_eval]
  refine ⟨rfl, ?_, rfl, rfl, rfl, rfl, rfl, ?_, ?_⟩
  · intro e he
    rw [show c2State.enemies = [c2Boss] from rfl] at he
    simp at he
    rw [he]
    rfl
  · simp
  · simp

/-! ## Preservation lemmas across the driver stages -/

theorem Player.takeDamage_level (d : ℝ) (p : Player) : (p.takeDamage d).level = p.level := by
  unfold Player.takeDamage
  split <;> rfl

theorem Player.takeDamage_expToLevel (d : ℝ) (p : Player) :
    (p.takeDamage d).expToLevel = p.expToLevel := by
  unfold Player.takeDamage
  split <;> rfl

theorem Player.gainExp_level (a : ℝ) (p : Player) : (p.gainExp a).level = p.level := rfl

theorem Player.gainExp_expToLevel (a : ℝ) (p : Player) :
    (p.gainExp a).expToLevel = p.expToLevel := rfl

theorem Player.checkLevelUp_expToLevel (p : Player) :
    p.checkLevelUp.2.expToLevel = p.expToLevel := by
  unfold Player.checkLevelUp
  split <;> rfl

theorem Game.killEnemy_player (kd : ℕ → KillDraw) (s : GameState) (e : Enemy) :
    (Game.killEnemy kd s e).player = s.player := by
  unfold Game.killEnemy Game.gameOver
  split <;> rfl

theorem Game.killEnemy_bossSpawned (kd : ℕ → KillDraw) (s : GameState) (e : Enemy) :
    (Game.killEnemy kd s e).bossSpawned = s.bossSpawned := by
  unfold Game.killEnemy Game.gameOver
  split <;> rfl

theorem Game.killEnemy_survivalTime (kd : ℕ → KillDraw) (s : GameState) (e : Enemy) :
    (Game.killEnemy kd s e).survivalTime = s.survivalTime := by
  unfold Game.killEnemy Game.gameOver
  split <;> rfl

theorem Game.weaponLoop_pres (kd : ℕ → KillDraw) (d : ℝ) :
    ∀ (wps : List WeaponPos) (s : GameState) (e : Enemy),
      (Game.weaponLoop kd d wps s e).1.player = s.player ∧
      (Game.weaponLoop kd d wps s e).1.bossSpawned = s.bossSpawned ∧
      (Game.weaponLoop kd d wps s e).1.survivalTime = s.survivalTime := by
  intro wps
  induction wps with
  | nil =>
      intro s e
      exact ⟨rfl, rfl, rfl⟩
  | cons wp rest ih =>
      intro s e
      rw [Game.weaponLoop]
      by_cases hc : Utils.circleCollision wp.x wp.y 8 e.x e.y e.radius
      · by_cases hk : (e.takeDamage d).isDead = true
        · simp only [if_pos hc, if_pos hk]
          obtain ⟨h1, h2, h3⟩ := ih (Game.killEnemy kd s (e.takeDamage d)) (e.takeDamage d)
          exact ⟨h1.trans (Game.killEnemy_player kd s _),
            h2.trans (Game.killEnemy_bossSpawned kd s _),
            h3.trans (Game.killEnemy_survivalTime kd s _)⟩
        · simp only [if_pos hc, if_neg hk]
          exact ih s (e.takeDamage d)
      · simp only [if_neg hc]
        exact ih s e

theorem Game.processOneEnemy_pres (dt : ℝ) (kd : ℕ → KillDraw) (s : GameState) (e : Enemy) :
    (Game.processOneEnemy dt kd s e).1.player.level = s.player.level ∧
    (Game.processOneEnemy dt kd s e).1.player.expToLevel = s.player.expToLevel ∧
    (Game.processOneEnemy dt kd s e).1.bossSpawned = s.bossSpawned ∧
    (Game.processOneEnemy dt kd s e).1.survivalTime = s.survivalTime := by
  simp only [Game.processOneEnemy]
  set e1 := e.update dt s.player.x s.player.y with he1
  set s1 := if Utils.circleCollision e1.x e1.y e1.radius s.player.x s.player.y s.player.radius
    then { s with player := s.player.takeDamage e1.damage } else s with hs1def
  have hs1 : s1.player.level = s.player.level ∧ s1.player.expToLevel = s.player.expToLevel ∧
      s1.bossSpawned = s.bossSpawned ∧ s1.survivalTime = s.survivalTime := by
    rw [hs1def]
    split
    · exact ⟨Player.takeDamage_level _ _, Player.takeDamage_expToLevel _ _, rfl, rfl⟩
    · exact ⟨rfl, rfl, rfl, rfl⟩
  obtain ⟨hw1, hw2, hw3⟩ := Game.weaponLoop_pres kd s1.player.weaponDamage
    s1.player.getWeaponPositions s1 e1
  split
  · refine ⟨?_, ?_, ?_, ?_⟩ <;>
      simp only [Game.createBossAttackWarning, hw1, hw2, hw3, hs1.1, hs1.2.1,
        hs1.2.2.1, hs1.2.2.2]
  · refine ⟨?_, ?_, ?_, ?_⟩
    · rw [hw1]
      exact hs1.1
    · rw [hw1]
      exact hs1.2.1
    · rw [hw2]
      exact hs1.2.2.1
    · rw [hw3]
      exact hs1.2.2.2

theorem Game.enemiesLoop_pres (dt : ℝ) (kd : ℕ → KillDraw) :
    ∀ (es : List Enemy) (s : GameState),
      (Game.enemiesLoop dt kd s es).1.player.level = s.player.level ∧
      (Game.enemiesLoop dt kd s es).1.player.expToLevel = s.player.expToLevel ∧
      (Game.enemiesLoop dt kd s es).1.bossSpawned = s.bossSpawned ∧
      (Game.enemiesLoop dt kd s es).1.survivalTime = s.survivalTime := by
  intro es
  induction es with
  | nil =>
      intro s
      exact ⟨rfl, rfl, rfl, rfl⟩
  | cons e rest ih =>
      intro s
      rw [Game.enemiesLoop]
      obtain ⟨h1, h2, h3, h4⟩ := Game.processOneEnemy_pres dt kd s e
      obtain ⟨g1, g2, g3, g4⟩ := ih (Game.processOneEnemy dt kd s e).1
      exact ⟨g1.trans h1, g2.trans h2, g3.trans h3, g4.trans h4⟩

theorem Game.orbLoop_pres (dt : ℝ) (fa : Bool) :
    ∀ (os : List ExpOrb) (pl : Player),
      (Game.orbLoop dt fa pl os).1.level = pl.level ∧
      (Game.orbLoop dt fa pl os).1.expToLevel = pl.expToLevel := by
  intro os
  induction os with
  | nil =>
      intro pl
      exact ⟨rfl, rfl⟩
  | cons o rest ih =>
      intro pl
      rw [Game.orbLoop]
      set pl1 := if 0 < (ExpOrb.update dt pl fa o).2
        then pl.gainExp (ExpOrb.update dt pl fa o).2 else pl with hpl1
      have hp : pl1.level = pl.level ∧ pl1.expToLevel = pl.expToLevel := by
        rw [hpl1]
        split
        · exact ⟨rfl, rfl⟩
        · exact ⟨rfl, rfl⟩
      obtain ⟨g1, g2⟩ := ih pl1
      exact ⟨g1.trans hp.1, g2.trans hp.2⟩

theorem Game.applyChestReward_pres (cd : ChestDraw) (r : RewardId) (s : GameState) :
    (Game.applyChestReward cd r s).player.level = s.player.level ∧
    (Game.applyChestReward cd r s).player.expToLevel = s.player.expToLevel ∧
    (Game.applyChestReward cd r s).bossSpawned = s.bossSpawned ∧
    (Game.applyChestReward cd r s).survivalTime = s.survivalTime := by
  cases r <;> exact ⟨rfl, rfl, rfl, rfl⟩

theorem Game.chestLoop_pres (dt : ℝ) (cds : ℕ → ChestDraw) :
    ∀ (cs : List Chest) (i : ℕ) (s : GameState),
      (Game.chestLoop dt cds i s cs).1.player.level = s.player.level ∧
      (Game.chestLoop dt cds i s cs).1.player.expToLevel = s.player.expToLevel ∧
      (Game.chestLoop dt cds i s cs).1.bossSpawned = s.bossSpawned ∧
      (Game.chestLoop dt cds i s cs).1.survivalTime = s.survivalTime := by
  intro cs
  induction cs with
  | nil =>
      intro i s
      exact ⟨rfl, rfl, rfl, rfl⟩
  | cons c rest ih =>
      intro i s
      rw [Game.chestLoop]
      set s1 := match (Chest.update dt s.player (cds i).reward c).2 with
        | some reward => Game.applyChestReward (cds i) reward s
        | Option.none => s with hs1
      have hp : s1.player.level = s.player.level ∧ s1.player.expToLevel = s.player.expToLevel ∧
          s1.bossSpawned = s.bossSpawned ∧ s1.survivalTime = s.survivalTime := by
        rw [hs1]
        cases (Chest.update dt s.player (cds i).reward c).2 with
        | some reward => exact Game.applyChestReward_pres (cds i) reward s
        | none => exact ⟨rfl, rfl, rfl, rfl⟩
      obtain ⟨g1, g2, g3, g4⟩ := ih (i + 1) s1
      exact ⟨g1.trans hp.1, g2.trans hp.2.1, g3.trans hp.2.2.1, g4.trans hp.2.2.2⟩

theorem Game.spawnEnemies_pres (dt : ℝ) (env : Env) (s : GameState) :
    (Game.spawnEnemies dt env s).player = s.player ∧
    (Game.spawnEnemies dt env s).bossSpawned = s.bossSpawned ∧
    (Game.spawnEnemies dt env s).survivalTime = s.survivalTime := by
  refine ⟨?_, ?_, ?_⟩ <;>
    (simp only [Game.spawnEnemies]; split <;> split <;> first | rfl | (split <;> rfl))

theorem Game.updChestSpawn_pres (dt : ℝ) (env : Env) (s : GameState) :
    (Game.updChestSpawn dt env s).player = s.player ∧
    (Game.updChestSpawn dt env s).bossSpawned = s.bossSpawned ∧
    (Game.updChestSpawn dt env s).survivalTime = s.survivalTime := by
  simp only [Game.updChestSpawn, Game.spawnChest]
  split <;> exact ⟨rfl, rfl, rfl⟩

theorem Game.updBossCheck_pres (env : Env) (s : GameState) :
    (Game.updBossCheck env s).player = s.player ∧
    (Game.updBossCheck env s).survivalTime = s.survivalTime := by
  unfold Game.updBossCheck Game.spawnBoss
  split <;> exact ⟨rfl, rfl⟩

theorem Game.updDefeatCheck_pres (s : GameState) :
    (Game.updDefeatCheck s).player = s.player ∧
    (Game.updDefeatCheck s).bossSpawned = s.bossSpawned ∧
    (Game.updDefeatCheck s).survivalTime = s.survivalTime ∧
    (Game.updDefeatCheck s).enemies = s.enemies := by
  unfold Game.updDefeatCheck Game.gameOver
  split <;> exact ⟨rfl, rfl, rfl, rfl⟩

theorem Game.updLevelUp_pres (env : Env) (s : GameState) :
    (Game.updLevelUp env s).player.expToLevel = s.player.expToLevel ∧
    (Game.updLevelUp env s).bossSpawned = s.bossSpawned ∧
    (Game.updLevelUp env s).survivalTime = s.survivalTime := by
  simp only [Game.updLevelUp, Game.showSkillSelection]
  split <;> exact ⟨Player.checkLevelUp_expToLevel s.player, rfl, rfl⟩

/-! ## Per-stage projection equations, and what Game.update does to the
survival clock, the level counter, and the boss-spawn flag -/

theorem Game.updSurvivalTime_player (dt : ℝ) (s : GameState) :
    (Game.updSurvivalTime dt s).player = s.player := rfl

theorem Game.updSurvivalTime_bossSpawned (dt : ℝ) (s : GameState) :
    (Game.updSurvivalTime dt s).bossSpawned = s.bossSpawned := rfl

theorem Game.updSurvivalTime_survivalTime (dt : ℝ) (s : GameState) :
    (Game.updSurvivalTime dt s).survivalTime = s.survivalTime + dt := rfl

theorem Game.updPlayer_player (dt : ℝ) (env : Env) (s : GameState) :
    (Game.updPlayer dt env s).player = s.player.update dt env.keys Game.arenaRadius := rfl

theorem Game.updPlayer_bossSpawned (dt : ℝ) (env : Env) (s : GameState) :
    (Game.updPlayer dt env s).bossSpawned = s.bossSpawned := rfl

theorem Game.updPlayer_survivalTime (dt : ℝ) (env : Env) (s : GameState) :
    (Game.updPlayer dt env s).survivalTime = s.survivalTime := rfl

theorem Game.updLevelUp_level (env : Env) (s : GameState) :
    (Game.updLevelUp env s).player.level = s.player.checkLevelUp.2.level := by
  simp only [Game.updLevelUp, Game.showSkillSelection]
  split <;> rfl

theorem Player.checkLevelUp_level (p : Player) :
    p.checkLevelUp.2.level = if p.expToLevel ≤ p.exp then p.level + 1 else p.level := by
  unfold Player.checkLevelUp
  split <;> rfl

theorem Game.updLevelUp_expToLevel (env : Env) (s : GameState) :
    (Game.updLevelUp env s).player.expToLevel = s.player.expToLevel :=
  (Game.updLevelUp_pres env s).1

theorem Game.updLevelUp_bossSpawned (env : Env) (s : GameState) :
    (Game.updLevelUp env s).bossSpawned = s.bossSpawned :=
  (Game.updLevelUp_pres env s).2.1

theorem Game.updLevelUp_survivalTime (env : Env) (s : GameState) :
    (Game.updLevelUp env s).survivalTime = s.survivalTime :=
  (Game.updLevelUp_pres env s).2.2

theorem Game.updEnemies_level (dt : ℝ) (env : Env) (s : GameState) :
    (Game.updEnemies dt env s).player.level = s.player.level :=
  (Game.enemiesLoop_pres dt env.killDraws s.enemies s).1

theorem Game.updEnemies_expToLevel (dt : ℝ) (env : Env) (s : GameState) :
    (Game.updEnemies dt env s).player.expToLevel = s.player.expToLevel :=
  (Game.enemiesLoop_pres dt env.killDraws s.enemies s).2.1

theorem Game.updEnemies_bossSpawned (dt : ℝ) (env : Env) (s : GameState) :
    (Game.updEnemies dt env s).bossSpawned = s.bossSpawned :=
  (Game.enemiesLoop_pres dt env.killDraws s.enemies s).2.2.1

theorem Game.updEnemies_survivalTime (dt : ℝ) (env : Env) (s : GameState) :
    (Game.updEnemies dt env s).survivalTime = s.survivalTime :=
  (Game.enemiesLoop_pres dt env.killDraws s.enemies s).2.2.2

theorem Game.updRemoveDead_player (s : GameState) :
    (Game.updRemoveDead s).player = s.player := rfl

theorem Game.updRemoveDead_bossSpawned (s : GameState) :
    (Game.updRemoveDead s).bossSpawned = s.bossSpawned := rfl

theorem Game.updRemoveDead_survivalTime (s : GameState) :
    (Game.updRemoveDead s).survivalTime = s.survivalTime := rfl

theorem Game.updOrbs_level (dt : ℝ) (fa : Bool) (s : GameState) :
    (Game.updOrbs dt fa s).player.level = s.player.level :=
  (Game.orbLoop_pres dt fa s.expOrbs s.player).1

theorem Game.updOrbs_expToLevel (dt : ℝ) (fa : Bool) (s : GameState) :
    (Game.updOrbs dt fa s).player.expToLevel = s.player.expToLevel :=
  (Game.orbLoop_pres dt fa s.expOrbs s.player).2

theorem Game.updOrbs_bossSpawned (dt : ℝ) (fa : Bool) (s : GameState) :
    (Game.updOrbs dt fa s).bossSpawned = s.bossSpawned := rfl

theorem Game.updOrbs_survivalTime (dt : ℝ) (fa : Bool) (s : GameState) :
    (Game.updOrbs dt fa s).survivalTime = s.survivalTime := rfl

theorem Game.updChests_level (dt : ℝ) (env : Env) (s : GameState) :
    (Game.updChests dt env s).player.level = s.player.level :=
  (Game.chestLoop_pres dt env.chestDraws s.chests 0 s).1

theorem Game.updChests_expToLevel (dt : ℝ) (env : Env) (s : GameState) :
    (Game.updChests dt env s).player.expToLevel = s.player.expToLevel :=
  (Game.chestLoop_pres dt env.chestDraws s.chests 0 s).2.1

theorem Game.updChests_bossSpawned (dt : ℝ) (env : Env) (s : GameState) :
    (Game.updChests dt env s).bossSpawned = s.bossSpawned :=
  (Game.chestLoop_pres dt env.chestDraws s.chests 0 s).2.2.1

theorem Game.updChests_survivalTime (dt : ℝ) (env : Env) (s : GameState) :
    (Game.updChests dt env s).survivalTime = s.survivalTime :=
  (Game.chestLoop_pres dt env.chestDraws s.chests 0 s).2.2.2

theorem Game.updParticles_player (dt : ℝ) (s : GameState) :
    (Game.updParticles dt s).player = s.player := rfl

theorem Game.updParticles_bossSpawned (dt : ℝ) (s : GameState) :
    (Game.updParticles dt s).bossSpawned = s.bossSpawned := rfl

theorem Game.updParticles_survivalTime (dt : ℝ) (s : GameState) :
    (Game.updParticles dt s).survivalTime = s.survivalTime := rfl

theorem Game.spawnEnemies_player (dt : ℝ) (env : Env) (s : GameState) :
    (Game.spawnEnemies dt env s).player = s.player :=
  (Game.spawnEnemies_pres dt env s).1

theorem Game.spawnEnemies_bossSpawned (dt : ℝ) (env : Env) (s : GameState) :
    (Game.spawnEnemies dt env s).bossSpawned = s.bossSpawned :=
  (Game.spawnEnemies_pres dt env s).2.1

theorem Game.spawnEnemies_survivalTime (dt : ℝ) (env : Env) (s : GameState) :
    (Game.spawnEnemies dt env s).survivalTime = s.survivalTime :=
  (Game.spawnEnemies_pres dt env s).2.2

theorem Game.updChestSpawn_player (dt : ℝ) (env : Env) (s : GameState) :
    (Game.updChestSpawn dt env s).player = s.player :=
  (Game.updChestSpawn_pres dt env s).1

theorem Game.updChestSpawn_bossSpawned (dt : ℝ) (env : Env) (s : GameState) :
    (Game.updChestSpawn dt env s).bossSpawned = s.bossSpawned :=
  (Game.updChestSpawn_pres dt env s).2.1

theorem Game.updChestSpawn_survivalTime (dt : ℝ) (env : Env) (s : GameState) :
    (Game.updChestSpawn dt env s).survivalTime = s.survivalTime :=
  (Game.updChestSpawn_pres dt env s).2.2

theorem Game.updBossCheck_player (env : Env) (s : GameState) :
    (Game.updBossCheck env s).player = s.player :=
  (Game.updBossCheck_pres env s).1

theorem Game.updBossCheck_survivalTime (env : Env) (s : GameState) :
    (Game.updBossCheck env s).survivalTime = s.survivalTime :=
  (Game.updBossCheck_pres env s).2

theorem Game.updDefeatCheck_player (s : GameState) :
    (Game.updDefeatCheck s).player = s.player :=
  (Game.updDefeatCheck_pres s).1

theorem Game.updDefeatCheck_bossSpawned (s : GameState) :
    (Game.updDefeatCheck s).bossSpawned = s.bossSpawned :=
  (Game.updDefeatCheck_pres s).2.1

theorem Game.updDefeatCheck_survivalTime (s : GameState) :
    (Game.updDefeatCheck s).survivalTime = s.survivalTime :=
  (Game.updDefeatCheck_pres s).2.2.1

theorem Game.updDefeatCheck_enemies (s : GameState) :
    (Game.updDefeatCheck s).enemies = s.enemies :=
  (Game.updDefeatCheck_pres s).2.2.2

theorem Game.updScore_player (s : GameState) :
    (Game.updScore s).player = s.player := rfl

theorem Game.updScore_bossSpawned (s : GameState) :
    (Game.updScore s).bossSpawned = s.bossSpawned := rfl

theorem Game.updScore_survivalTime (s : GameState) :
    (Game.updScore s).survivalTime = s.survivalTime := rfl

theorem Game.updScore_enemies (s : GameState) :
    (Game.updScore s).enemies = s.enemies := rfl

theorem Game.updBossCheck_bossSpawned_iff (env : Env) (s : GameState) :
    ((Game.updBossCheck env s).bossSpawned = true ↔
      (s.bossSpawned = true ∨ 10 ≤ s.player.level ∨ 120 ≤ s.survivalTime)) := by
  unfold Game.updBossCheck
  split
  next h =>
    exact ⟨fun _ => Or.inr h.2, fun _ => rfl⟩
  next h =>
    constructor
    · exact fun hb => Or.inl hb
    · rintro (hb | hcond)
      · exact hb
      · cases hB : s.bossSpawned with
        | false => exact absurd ⟨hB, hcond⟩ h
        | true => rfl

theorem Game.update_survivalTime (dt : ℝ) (env : Env) (s : GameState) :
    (Game.update dt env s).survivalTime = s.survivalTime + dt := by
  simp only [Game.update, Game.updScore_survivalTime, Game.updDefeatCheck_survivalTime,
    Game.updBossCheck_survivalTime, Game.updChestSpawn_survivalTime,
    Game.spawnEnemies_survivalTime, Game.updParticles_survivalTime,
    Game.updChests_survivalTime, Game.updOrbs_survivalTime, Game.updRemoveDead_survivalTime,
    Game.updEnemies_survivalTime, Game.updLevelUp_survivalTime, Game.updPlayer_survivalTime,
    Game.updSurvivalTime_survivalTime]

theorem Game.update_player_level (dt : ℝ) (env : Env) (s : GameState) :
    (Game.update dt env s).player.level =
      (if s.player.expToLevel ≤ s.player.exp then s.player.level + 1
        else s.player.level) := by
  simp only [Game.update, Game.updScore_player, Game.updDefeatCheck_player,
    Game.updBossCheck_player, Game.updChestSpawn_player, Game.spawnEnemies_player,
    Game.updParticles_player, Game.updChests_level, Game.updOrbs_level,
    Game.updRemoveDead_player, Game.updEnemies_level, Game.updLevelUp_level,
    Player.checkLevelUp_level, Game.updPlayer_player, Player.update_exp,
    Player.update_expToLevel, Player.update_level, Game.updSurvivalTime_player]

theorem Game.update_player_expToLevel (dt : ℝ) (env : Env) (s : GameState) :
    (Game.update dt env s).player.expToLevel = s.player.expToLevel := by
  simp only [Game.update, Game.updScore_player, Game.updDefeatCheck_player,
    Game.updBossCheck_player, Game.updChestSpawn_player, Game.spawnEnemies_player,
    Game.updParticles_player, Game.updChests_expToLevel, Game.updOrbs_expToLevel,
    Game.updRemoveDead_player, Game.updEnemies_expToLevel, Game.updLevelUp_expToLevel,
    Game.updPlayer_player, Player.update_expToLevel, Game.updSurvivalTime_player]

theorem Game.update_bossSpawned_iff (dt : ℝ) (env : Env) (s : GameState) :
    ((Game.update dt env s).bossSpawned = true ↔
      (s.bossSpawned = true ∨ 10 ≤ (Game.update dt env s).player.level ∨
        120 ≤ (Game.update dt env s).survivalTime)) := by
  simp only [Game.update, Game.updScore_bossSpawned, Game.updDefeatCheck_bossSpawned,
    Game.updScore_player, Game.updDefeatCheck_player, Game.updBossCheck_player,
    Game.updScore_survivalTime, Game.updDefeatCheck_survivalTime,
    Game.updBossCheck_survivalTime, Game.updBossCheck_bossSpawned_iff,
    Game.updChestSpawn_bossSpawned, Game.spawnEnemies_bossSpawned,
    Game.updParticles_bossSpawned, Game.updChests_bossSpawned, Game.updOrbs_bossSpawned,
    Game.updRemoveDead_bossSpawned, Game.updEnemies_bossSpawned,
    Game.updLevelUp_bossSpawned, Game.updPlayer_bossSpawned,
    Game.updSurvivalTime_bossSpawned]

theorem Game.update_spawn_appends_boss (dt : ℝ) (env : Env) (s : GameState)
    (hs : s.bossSpawned = false) (ht : (Game.update dt env s).bossSpawned = true) :
    ∃ es k, (Game.update dt env s).enemies =
      es ++ [Game.mkBoundaryEnemy k env.bossAngle EType.boss] := by
  set s9 := Game.updChestSpawn dt env (Game.spawnEnemies dt env (Game.updParticles dt
    (Game.updChests dt env (Game.updOrbs dt env.keys.space (Game.updRemoveDead
      (Game.updEnemies dt env (Game.updLevelUp env (Game.updPlayer dt env
        (Game.updSurvivalTime dt s))))))))) with hs9
  have h9 : s9.bossSpawned = false := by
    rw [hs9]
    simp only [Game.updChestSpawn_bossSpawned, Game.spawnEnemies_bossSpawned,
      Game.updParticles_bossSpawned, Game.updChests_bossSpawned, Game.updOrbs_bossSpawned,
      Game.updRemoveDead_bossSpawned, Game.updEnemies_bossSpawned,
      Game.updLevelUp_bossSpawned, Game.updPlayer_bossSpawned,
      Game.updSurvivalTime_bossSpawned]
    exact hs
  have henem : (Game.update dt env s).enemies = (Game.updBossCheck env s9).enemies :=
    Game.updDefeatCheck_enemies (Game.updBossCheck env s9)
  have hbs : (Game.update dt env s).bossSpawned = (Game.updBossCheck env s9).bossSpawned :=
    Game.updDefeatCheck_bossSpawned (Game.updBossCheck env s9)
  rw [hbs] at ht
  unfold Game.updBossCheck at ht henem
  by_cases hcond : s9.bossSpawned = false ∧ (10 ≤ s9.player.level ∨ 120 ≤ s9.survivalTime)
  · rw [if_pos hcond] at henem
    exact ⟨s9.enemies, s9.nextId, by rw [henem]; rfl⟩
  · rw [if_neg hcond] at ht
    rw [h9] at ht
    exact absurd ht Bool.false_ne_true

/-! ## The event-loop steps around Game.update preserve the spawn-relevant
fields -/

theorem Game.resolveBossAttack_pres (aid : ℕ) (s : GameState) :
    (Game.resolveBossAttack aid s).bossSpawned = s.bossSpawned ∧
    (Game.resolveBossAttack aid s).player.level = s.player.level ∧
    (Game.resolveBossAttack aid s).player.expToLevel = s.player.expToLevel ∧
    (Game.resolveBossAttack aid s).survivalTime = s.survivalTime ∧
    (Game.resolveBossAttack aid s).state = s.state := by
  unfold Game.resolveBossAttack
  split
  · split
    · exact ⟨rfl, Player.takeDamage_level _ _, Player.takeDamage_expToLevel _ _, rfl, rfl⟩
    · exact ⟨rfl, rfl, rfl, rfl, rfl⟩
  · exact ⟨rfl, rfl, rfl, rfl, rfl⟩

theorem Game.fireTimers_pres (dt : ℝ) (s : GameState) :
    (Game.fireTimers dt s).bossSpawned = s.bossSpawned ∧
    (Game.fireTimers dt s).player.level = s.player.level ∧
    (Game.fireTimers dt s).player.expToLevel = s.player.expToLevel ∧
    (Game.fireTimers dt s).survivalTime = s.survivalTime ∧
    (Game.fireTimers dt s).state = s.state := by
  have hres : ∀ (l : List PendingAttack) (x : GameState),
      (l.foldl (fun acc a => Game.resolveBossAttack a.enemyId acc) x).bossSpawned
          = x.bossSpawned ∧
      (l.foldl (fun acc a => Game.resolveBossAttack a.enemyId acc) x).player.level
          = x.player.level ∧
      (l.foldl (fun acc a => Game.resolveBossAttack a.enemyId acc) x).player.expToLevel
          = x.player.expToLevel ∧
      (l.foldl (fun acc a => Game.resolveBossAttack a.enemyId acc) x).survivalTime
          = x.survivalTime ∧
      (l.foldl (fun acc a => Game.resolveBossAttack a.enemyId acc) x).state = x.state := by
    intro l
    induction l with
    | nil =>
        intro x
        exact ⟨rfl, rfl, rfl, rfl, rfl⟩
    | cons a rest ih =>
        intro x
        obtain ⟨r1, r2, r3, r4, r5⟩ := Game.resolveBossAttack_pres a.enemyId x
        obtain ⟨g1, g2, g3, g4, g5⟩ := ih (Game.resolveBossAttack a.enemyId x)
        exact ⟨g1.trans r1, g2.trans r2, g3.trans r3, g4.trans r4, g5.trans r5⟩
  have hrev : ∀ (l : List ℝ) (x : GameState),
      (l.foldl (fun acc _ =>
          { acc with player := { acc.player with speedBuff := 1.0 } }) x).bossSpawned
        = x.bossSpawned ∧
      (l.foldl (fun acc _ =>
          { acc with player := { acc.player with speedBuff := 1.0 } }) x).player.level
        = x.player.level ∧
      (l.foldl (fun acc _ =>
          { acc with player := { acc.player with speedBuff := 1.0 } }) x).player.expToLevel
        = x.player.expToLevel ∧
      (l.foldl (fun acc _ =>
          { acc with player := { acc.player with speedBuff := 1.0 } }) x).survivalTime
        = x.survivalTime ∧
      (l.foldl (fun acc _ =>
          { acc with player := { acc.player with speedBuff := 1.0 } }) x).state
        = x.state := by
    intro l
    induction l with
    | nil =>
        intro x
        exact ⟨rfl, rfl, rfl, rfl, rfl⟩
    | cons a rest ih =>
        intro x
        obtain ⟨g1, g2, g3, g4, g5⟩ :=
          ih { x with player := { x.player with speedBuff := 1.0 } }
        exact ⟨g1, g2, g3, g4, g5⟩
  simp only [Game.fireTimers]
  refine ⟨?_, ?_, ?_, ?_, ?_⟩
  · exact ((hrev _ _).1).trans ((hres _ _).1)
  · exact ((hrev _ _).2.1).trans ((hres _ _).2.1)
  · exact ((hrev _ _).2.2.1).trans ((hres _ _).2.2.1)
  · exact ((hrev _ _).2.2.2.1).trans ((hres _ _).2.2.2.1)
  · exact ((hrev _ _).2.2.2.2).trans ((hres _ _).2.2.2.2)

theorem Game.selectSkill_pres (sk : Skill) (s : GameState) :
    (Game.selectSkill sk s).bossSpawned = s.bossSpawned ∧
    (Game.selectSkill sk s).player.level = s.player.level ∧
    (Game.selectSkill sk s).player.expToLevel = s.player.expToLevel ∧
    (Game.selectSkill sk s).survivalTime = s.survivalTime ∧
    (Game.selectSkill sk s).state = GState.playing := by
  cases sk <;> exact ⟨rfl, rfl, rfl, rfl, rfl⟩

/-! ## The slow debuff: no driver path ever writes a positive slowEffect -/

theorem Enemy.takeDamage_slowEffect (d : ℝ) (e : Enemy) :
    (e.takeDamage d).slowEffect = e.slowEffect := by
  simp only [Enemy.takeDamage]
  split <;> rfl

theorem Enemy.performAttack_slowEffect (e : Enemy) :
    e.performAttack.slowEffect = e.slowEffect := rfl

theorem Enemy.update_slowEffect (dt px py : ℝ) (e : Enemy) (h : e.slowEffect ≤ 0) :
    (e.update dt px py).slowEffect = e.slowEffect := by
  simp only [Enemy.update]
  split
  · rfl
  · simp only [if_neg (not_lt.mpr h)]

theorem Enemy.update_full_speed (dt px py : ℝ) (e : Enemy) (h : e.slowEffect ≤ 0)
    (hd : e.isDead = false) :
    (e.update dt px py).x =
      (if 0 < Real.sqrt ((px - e.x) * (px - e.x) + (py - e.y) * (py - e.y)) then
        e.x + ((px - e.x) / Real.sqrt ((px - e.x) * (px - e.x) + (py - e.y) * (py - e.y)))
          * e.speed * 1 * dt
      else e.x) ∧
    (e.update dt px py).y =
      (if 0 < Real.sqrt ((px - e.x) * (px - e.x) + (py - e.y) * (py - e.y)) then
        e.y + ((py - e.y) / Real.sqrt ((px - e.x) * (px - e.x) + (py - e.y) * (py - e.y)))
          * e.speed * 1 * dt
      else e.y) := by
  simp only [Enemy.update, hd, Bool.false_eq_true, if_false]
  simp only [if_neg (not_lt.mpr h)]
  exact ⟨trivial, trivial⟩

theorem Game.weaponLoop_slowEffect (kd : ℕ → KillDraw) (d : ℝ) :
    ∀ (wps : List WeaponPos) (s : GameState) (e : Enemy),
      (Game.weaponLoop kd d wps s e).2.slowEffect = e.slowEffect := by
  intro wps
  induction wps with
  | nil =>
      intro s e
      rfl
  | cons wp rest ih =>
      intro s e
      rw [Game.weaponLoop]
      by_cases hc : Utils.circleCollision wp.x wp.y 8 e.x e.y e.radius
      · by_cases hk : (e.takeDamage d).isDead = true
        · simp only [if_pos hc, if_pos hk]
          exact (ih _ _).trans (Enemy.takeDamage_slowEffect d e)
        · simp only [if_pos hc, if_neg hk]
          exact (ih _ _).trans (Enemy.takeDamage_slowEffect d e)
      · simp only [if_neg hc]
        exact ih s e

theorem Game.processOneEnemy_slowEffect (dt : ℝ) (kd : ℕ → KillDraw)
    (s : GameState) (e : Enemy) (h : e.slowEffect ≤ 0) :
    (Game.processOneEnemy dt kd s e).2.slowEffect ≤ 0 := by
  have h1 : (e.update dt s.player.x s.player.y).slowEffect ≤ 0 := by
    rw [Enemy.update_slowEffect dt s.player.x s.player.y e h]
    exact h
  have h2 : ∀ s1 : GameState,
      (Game.weaponLoop kd s1.player.weaponDamage s1.player.getWeaponPositions s1
        (e.update dt s.player.x s.player.y)).2.slowEffect ≤ 0 := fun s1 => by
    rw [Game.weaponLoop_slowEffect]
    exact h1
  simp only [Game.processOneEnemy]
  split <;> split <;> exact h2 _

theorem Game.enemiesLoop_slow (dt : ℝ) (kd : ℕ → KillDraw) :
    ∀ (es : List Enemy) (s : GameState), (∀ e ∈ es, e.slowEffect ≤ 0) →
      ∀ e2 ∈ (Game.enemiesLoop dt kd s es).2, e2.slowEffect ≤ 0 := by
  intro es
  induction es with
  | nil =>
      intro s _ e2 he2
      exact absurd he2 (List.not_mem_nil e2)
  | cons e rest ih =>
      intro s h e2 he2
      rw [Game.enemiesLoop] at he2
      rcases List.mem_cons.mp he2 with rfl | hmem
      · exact Game.processOneEnemy_slowEffect dt kd s e (h e (List.mem_cons_self e rest))
      · exact ih (Game.processOneEnemy dt kd s e).1
          (fun x hx => h x (List.mem_cons_of_mem e hx)) e2 hmem

theorem Game.mkBoundaryEnemy_slowEffect (k : ℕ) (a : ℝ) (t : EType) :
    (Game.mkBoundaryEnemy k a t).slowEffect = 0 := rfl

theorem Game.updSurvivalTime_enemies (dt : ℝ) (s : GameState) :
    (Game.updSurvivalTime dt s).enemies = s.enemies := rfl

theorem Game.updPlayer_enemies (dt : ℝ) (env : Env) (s : GameState) :
    (Game.updPlayer dt env s).enemies = s.enemies := rfl

theorem Game.updLevelUp_enemies (env : Env) (s : GameState) :
    (Game.updLevelUp env s).enemies = s.enemies := by
  simp only [Game.updLevelUp, Game.showSkillSelection]
  split <;> rfl

theorem Game.updOrbs_enemies (dt : ℝ) (fa : Bool) (s : GameState) :
    (Game.updOrbs dt fa s).enemies = s.enemies := rfl

theorem Game.applyChestReward_enemies (cd : ChestDraw) (r : RewardId) (s : GameState) :
    (Game.applyChestReward cd r s).enemies = s.enemies := by
  cases r <;> rfl

theorem Game.chestLoop_enemies (dt : ℝ) (cds : ℕ → ChestDraw) :
    ∀ (cs : List Chest) (i : ℕ) (s : GameState),
      (Game.chestLoop dt cds i s cs).1.enemies = s.enemies := by
  intro cs
  induction cs with
  | nil =>
      intro i s
      rfl
  | cons c rest ih =>
      intro i s
      rw [Game.chestLoop]
      cases hr : (Chest.update dt s.player (cds i).reward c).2 with
      | some reward =>
          simp only [hr]
          exact (ih (i + 1) _).trans (Game.applyChestReward_enemies (cds i) reward s)
      | none =>
          simp only [hr]
          exact ih (i + 1) s

theorem Game.updChests_enemies (dt : ℝ) (env : Env) (s : GameState) :
    (Game.updChests dt env s).enemies = s.enemies :=
  Game.chestLoop_enemies dt env.chestDraws s.chests 0 s

theorem Game.updParticles_enemies (dt : ℝ) (s : GameState) :
    (Game.updParticles dt s).enemies = s.enemies := rfl

theorem Game.updChestSpawn_enemies (dt : ℝ) (env : Env) (s : GameState) :
    (Game.updChestSpawn dt env s).enemies = s.enemies := by
  simp only [Game.updChestSpawn, Game.spawnChest]
  split <;> rfl

theorem Game.spawnEnemies_enemies_mem (dt : ℝ) (env : Env) (s : GameState) :
    ∀ e ∈ (Game.spawnEnemies dt env s).enemies,
      e ∈ s.enemies ∨ ∃ k a t, e = Game.mkBoundaryEnemy k a t := by
  intro e he
  simp only [Game.spawnEnemies] at he
  split at he <;> try split at he
  all_goals try split at he
  all_goals simp only [List.mem_append, List.mem_map, List.mem_singleton] at he
  all_goals first
    | exact Or.inl he
    | (rcases he with (he | ⟨i, -, hmk⟩) | hmk2
       · exact Or.inl he
       · exact Or.inr ⟨_, _, _, hmk.symm⟩
       · exact Or.inr ⟨_, _, _, hmk2⟩)
    | (rcases he with he | ⟨i, -, hmk⟩
       · exact Or.inl he
       · exact Or.inr ⟨_, _, _, hmk.symm⟩)
    | (rcases he with he | hmk2
       · exact Or.inl he
       · exact Or.inr ⟨_, _, _, hmk2⟩)

theorem Game.updBossCheck_enemies_mem (env : Env) (s : GameState) :
    ∀ e ∈ (Game.updBossCheck env s).enemies,
      e ∈ s.enemies ∨ ∃ k a t, e = Game.mkBoundaryEnemy k a t := by
  intro e he
  unfold Game.updBossCheck Game.spawnBoss at he
  split at he
  · rcases List.mem_append.mp he with h1 | h1
    · exact Or.inl h1
    · rw [List.mem_singleton] at h1
      exact Or.inr ⟨_, _, _, h1⟩
  · exact Or.inl he

theorem Game.resolveBossAttack_enemies (aid : ℕ) (s : GameState) :
    (Game.resolveBossAttack aid s).enemies = s.enemies := by
  unfold Game.resolveBossAttack
  split
  · split <;> rfl
  · rfl

theorem Game.fireTimers_enemies (dt : ℝ) (s : GameState) :
    (Game.fireTimers dt s).enemies = s.enemies := by
  have hres : ∀ (l : List PendingAttack) (x : GameState),
      (l.foldl (fun acc a => Game.resolveBossAttack a.enemyId acc) x).enemies
        = x.enemies := by
    intro l
    induction l with
    | nil =>
        intro x
        rfl
    | cons a rest ih =>
        intro x
        exact (ih (Game.resolveBossAttack a.enemyId x)).trans
          (Game.resolveBossAttack_enemies a.enemyId x)
  have hrev : ∀ (l : List ℝ) (x : GameState),
      (l.foldl (fun acc _ =>
        { acc with player := { acc.player with speedBuff := 1.0 } }) x).enemies
        = x.enemies := by
    intro l
    induction l with
    | nil =>
        intro x
        rfl
    | cons a rest ih =>
        intro x
        exact ih { x with player := { x.player with speedBuff := 1.0 } }
  simp only [Game.fireTimers]
  exact ((hrev _ _).trans ((hres _ _)))

theorem Game.selectSkill_enemies (sk : Skill) (s : GameState) :
    (Game.selectSkill sk s).enemies = s.enemies := by
  cases sk <;> rfl

/-- One driver frame, characterized: the timer/mouse prelude produces an
intermediate state agreeing with the input state on the spawn-relevant
fields, after which the state-dispatch runs. -/
theorem Game.frame_char (inp : FrameInput) (s : GameState) :
    ∃ s2 : GameState,
      s2.bossSpawned = s.bossSpawned ∧
      s2.player.level = s.player.level ∧
      s2.player.expToLevel = s.player.expToLevel ∧
      s2.survivalTime = s.survivalTime ∧
      s2.state = s.state ∧
      s2.enemies = s.enemies ∧
      Game.frame inp s =
        (if s.state = GState.playing then Game.update inp.dt inp.env s2
         else if s.state = GState.levelup ∧ inp.select = true then
           Game.selectSkill (s2.pendingSkills.getD inp.skillIndex Skill.add_weapon) s2
         else s2) := by
  obtain ⟨f1, f2, f3, f4, f5⟩ := Game.fireTimers_pres inp.dt s
  have f6 := Game.fireTimers_enemies inp.dt s
  cases hm : inp.mouse with
  | none =>
      refine ⟨Game.fireTimers inp.dt s, f1, f2, f3, f4, f5, f6, ?_⟩
      simp only [Game.frame, hm]
      cases hst : s.state with
      | playing =>
          rw [f5.trans hst]
          rfl
      | paused =>
          rw [f5.trans hst]
          rfl
      | levelup =>
          rw [f5.trans hst]
          cases inp.select <;> rfl
      | gameover =>
          rw [f5.trans hst]
          rfl
      | victory =>
          rw [f5.trans hst]
          rfl
  | some m =>
      refine ⟨{ Game.fireTimers inp.dt s with
        player := { (Game.fireTimers inp.dt s).player with
          targetX := some m.1
          targetY := some m.2 } }, f1, f2, f3, f4, f5, f6, ?_⟩
      simp only [Game.frame, hm]
      cases hst : s.state with
      | playing =>
          rw [show ({ Game.fireTimers inp.dt s with
            player := { (Game.fireTimers inp.dt s).player with
              targetX := some m.1
              targetY := some m.2 } } : GameState).state = GState.playing from f5.trans hst]
          rfl
      | paused =>
          rw [show ({ Game.fireTimers inp.dt s with
            player := { (Game.fireTimers inp.dt s).player with
              targetX := some m.1
              targetY := some m.2 } } : GameState).state = GState.paused from f5.trans hst]
          rfl
      | levelup =>
          rw [show ({ Game.fireTimers inp.dt s with
            player := { (Game.fireTimers inp.dt s).player with
              targetX := some m.1
              targetY := some m.2 } } : GameState).state = GState.levelup from f5.trans hst]
          cases inp.select <;> rfl
      | gameover =>
          rw [show ({ Game.fireTimers inp.dt s with
            player := { (Game.fireTimers inp.dt s).player with
              targetX := some m.1
              targetY := some m.2 } } : GameState).state = GState.gameover from f5.trans hst]
          rfl
      | victory =>
          rw [show ({ Game.fireTimers inp.dt s with
            player := { (Game.fireTimers inp.dt s).player with
              targetX := some m.1
              targetY := some m.2 } } : GameState).state = GState.victory from f5.trans hst]
          rfl

theorem Game.frame_bossSpawned_mono (inp : FrameInput) (s : GameState)
    (h : s.bossSpawned = true) : (Game.frame inp s).bossSpawned = true := by
  obtain ⟨s2, h1, _, _, _, _, _, heq⟩ := Game.frame_char inp s
  rw [heq]
  split
  · exact (Game.update_bossSpawned_iff _ _ _).mpr (Or.inl (h1.trans h))
  · split
    · exact (Game.selectSkill_pres _ _).1.trans (h1.trans h)
    · exact h1.trans h

theorem Game.frame_spawn_iff (inp : FrameInput) (s : GameState)
    (hs : s.bossSpawned = false) :
    ((Game.frame inp s).bossSpawned = true ↔
      (s.state = GState.playing ∧
        (10 ≤ (Game.frame inp s).player.level ∨
          120 ≤ (Game.frame inp s).survivalTime))) := by
  obtain ⟨s2, h1, _, _, _, _, _, heq⟩ := Game.frame_char inp s
  rw [heq]
  split
  next hpl =>
    rw [Game.update_bossSpawned_iff]
    constructor
    · rintro (hb | hc)
      · rw [h1.trans hs] at hb
        exact absurd hb Bool.false_ne_true
      · exact ⟨hpl, hc⟩
    · rintro ⟨-, hc⟩
      exact Or.inr hc
  next hpl =>
    split
    next =>
      constructor
      · intro hb
        rw [(Game.selectSkill_pres _ s2).1.trans (h1.trans hs)] at hb
        exact absurd hb Bool.false_ne_true
      · rintro ⟨hpl2, -⟩
        exact absurd hpl2 hpl
    next =>
      constructor
      · intro hb
        rw [h1.trans hs] at hb
        exact absurd hb Bool.false_ne_true
      · rintro ⟨hpl2, -⟩
        exact absurd hpl2 hpl

theorem Game.frame_spawn_appends_boss (inp : FrameInput) (s : GameState)
    (hs : s.bossSpawned = false) (ht : (Game.frame inp s).bossSpawned = true) :
    ∃ es k, (Game.frame inp s).enemies =
      es ++ [Game.mkBoundaryEnemy k inp.env.bossAngle EType.boss] := by
  obtain ⟨s2, h1, _, _, _, _, _, heq⟩ := Game.frame_char inp s
  rw [heq]
  rw [heq] at ht
  by_cases hpl : s.state = GState.playing
  · rw [if_pos hpl] at ht ⊢
    exact Game.update_spawn_appends_boss inp.dt inp.env s2 (h1.trans hs) ht
  · rw [if_neg hpl] at ht ⊢
    by_cases hsel : s.state = GState.levelup ∧ inp.select = true
    · rw [if_pos hsel] at ht
      rw [(Game.selectSkill_pres _ s2).1.trans (h1.trans hs)] at ht
      exact absurd ht Bool.false_ne_true
    · rw [if_neg hsel] at ht
      rw [h1.trans hs] at ht
      exact absurd ht Bool.false_ne_true

theorem Game.update_slow_invariant (dt : ℝ) (env : Env) (s : GameState)
    (h : ∀ e ∈ s.enemies, e.slowEffect ≤ 0) :
    ∀ e ∈ (Game.update dt env s).enemies, e.slowEffect ≤ 0 := by
  set s3 := Game.updLevelUp env (Game.updPlayer dt env (Game.updSurvivalTime dt s)) with hs3
  set s4 := Game.updEnemies dt env s3 with hs4
  set s5 := Game.updRemoveDead s4 with hs5
  set s6 := Game.updOrbs dt env.keys.space s5 with hs6
  set s7 := Game.updChests dt env s6 with hs7
  set s8 := Game.updParticles dt s7 with hs8
  set s9 := Game.spawnEnemies dt env s8 with hs9
  set s10 := Game.updChestSpawn dt env s9 with hs10
  have h3 : ∀ e ∈ s3.enemies, e.slowEffect ≤ 0 := by
    rw [hs3, Game.updLevelUp_enemies, Game.updPlayer_enemies, Game.updSurvivalTime_enemies]
    exact h
  have h4 : ∀ e ∈ s4.enemies, e.slowEffect ≤ 0 := by
    rw [hs4]
    exact Game.enemiesLoop_slow dt env.killDraws s3.enemies s3 h3
  have h5 : ∀ e ∈ s5.enemies, e.slowEffect ≤ 0 := by
    rw [hs5]
    intro e he
    exact h4 e (List.mem_filter.mp he).1
  have h6 : ∀ e ∈ s6.enemies, e.slowEffect ≤ 0 := by
    rw [hs6, Game.updOrbs_enemies]
    exact h5
  have h7 : ∀ e ∈ s7.enemies, e.slowEffect ≤ 0 := by
    rw [hs7, Game.updChests_enemies]
    exact h6
  have h8 : ∀ e ∈ s8.enemies, e.slowEffect ≤ 0 := by
    rw [hs8, Game.updParticles_enemies]
    exact h7
  have h9 : ∀ e ∈ s9.enemies, e.slowEffect ≤ 0 := by
    rw [hs9]
    intro e he
    rcases Game.spawnEnemies_enemies_mem dt env s8 e he with h' | ⟨k, a, t, rfl⟩
    · exact h8 e h'
    · exact le_of_eq (Game.mkBoundaryEnemy_slowEffect k a t)
  have h10 : ∀ e ∈ s10.enemies, e.slowEffect ≤ 0 := by
    rw [hs10, Game.updChestSpawn_enemies]
    exact h9
  intro e he
  have hfin : (Game.update dt env s).enemies = (Game.updBossCheck env s10).enemies :=
    Game.updDefeatCheck_enemies (Game.updBossCheck env s10)
  rw [hfin] at he
  rcases Game.updBossCheck_enemies_mem env s10 e he with h' | ⟨k, a, t, rfl⟩
  · exact h10 e h'
  · exact le_of_eq (Game.mkBoundaryEnemy_slowEffect k a t)

theorem Game.frame_slow_invariant (inp : FrameInput) (s : GameState)
    (h : ∀ e ∈ s.enemies, e.slowEffect ≤ 0) :
    ∀ e ∈ (Game.frame inp s).enemies, e.slowEffect ≤ 0 := by
  obtain ⟨s2, _, _, _, _, _, hen, heq⟩ := Game.frame_char inp s
  have h2 : ∀ e ∈ s2.enemies, e.slowEffect ≤ 0 := by
    rw [hen]
    exact h
  rw [heq]
  split
  · exact Game.update_slow_invariant inp.dt inp.env s2 h2
  · split
    · intro e he
      rw [Game.selectSkill_enemies] at he
      exact h2 e he
    · exact h2

/-! ## Helpers for the boss-attack scenario (C8) -/

/-- A playing-state frame with no pointer event is the timer step followed
by Game.update. -/
theorem Game.frame_playing (inp : FrameInput) (s : GameState)
    (hm : inp.mouse = Option.none) (hst : s.state = GState.playing) :
    Game.frame inp s = Game.update inp.dt inp.env (Game.fireTimers inp.dt s) := by
  simp only [Game.frame, hm]
  rw [(Game.fireTimers_pres inp.dt s).2.2.2.2.trans hst]

theorem getWeaponPositions_shape (p : Player) :
    ∀ wp ∈ p.getWeaponPositions, ∃ θ, wp.x = p.x + Real.cos θ * p.weaponRadius ∧
      wp.y = p.y + Real.sin θ * p.weaponRadius := by
  intro wp hwp
  simp only [Player.getWeaponPositions, List.mem_map] at hwp
  obtain ⟨i, -, rfl⟩ := hwp
  exact ⟨_, rfl, rfl⟩

/-- A weapon orbiting at radius 80 around a player at (140, 0) cannot reach
an enemy of radius 40 sitting on the axis at least 128 further right. -/
theorem c8_weapon_miss (ex θ : ℝ) (h128 : 128 ≤ ex - 140) :
    ¬ Utils.circleCollision (140 + Real.cos θ * 80) (0 + Real.sin θ * 80) 8 ex 0 40 := by
  unfold Utils.circleCollision Utils.distance
  rw [not_lt]
  have hs := Real.sin_sq_add_cos_sq θ
  have hc1 := Real.cos_le_one θ
  have key : ((48 : ℝ)) ^ 2 ≤
      (ex - (140 + Real.cos θ * 80)) ^ 2 + (0 - (0 + Real.sin θ * 80)) ^ 2 := by
    have expand : (ex - (140 + Real.cos θ * 80)) ^ 2 + (0 - (0 + Real.sin θ * 80)) ^ 2
        = (ex - 140) ^ 2 - 160 * Real.cos θ * (ex - 140) + 6400 := by
      linear_combination (6400 : ℝ) * hs
    rw [expand]
    nlinarith [sq_nonneg (ex - 140 - 80), mul_le_mul_of_nonneg_right hc1
      (show (0:ℝ) ≤ 160 * (ex - 140) by nlinarith)]
  have h48 : (48 : ℝ) = Real.sqrt (48 ^ 2) := by
    rw [Real.sqrt_sq] <;> norm_num
  calc (8 : ℝ) + 40 = 48 := by norm_num
  _ = Real.sqrt (48 ^ 2) := h48
  _ ≤ _ := Real.sqrt_le_sqrt key

/-- Hence the whole weapon pass leaves the state and such an enemy alone. -/
theorem c8_weaponLoop_miss (kd : ℕ → KillDraw) (d : ℝ) (e : Enemy)
    (hex : 128 ≤ e.x - 140) (hey : e.y = 0) (hrad : e.radius = 40) :
    ∀ (wps : List WeaponPos) (s : GameState),
      (∀ wp ∈ wps, ∃ θ, wp.x = 140 + Real.cos θ * 80 ∧ wp.y = 0 + Real.sin θ * 80) →
      Game.weaponLoop kd d wps s e = (s, e) := by
  intro wps
  induction wps with
  | nil =>
      intro s _
      rfl
  | cons wp rest ih =>
      intro s h
      obtain ⟨θ, hx, hy⟩ := h wp (List.mem_cons_self wp rest)
      rw [Game.weaponLoop, if_neg (by rw [hx, hy, hey, hrad]; exact c8_weapon_miss e.x θ hex)]
      exact ih s (fun w hw => h w (List.mem_cons_of_mem wp hw))

/-- An enemy of radius 40 on the axis at least 60 to the right of the
player's circle center (140, 0) makes no body contact (radius sum 60). -/
theorem c8_contact_miss (ex : ℝ) (h60 : 60 ≤ ex - 140) :
    ¬ Utils.circleCollision ex 0 40 140 0 20 := by
  unfold Utils.circleCollision Utils.distance
  rw [not_lt]
  have key : ((60 : ℝ)) ^ 2 ≤ (140 - ex) ^ 2 + (0 - 0) ^ 2 := by nlinarith
  have h60e : (60 : ℝ) = Real.sqrt (60 ^ 2) := by
    rw [Real.sqrt_sq] <;> norm_num
  calc (40 : ℝ) + 20 = 60 := by norm_num
  _ = Real.sqrt (60 ^ 2) := h60e
  _ ≤ _ := Real.sqrt_le_sqrt key

/-- checkLevelUp is a no-op below the threshold. -/
theorem c8_checkLevelUp (p : Player) (hexp : p.exp = 0) (hthr : p.expToLevel = 100) :
    p.checkLevelUp = (false, p) := by
  unfold Player.checkLevelUp
  rw [if_neg (by rw [hexp, hthr]; norm_num)]

/-- One idle Player.update for a player parked at (140, 0): no movement, no
clamp; only the weapon angle and the timers advance. -/
theorem c8_player_step (dt ca hp inv : ℝ) :
    Player.update dt Keys.none Game.arenaRadius
        { Player.init 140 0 with currentAngle := ca, hp := hp, invincible := inv } =
      { Player.init 140 0 with
        currentAngle := if 360 ≤ ca + 120 * dt then ca + 120 * dt - 360 else ca + 120 * dt
        hp := hp
        invincible := if 0 < inv then inv - dt else inv } := by
  have h0 : Real.sqrt ((0 : ℝ) * 0 + 0 * 0) = 0 := by
    rw [show ((0 : ℝ) * 0 + 0 * 0) = 0 by norm_num, Real.sqrt_zero]
  have h140 : Real.sqrt ((19600 : ℝ)) = 140 := by
    rw [show ((19600 : ℝ)) = 140 ^ 2 by norm_num,
      Real.sqrt_sq (by norm_num : (0 : ℝ) ≤ 140)]
  simp only [Player.update, Player.mouseStep, Player.init, Game.arenaRadius,
    Player.confineX, Player.confineY, Keys.none]
  norm_num [h0, h140]

/-- One Enemy.update of the scenario boss when it stands on the positive x
axis right of the player at (140, 0): it advances 120·dt straight toward
the player and runs down its attack cooldown. -/
theorem c8_boss_step (dt ex cd : ℝ) (hlt : 140 < ex) :
    Enemy.update dt 140 0 { c8Boss with x := ex, attackCooldown := cd } =
      { c8Boss with x := ex - 120 * dt, attackCooldown := cd - dt } := by
  have hne : ex - 140 ≠ 0 := sub_ne_zero.mpr (ne_of_gt hlt)
  have hd2 : Real.sqrt ((140 - ex) * (140 - ex)) = ex - 140 := by
    rw [show ((140 : ℝ) - ex) * (140 - ex) = (ex - 140) ^ 2 by ring,
      Real.sqrt_sq (sub_nonneg.mpr hlt.le)]
  have hq : (140 - ex) / (ex - 140) = -1 := by
    rw [show (140 - ex : ℝ) = -(ex - 140) by ring, neg_div, div_self hne]
  have hpos : (0 : ℝ) < ex - 140 := sub_pos.mpr hlt
  have hcond : ¬((140 : ℝ) - ex = 0) := fun h => hne (by linarith)
  simp only [Enemy.update, c8Boss, Enemy.init, enemyConfigs]
  norm_num [hd2, hq, hpos, hcond]
  ring

theorem c8_player_stepA :
    Player.update 0.1 Keys.none Game.arenaRadius (Player.init 140 0) =
      { Player.init 140 0 with currentAngle := 12 } := by
  have h := c8_player_step 0.1 0 100 0
  exact h.trans (by norm_num [Player.mk.injEq, Player.init])

theorem c8_player_stepB :
    Player.update 0.4 Keys.none Game.arenaRadius
        { Player.init 140 0 with currentAngle := 12 } =
      { Player.init 140 0 with currentAngle := 60 } := by
  have h := c8_player_step 0.4 12 100 0
  exact h.trans (by norm_num [Player.mk.injEq, Player.init])

theorem c8_player_stepC :
    Player.update 0.1 Keys.none Game.arenaRadius
        { Player.init 140 0 with currentAngle := 60, hp := 85, invincible := 0.5 } =
      { Player.init 140 0 with currentAngle := 72, hp := 85, invincible := 0.4 } := by
  have h := c8_player_step 0.1 60 85 0.5
  exact h.trans (by norm_num [Player.mk.injEq, Player.init])

theorem c8_boss_stepA :
    Enemy.update 0.1 140 0 c8Boss = { c8Boss with x := 348, attackCooldown := 0 } := by
  have h := c8_boss_step 0.1 360 0.1 (by norm_num)
  exact h.trans (by norm_num [Enemy.mk.injEq, c8Boss, Enemy.init, enemyConfigs])

theorem c8_boss_stepB :
    Enemy.update 0.4 140 0 { c8Boss with x := 348, attackCooldown := 5 } =
      { c8Boss with x := 300, attackCooldown := 4.6 } := by
  have h := c8_boss_step 0.4 348 5 (by norm_num)
  exact h.trans (by norm_num [Enemy.mk.injEq, c8Boss, Enemy.init, enemyConfigs])

theorem c8_boss_stepC :
    Enemy.update 0.1 140 0 { c8Boss with x := 300, attackCooldown := 4.6 } =
      { c8Boss with x := 288, attackCooldown := 4.5 } := by
  have h := c8_boss_step 0.1 300 4.6 (by norm_num)
  exact h.trans (by norm_num [Enemy.mk.injEq, c8Boss, Enemy.init, enemyConfigs])

/-- The boss's pass through Game.update's enemies loop when its cooldown
expires this frame: it advances, misses every weapon and the player's body,
and schedules the delayed attack, leaving 30 warning particles. -/
theorem c8_process_attack (dt : ℝ) (kd : ℕ → KillDraw) (s : GameState) (ex cd : ℝ)
    (hx : s.player.x = 140) (hy : s.player.y = 0) (hrad : s.player.radius = 20)
    (hwr : s.player.weaponRadius = 80)
    (hex : 140 < ex) (hex2 : 128 ≤ ex - 120 * dt - 140) (hcd : cd - dt ≤ 0) :
    Game.processOneEnemy dt kd s { c8Boss with x := ex, attackCooldown := cd } =
      ({ s with
          particles := s.particles ++ ((List.range 30).map fun i =>
            Particle.init (ex - 120 * dt + Real.cos (((i : ℝ) / 30) * (2 * pi)) * 200)
              (0 + Real.sin (((i : ℝ) / 30) * (2 * pi)) * 200) "#ff0000" 4 0 0 0.5)
          pendingAttacks := s.pendingAttacks ++ [⟨0.5, 7⟩] },
        { c8Boss with x := ex - 120 * dt, attackCooldown := 5 }) := by
  have h60 : (60 : ℝ) ≤ ex - 120 * dt - 140 := by linarith
  simp only [Game.processOneEnemy]
  rw [hx, hy, c8_boss_step dt ex cd hex]
  rw [show ({ c8Boss with x := ex - 120 * dt, attackCooldown := cd - dt } : Enemy).x = ex - 120 * dt from rfl,
    show ({ c8Boss with x := ex - 120 * dt, attackCooldown := cd - dt } : Enemy).y = 0 from rfl,
    show ({ c8Boss with x := ex - 120 * dt, attackCooldown := cd - dt } : Enemy).radius = 40 from rfl, hrad]
  rw [if_neg (c8_contact_miss (ex - 120 * dt) h60)]
  rw [c8_weaponLoop_miss kd s.player.weaponDamage
    { c8Boss with x := ex - 120 * dt, attackCooldown := cd - dt }
    (show (128 : ℝ) ≤ ({ c8Boss with x := ex - 120 * dt, attackCooldown := cd - dt } : Enemy).x - 140 from hex2)
    rfl rfl s.player.getWeaponPositions s
    (fun wp hwp => by
      obtain ⟨θ, h1, h2⟩ := getWeaponPositions_shape s.player wp hwp
      exact ⟨θ, by rw [h1, hx, hwr], by rw [h2, hy, hwr]⟩)]
  rw [show ((s, ({ c8Boss with x := ex - 120 * dt, attackCooldown := cd - dt } : Enemy)) :
      GameState × Enemy).2 = { c8Boss with x := ex - 120 * dt, attackCooldown := cd - dt } from rfl,
    show ((s, ({ c8Boss with x := ex - 120 * dt, attackCooldown := cd - dt } : Enemy)) :
      GameState × Enemy).1 = s from rfl]
  rw [if_pos (show Enemy.canAttack { c8Boss with x := ex - 120 * dt, attackCooldown := cd - dt }
    from ⟨rfl, hcd⟩)]
  rw [show ({ c8Boss with x := ex - 120 * dt, attackCooldown := cd - dt } : Enemy).x = ex - 120 * dt from rfl,
    show ({ c8Boss with x := ex - 120 * dt, attackCooldown := cd - dt } : Enemy).y = 0 from rfl,
    show ({ c8Boss with x := ex - 120 * dt, attackCooldown := cd - dt } : Enemy).id = 7 from rfl]
  simp only [Game.createBossAttackWarning, Enemy.performAttack]
  rfl

/-- The boss's pass through the enemies loop while its cooldown is still
running: it just advances toward the player. -/
theorem c8_process_noattack (dt : ℝ) (kd : ℕ → KillDraw) (s : GameState) (ex cd : ℝ)
    (hx : s.player.x = 140) (hy : s.player.y = 0) (hrad : s.player.radius = 20)
    (hwr : s.player.weaponRadius = 80)
    (hex : 140 < ex) (hex2 : 128 ≤ ex - 120 * dt - 140) (hcd : 0 < cd - dt) :
    Game.processOneEnemy dt kd s { c8Boss with x := ex, attackCooldown := cd } =
      (s, { c8Boss with x := ex - 120 * dt, attackCooldown := cd - dt }) := by
  have h60 : (60 : ℝ) ≤ ex - 120 * dt - 140 := by linarith
  simp only [Game.processOneEnemy]
  rw [hx, hy, c8_boss_step dt ex cd hex]
  rw [show ({ c8Boss with x := ex - 120 * dt, attackCooldown := cd - dt } : Enemy).x = ex - 120 * dt from rfl,
    show ({ c8Boss with x := ex - 120 * dt, attackCooldown := cd - dt } : Enemy).y = 0 from rfl,
    show ({ c8Boss with x := ex - 120 * dt, attackCooldown := cd - dt } : Enemy).radius = 40 from rfl, hrad]
  rw [if_neg (c8_contact_miss (ex - 120 * dt) h60)]
  rw [c8_weaponLoop_miss kd s.player.weaponDamage
    { c8Boss with x := ex - 120 * dt, attackCooldown := cd - dt }
    (show (128 : ℝ) ≤ ({ c8Boss with x := ex - 120 * dt, attackCooldown := cd - dt } : Enemy).x - 140 from hex2)
    rfl rfl s.player.getWeaponPositions s
    (fun wp hwp => by
      obtain ⟨θ, h1, h2⟩ := getWeaponPositions_shape s.player wp hwp
      exact ⟨θ, by rw [h1, hx, hwr], by rw [h2, hy, hwr]⟩)]
  rw [show ((s, ({ c8Boss with x := ex - 120 * dt, attackCooldown := cd - dt } : Enemy)) :
      GameState × Enemy).2 = { c8Boss with x := ex - 120 * dt, attackCooldown := cd - dt } from rfl,
    show ((s, ({ c8Boss with x := ex - 120 * dt, attackCooldown := cd - dt } : Enemy)) :
      GameState × Enemy).1 = s from rfl]
  rw [if_neg (show ¬ Enemy.canAttack { c8Boss with x := ex - 120 * dt, attackCooldown := cd - dt }
    from fun hca => absurd hca.2 (not_le.mpr hcd))]
  rfl

/-- The trigger frame's Game.update: the boss closes to x = 348, its attack
cooldown expires, and the delayed attack is scheduled with 0.5s remaining;
30 warning particles appear around (348, 0). -/
theorem c8_updateA : Game.update 0.1 trivialEnv c8State = c8S1 := by
  have e1 : Game.updSurvivalTime 0.1 c8State = { c8State with survivalTime := 0.1 } := by
    simp only [Game.updSurvivalTime, c8State, Game.initState]
    norm_num
  have e2 : Game.updPlayer 0.1 trivialEnv { c8State with survivalTime := 0.1 } =
      { c8State with
        survivalTime := 0.1
        player := { Player.init 140 0 with currentAngle := 12 } } := by
    rw [Game.updPlayer,
      show ({ c8State with survivalTime := 0.1 } : GameState).player
        = Player.init 140 0 from rfl,
      show trivialEnv.keys = Keys.none from rfl, c8_player_stepA]
  have e3 : Game.updLevelUp trivialEnv
      { c8State with
        survivalTime := 0.1
        player := { Player.init 140 0 with currentAngle := 12 } } =
      { c8State with
        survivalTime := 0.1
        player := { Player.init 140 0 with currentAngle := 12 } } := by
    simp only [Game.updLevelUp]
    rw [c8_checkLevelUp { Player.init 140 0 with currentAngle := 12 } rfl rfl]
    rfl
  have e4 : Game.updEnemies 0.1 trivialEnv
      { c8State with
        survivalTime := 0.1
        player := { Player.init 140 0 with currentAngle := 12 } } =
      { c8State with
        survivalTime := 0.1
        player := { Player.init 140 0 with currentAngle := 12 }
        enemies := [{ c8Boss with x := 348, attackCooldown := 5 }]
        particles := (List.range 30).map fun i =>
          Particle.init (348 + Real.cos (((i : ℝ) / 30) * (2 * pi)) * 200)
            (0 + Real.sin (((i : ℝ) / 30) * (2 * pi)) * 200) "#ff0000" 4 0 0 0.5
        pendingAttacks := [⟨0.5, 7⟩] } := by
    rw [Game.updEnemies,
      show ({ c8State with
        survivalTime := 0.1
        player := { Player.init 140 0 with currentAngle := 12 } } : GameState).enemies
        = [c8Boss] from rfl]
    simp only [Game.enemiesLoop]
    conv_lhs => rw [show c8Boss = { c8Boss with x := 360, attackCooldown := 0.1 } from rfl]
    rw [c8_process_attack 0.1 trivialEnv.killDraws
      { c8State with
        survivalTime := 0.1
        player := { Player.init 140 0 with currentAngle := 12 } } 360 0.1 rfl rfl rfl rfl
      (by norm_num) (by norm_num) (by norm_num)]
    norm_num [c8State, Game.initState]
  have e5 : Game.updRemoveDead
      { c8State with
        survivalTime := 0.1
        player := { Player.init 140 0 with currentAngle := 12 }
        enemies := [{ c8Boss with x := 348, attackCooldown := 5 }]
        particles := (List.range 30).map fun i =>
          Particle.init (348 + Real.cos (((i : ℝ) / 30) * (2 * pi)) * 200)
            (0 + Real.sin (((i : ℝ) / 30) * (2 * pi)) * 200) "#ff0000" 4 0 0 0.5
        pendingAttacks := [⟨0.5, 7⟩] } =
      { c8State with
        survivalTime := 0.1
        player := { Player.init 140 0 with currentAngle := 12 }
        enemies := [{ c8Boss with x := 348, attackCooldown := 5 }]
        particles := (List.range 30).map fun i =>
          Particle.init (348 + Real.cos (((i : ℝ) / 30) * (2 * pi)) * 200)
            (0 + Real.sin (((i : ℝ) / 30) * (2 * pi)) * 200) "#ff0000" 4 0 0 0.5
        pendingAttacks := [⟨0.5, 7⟩] } := rfl
  have e6 : Game.updOrbs 0.1 trivialEnv.keys.space
      { c8State with
        survivalTime := 0.1
        player := { Player.init 140 0 with currentAngle := 12 }
        enemies := [{ c8Boss with x := 348, attackCooldown := 5 }]
        particles := (List.range 30).map fun i =>
          Particle.init (348 + Real.cos (((i : ℝ) / 30) * (2 * pi)) * 200)
            (0 + Real.sin (((i : ℝ) / 30) * (2 * pi)) * 200) "#ff0000" 4 0 0 0.5
        pendingAttacks := [⟨0.5, 7⟩] } =
      { c8State with
        survivalTime := 0.1
        player := { Player.init 140 0 with currentAngle := 12 }
        enemies := [{ c8Boss with x := 348, attackCooldown := 5 }]
        particles := (List.range 30).map fun i =>
          Particle.init (348 + Real.cos (((i : ℝ) / 30) * (2 * pi)) * 200)
            (0 + Real.sin (((i : ℝ) / 30) * (2 * pi)) * 200) "#ff0000" 4 0 0 0.5
        pendingAttacks := [⟨0.5, 7⟩] } := rfl
  have e7 : Game.updChests 0.1 trivialEnv
      { c8State with
        survivalTime := 0.1
        player := { Player.init 140 0 with currentAngle := 12 }
        enemies := [{ c8Boss with x := 348, attackCooldown := 5 }]
        particles := (List.range 30).map fun i =>
          Particle.init (348 + Real.cos (((i : ℝ) / 30) * (2 * pi)) * 200)
            (0 + Real.sin (((i : ℝ) / 30) * (2 * pi)) * 200) "#ff0000" 4 0 0 0.5
        pendingAttacks := [⟨0.5, 7⟩] } =
      { c8State with
        survivalTime := 0.1
        player := { Player.init 140 0 with currentAngle := 12 }
        enemies := [{ c8Boss with x := 348, attackCooldown := 5 }]
        particles := (List.range 30).map fun i =>
          Particle.init (348 + Real.cos (((i : ℝ) / 30) * (2 * pi)) * 200)
            (0 + Real.sin (((i : ℝ) / 30) * (2 * pi)) * 200) "#ff0000" 4 0 0 0.5
        pendingAttacks := [⟨0.5, 7⟩] } := rfl
  have hmm2 : ((List.range 30).map fun i =>
      Particle.init (348 + Real.cos (((i : ℝ) / 30) * (2 * pi)) * 200)
        (0 + Real.sin (((i : ℝ) / 30) * (2 * pi)) * 200) "#ff0000" 4 0 0 0.5).map
          (Particle.update 0.1) = c8Parts := by
    rw [List.map_map, c8Parts]
    apply List.map_congr_left
    intro i _
    simp only [Function.comp, Particle.update, Particle.init, Particle.mk.injEq]
    norm_num
  have hfil : c8Parts.filter (fun pt => decide ¬ pt.isDead) = c8Parts := by
    apply List.filter_eq_self.mpr
    intro pt hpt
    simp only [c8Parts, List.mem_map] at hpt
    obtain ⟨i, -, rfl⟩ := hpt
    simp only [Particle.isDead, decide_eq_true_eq]
    norm_num
  have e8 : Game.updParticles 0.1
      { c8State with
        survivalTime := 0.1
        player := { Player.init 140 0 with currentAngle := 12 }
        enemies := [{ c8Boss with x := 348, attackCooldown := 5 }]
        particles := (List.range 30).map fun i =>
          Particle.init (348 + Real.cos (((i : ℝ) / 30) * (2 * pi)) * 200)
            (0 + Real.sin (((i : ℝ) / 30) * (2 * pi)) * 200) "#ff0000" 4 0 0 0.5
        pendingAttacks := [⟨0.5, 7⟩] } =
      { c8State with
        survivalTime := 0.1
        player := { Player.init 140 0 with currentAngle := 12 }
        enemies := [{ c8Boss with x := 348, attackCooldown := 5 }]
        particles := c8Parts
        pendingAttacks := [⟨0.5, 7⟩] } := by
    simp only [Game.updParticles]
    rw [hmm2, hfil]
  have e9 : Game.spawnEnemies 0.1 trivialEnv
      { c8State with
        survivalTime := 0.1
        player := { Player.init 140 0 with currentAngle := 12 }
        enemies := [{ c8Boss with x := 348, attackCooldown := 5 }]
        particles := c8Parts
        pendingAttacks := [⟨0.5, 7⟩] } =
      { c8State with
        survivalTime := 0.1
        player := { Player.init 140 0 with currentAngle := 12 }
        enemies := [{ c8Boss with x := 348, attackCooldown := 5 }]
        particles := c8Parts
        pendingAttacks := [⟨0.5, 7⟩]
        enemySpawnTimer := 0.1 } := by
    simp only [Game.spawnEnemies]
    norm_num [c8State, Game.initState]
  have e10 : Game.updChestSpawn 0.1 trivialEnv
      { c8State with
        survivalTime := 0.1
        player := { Player.init 140 0 with currentAngle := 12 }
        enemies := [{ c8Boss with x := 348, attackCooldown := 5 }]
        particles := c8Parts
        pendingAttacks := [⟨0.5, 7⟩]
        enemySpawnTimer := 0.1 } =
      { c8State with
        survivalTime := 0.1
        player := { Player.init 140 0 with currentAngle := 12 }
        enemies := [{ c8Boss with x := 348, attackCooldown := 5 }]
        particles := c8Parts
        pendingAttacks := [⟨0.5, 7⟩]
        enemySpawnTimer := 0.1
        chestSpawnTimer := 0.1 } := by
    simp only [Game.updChestSpawn, Game.spawnChest]
    norm_num [c8State, Game.initState]
  have e11 : Game.updBossCheck trivialEnv
      { c8State with
        survivalTime := 0.1
        player := { Player.init 140 0 with currentAngle := 12 }
        enemies := [{ c8Boss with x := 348, attackCooldown := 5 }]
        particles := c8Parts
        pendingAttacks := [⟨0.5, 7⟩]
        enemySpawnTimer := 0.1
        chestSpawnTimer := 0.1 } =
      { c8State with
        survivalTime := 0.1
        player := { Player.init 140 0 with currentAngle := 12 }
        enemies := [{ c8Boss with x := 348, attackCooldown := 5 }]
        particles := c8Parts
        pendingAttacks := [⟨0.5, 7⟩]
        enemySpawnTimer := 0.1
        chestSpawnTimer := 0.1 } := by
    simp only [Game.updBossCheck, Game.spawnBoss]
    norm_num [c8State, Game.initState]
  have e12 : Game.updDefeatCheck
      { c8State with
        survivalTime := 0.1
        player := { Player.init 140 0 with currentAngle := 12 }
        enemies := [{ c8Boss with x := 348, attackCooldown := 5 }]
        particles := c8Parts
        pendingAttacks := [⟨0.5, 7⟩]
        enemySpawnTimer := 0.1
        chestSpawnTimer := 0.1 } =
      { c8State with
        survivalTime := 0.1
        player := { Player.init 140 0 with currentAngle := 12 }
        enemies := [{ c8Boss with x := 348, attackCooldown := 5 }]
        particles := c8Parts
        pendingAttacks := [⟨0.5, 7⟩]
        enemySpawnTimer := 0.1
        chestSpawnTimer := 0.1 } := by
    simp only [Game.updDefeatCheck, Game.gameOver]
    norm_num [c8State, Game.initState, Player.init]
  rw [Game.update, e1, e2, e3, e4, e5, e6, e7, e8, e9, e10, e11, e12]
  simp only [Game.updScore]
  norm_num [c8State, c8S1, Game.initState]

/-- The second frame's event-loop step: the pending attack's remaining time
drops from 0.5 to 0.1, nothing fires. -/
theorem c8_fireB : Game.fireTimers 0.4 c8S1 =
    { Game.initState with
      player := { Player.init 140 0 with currentAngle := 12 }
      enemies := [{ c8Boss with x := 348, attackCooldown := 5 }]
      particles := c8Parts
      survivalTime := 0.1
      enemySpawnTimer := 0.1
      chestSpawnTimer := 0.1
      bossSpawned := true
      bossAlive := true
      pendingAttacks := [⟨0.1, 7⟩] } := by
  simp only [Game.fireTimers, c8S1, Game.initState]
  norm_num [List.filter_cons, decide_eq_true_eq]

/-- The second frame's Game.update: the boss advances from 348 to 300 while
the warning particles expire. -/
theorem c8_updateB : Game.update 0.4 trivialEnv
    { Game.initState with
      player := { Player.init 140 0 with currentAngle := 12 }
      enemies := [{ c8Boss with x := 348, attackCooldown := 5 }]
      particles := c8Parts
      survivalTime := 0.1
      enemySpawnTimer := 0.1
      chestSpawnTimer := 0.1
      bossSpawned := true
      bossAlive := true
      pendingAttacks := [⟨0.1, 7⟩] } = c8S2 := by
  have e1 : Game.updSurvivalTime 0.4
      { Game.initState with
        player := { Player.init 140 0 with currentAngle := 12 }
        enemies := [{ c8Boss with x := 348, attackCooldown := 5 }]
        particles := c8Parts
        survivalTime := 0.1
        enemySpawnTimer := 0.1
        chestSpawnTimer := 0.1
        bossSpawned := true
        bossAlive := true
        pendingAttacks := [⟨0.1, 7⟩] } =
      { Game.initState with
        player := { Player.init 140 0 with currentAngle := 12 }
        enemies := [{ c8Boss with x := 348, attackCooldown := 5 }]
        particles := c8Parts
        survivalTime := 0.5
        enemySpawnTimer := 0.1
        chestSpawnTimer := 0.1
        bossSpawned := true
        bossAlive := true
        pendingAttacks := [⟨0.1, 7⟩] } := by
    simp only [Game.updSurvivalTime, Game.initState]
    norm_num
  have e2 : Game.updPlayer 0.4 trivialEnv
      { Game.initState with
        player := { Player.init 140 0 with currentAngle := 12 }
        enemies := [{ c8Boss with x := 348, attackCooldown := 5 }]
        particles := c8Parts
        survivalTime := 0.5
        enemySpawnTimer := 0.1
        chestSpawnTimer := 0.1
        bossSpawned := true
        bossAlive := true
        pendingAttacks := [⟨0.1, 7⟩] } =
      { Game.initState with
        player := { Player.init 140 0 with currentAngle := 60 }
        enemies := [{ c8Boss with x := 348, attackCooldown := 5 }]
        particles := c8Parts
        survivalTime := 0.5
        enemySpawnTimer := 0.1
        chestSpawnTimer := 0.1
        bossSpawned := true
        bossAlive := true
        pendingAttacks := [⟨0.1, 7⟩] } := by
    rw [Game.updPlayer,
      show ({ Game.initState with
        player := { Player.init 140 0 with currentAngle := 12 }
        enemies := [{ c8Boss with x := 348, attackCooldown := 5 }]
        particles := c8Parts
        survivalTime := 0.5
        enemySpawnTimer := 0.1
        chestSpawnTimer := 0.1
        bossSpawned := true
        bossAlive := true
        pendingAttacks := [⟨0.1, 7⟩] } : GameState).player = { Player.init 140 0 with currentAngle := 12 } from rfl,
      show trivialEnv.keys = Keys.none from rfl, c8_player_stepB]
  have e3 : Game.updLevelUp trivialEnv
      { Game.initState with
        player := { Player.init 140 0 with currentAngle := 60 }
        enemies := [{ c8Boss with x := 348, attackCooldown := 5 }]
        particles := c8Parts
        survivalTime := 0.5
        enemySpawnTimer := 0.1
        chestSpawnTimer := 0.1
        bossSpawned := true
        bossAlive := true
        pendingAttacks := [⟨0.1, 7⟩] } =
      { Game.initState with
        player := { Player.init 140 0 with currentAngle := 60 }
        enemies := [{ c8Boss with x := 348, attackCooldown := 5 }]
        particles := c8Parts
        survivalTime := 0.5
        enemySpawnTimer := 0.1
        chestSpawnTimer := 0.1
        bossSpawned := true
        bossAlive := true
        pendingAttacks := [⟨0.1, 7⟩] } := by
    simp only [Game.updLevelUp]
    rw [c8_checkLevelUp { Player.init 140 0 with currentAngle := 60 } rfl rfl]
    rfl
  have e4 : Game.updEnemies 0.4 trivialEnv
      { Game.initState with
        player := { Player.init 140 0 with currentAngle := 60 }
        enemies := [{ c8Boss with x := 348, attackCooldown := 5 }]
        particles := c8Parts
        survivalTime := 0.5
        enemySpawnTimer := 0.1
        chestSpawnTimer := 0.1
        bossSpawned := true
        bossAlive := true
        pendingAttacks := [⟨0.1, 7⟩] } =
      { Game.initState with
        player := { Player.init 140 0 with currentAngle := 60 }
        enemies := [{ c8Boss with x := 300, attackCooldown := 4.6 }]
        particles := c8Parts
        survivalTime := 0.5
        enemySpawnTimer := 0.1
        chestSpawnTimer := 0.1
        bossSpawned := true
        bossAlive := true
        pendingAttacks := [⟨0.1, 7⟩] } := by
    rw [Game.updEnemies,
      show ({ Game.initState with
        player := { Player.init 140 0 with currentAngle := 60 }
        enemies := [{ c8Boss with x := 348, attackCooldown := 5 }]
        particles := c8Parts
        survivalTime := 0.5
        enemySpawnTimer := 0.1
        chestSpawnTimer := 0.1
        bossSpawned := true
        bossAlive := true
        pendingAttacks := [⟨0.1, 7⟩] } : GameState).enemies = [{ c8Boss with x := 348, attackCooldown := 5 }] from rfl]
    simp only [Game.enemiesLoop]
    rw [c8_process_noattack 0.4 trivialEnv.killDraws
      { Game.initState with
        player := { Player.init 140 0 with currentAngle := 60 }
        enemies := [{ c8Boss with x := 348, attackCooldown := 5 }]
        particles := c8Parts
        survivalTime := 0.5
        enemySpawnTimer := 0.1
        chestSpawnTimer := 0.1
        bossSpawned := true
        bossAlive := true
        pendingAttacks := [⟨0.1, 7⟩] } 348 5 rfl rfl rfl rfl
      (by norm_num) (by norm_num) (by norm_num)]
    norm_num [Game.initState, c8Boss, Enemy.init, enemyConfigs]
  have e5 : Game.updRemoveDead
      { Game.initState with
        player := { Player.init 140 0 with currentAngle := 60 }
        enemies := [{ c8Boss with x := 300, attackCooldown := 4.6 }]
        particles := c8Parts
        survivalTime := 0.5
        enemySpawnTimer := 0.1
        chestSpawnTimer := 0.1
        bossSpawned := true
        bossAlive := true
        pendingAttacks := [⟨0.1, 7⟩] } =
      { Game.initState with
        player := { Player.init 140 0 with currentAngle := 60 }
        enemies := [{ c8Boss with x := 300, attackCooldown := 4.6 }]
        particles := c8Parts
        survivalTime := 0.5
        enemySpawnTimer := 0.1
        chestSpawnTimer := 0.1
        bossSpawned := true
        bossAlive := true
        pendingAttacks := [⟨0.1, 7⟩] } := rfl
  have e6 : Game.updOrbs 0.4 trivialEnv.keys.space
      { Game.initState with
        player := { Player.init 140 0 with currentAngle := 60 }
        enemies := [{ c8Boss with x := 300, attackCooldown := 4.6 }]
        particles := c8Parts
        survivalTime := 0.5
        enemySpawnTimer := 0.1
        chestSpawnTimer := 0.1
        bossSpawned := true
        bossAlive := true
        pendingAttacks := [⟨0.1, 7⟩] } =
      { Game.initState with
        player := { Player.init 140 0 with currentAngle := 60 }
        enemies := [{ c8Boss with x := 300, attackCooldown := 4.6 }]
        particles := c8Parts
        survivalTime := 0.5
        enemySpawnTimer := 0.1
        chestSpawnTimer := 0.1
        bossSpawned := true
        bossAlive := true
        pendingAttacks := [⟨0.1, 7⟩] } := rfl
  have e7 : Game.updChests 0.4 trivialEnv
      { Game.initState with
        player := { Player.init 140 0 with currentAngle := 60 }
        enemies := [{ c8Boss with x := 300, attackCooldown := 4.6 }]
        particles := c8Parts
        survivalTime := 0.5
        enemySpawnTimer := 0.1
        chestSpawnTimer := 0.1
        bossSpawned := true
        bossAlive := true
        pendingAttacks := [⟨0.1, 7⟩] } =
      { Game.initState with
        player := { Player.init 140 0 with currentAngle := 60 }
        enemies := [{ c8Boss with x := 300, attackCooldown := 4.6 }]
        particles := c8Parts
        survivalTime := 0.5
        enemySpawnTimer := 0.1
        chestSpawnTimer := 0.1
        bossSpawned := true
        bossAlive := true
        pendingAttacks := [⟨0.1, 7⟩] } := rfl
  have hdie : ((c8Parts.map (Particle.update 0.4)).filter fun pt => decide ¬ pt.isDead)
      = [] := by
    apply List.filter_eq_nil_iff.mpr
    intro pt hpt
    simp only [List.mem_map, c8Parts] at hpt
    obtain ⟨q, ⟨i, -, rfl⟩, rfl⟩ := hpt
    simp only [Particle.update, Particle.isDead, decide_eq_true_eq, not_not]
    norm_num
  have e8 : Game.updParticles 0.4
      { Game.initState with
        player := { Player.init 140 0 with currentAngle := 60 }
        enemies := [{ c8Boss with x := 300, attackCooldown := 4.6 }]
        particles := c8Parts
        survivalTime := 0.5
        enemySpawnTimer := 0.1
        chestSpawnTimer := 0.1
        bossSpawned := true
        bossAlive := true
        pendingAttacks := [⟨0.1, 7⟩] } =
      { Game.initState with
        player := { Player.init 140 0 with currentAngle := 60 }
        enemies := [{ c8Boss with x := 300, attackCooldown := 4.6 }]
        particles := []
        survivalTime := 0.5
        enemySpawnTimer := 0.1
        chestSpawnTimer := 0.1
        bossSpawned := true
        bossAlive := true
        pendingAttacks := [⟨0.1, 7⟩] } := by
    simp only [Game.updParticles]
    rw [hdie]
  have e9 : Game.spawnEnemies 0.4 trivialEnv
      { Game.initState with
        player := { Player.init 140 0 with currentAngle := 60 }
        enemies := [{ c8Boss with x := 300, attackCooldown := 4.6 }]
        particles := []
        survivalTime := 0.5
        enemySpawnTimer := 0.1
        chestSpawnTimer := 0.1
        bossSpawned := true
        bossAlive := true
        pendingAttacks := [⟨0.1, 7⟩] } =
      { Game.initState with
        player := { Player.init 140 0 with currentAngle := 60 }
        enemies := [{ c8Boss with x := 300, attackCooldown := 4.6 }]
        particles := []
        survivalTime := 0.5
        enemySpawnTimer := 0.5
        chestSpawnTimer := 0.1
        bossSpawned := true
        bossAlive := true
        pendingAttacks := [⟨0.1, 7⟩] } := by
    simp only [Game.spawnEnemies]
    norm_num [Game.initState]
  have e10 : Game.updChestSpawn 0.4 trivialEnv
      { Game.initState with
        player := { Player.init 140 0 with currentAngle := 60 }
        enemies := [{ c8Boss with x := 300, attackCooldown := 4.6 }]
        particles := []
        survivalTime := 0.5
        enemySpawnTimer := 0.5
        chestSpawnTimer := 0.1
        bossSpawned := true
        bossAlive := true
        pendingAttacks := [⟨0.1, 7⟩] } =
      { Game.initState with
        player := { Player.init 140 0 with currentAngle := 60 }
        enemies := [{ c8Boss with x := 300, attackCooldown := 4.6 }]
        particles := []
        survivalTime := 0.5
        enemySpawnTimer := 0.5
        chestSpawnTimer := 0.5
        bossSpawned := true
        bossAlive := true
        pendingAttacks := [⟨0.1, 7⟩] } := by
    simp only [Game.updChestSpawn, Game.spawnChest]
    norm_num [Game.initState]
  have e11 : Game.updBossCheck trivialEnv
      { Game.initState with
        player := { Player.init 140 0 with currentAngle := 60 }
        enemies := [{ c8Boss with x := 300, attackCooldown := 4.6 }]
        particles := []
        survivalTime := 0.5
        enemySpawnTimer := 0.5
        chestSpawnTimer := 0.5
        bossSpawned := true
        bossAlive := true
        pendingAttacks := [⟨0.1, 7⟩] } =
      { Game.initState with
        player := { Player.init 140 0 with currentAngle := 60 }
        enemies := [{ c8Boss with x := 300, attackCooldown := 4.6 }]
        particles := []
        survivalTime := 0.5
        enemySpawnTimer := 0.5
        chestSpawnTimer := 0.5
        bossSpawned := true
        bossAlive := true
        pendingAttacks := [⟨0.1, 7⟩] } := by
    simp only [Game.updBossCheck, Game.spawnBoss]
    norm_num [Game.initState]
  have e12 : Game.updDefeatCheck
      { Game.initState with
        player := { Player.init 140 0 with currentAngle := 60 }
        enemies := [{ c8Boss with x := 300, attackCooldown := 4.6 }]
        particles := []
        survivalTime := 0.5
        enemySpawnTimer := 0.5
        chestSpawnTimer := 0.5
        bossSpawned := true
        bossAlive := true
        pendingAttacks := [⟨0.1, 7⟩] } =
      { Game.initState with
        player := { Player.init 140 0 with currentAngle := 60 }
        enemies := [{ c8Boss with x := 300, attackCooldown := 4.6 }]
        particles := []
        survivalTime := 0.5
        enemySpawnTimer := 0.5
        chestSpawnTimer := 0.5
        bossSpawned := true
        bossAlive := true
        pendingAttacks := [⟨0.1, 7⟩] } := by
    simp only [Game.updDefeatCheck, Game.gameOver]
    norm_num [Game.initState, Player.init]
  rw [Game.update, e1, e2, e3, e4, e5, e6, e7, e8, e9, e10, e11, e12]
  simp only [Game.updScore]
  norm_num [Game.initState, c8S2]

/-- An event-loop step in which the single pending boss attack expires:
the player is hit for 15 exactly when within 200 units of the enemy looked
up by id at resolution time, and the pending list empties. -/
theorem Game.fireTimers_single (dt r : ℝ) (aid : ℕ) (s : GameState)
    (e : Enemy) (hr : r ≤ dt)
    (hpend : s.pendingAttacks = [⟨r, aid⟩])
    (hrev : s.pendingReverts = [])
    (hfind : ((s.enemies ++ s.removedEnemies).find? fun en => en.id == aid) = some e) :
    Game.fireTimers dt s =
      { s with
        player := (if Utils.distance s.player.x s.player.y e.x e.y < 200
          then s.player.takeDamage 15 else s.player)
        pendingAttacks := [] } := by
  have hle : r - dt ≤ 0 := sub_nonpos.mpr hr
  simp only [Game.fireTimers, hpend, hrev, List.map_cons, List.map_nil,
    List.filter_cons, List.filter_nil, decide_eq_true_eq]
  rw [if_pos hle, if_neg (not_lt.mpr hle)]
  simp only [List.foldl_cons, List.foldl_nil]
  unfold Game.resolveBossAttack
  rw [hfind]
  split
  next en heq =>
    injection heq with h2
    subst h2
    split <;> rfl
  next heq =>
    exact Option.noConfusion heq

/-- C8 (amended): the delayed boss-attack resolution reads the attacking
enemy object's position at resolution time, not the position captured when
the attack was triggered: when the single pending attack expires within this
event-loop step, the player takes the flat 15 damage exactly when the player
is within 200 units of where the attack's enemy is NOW (looked up by id
among the live and removed enemies). -/
theorem game_boss_attack_resolution_live (dt r : ℝ) (aid : ℕ) (s : GameState)
    (e : Enemy) (hr : r ≤ dt)
    (hpend : s.pendingAttacks = [⟨r, aid⟩])
    (hrev : s.pendingReverts = [])
    (hfind : ((s.enemies ++ s.removedEnemies).find? fun en => en.id == aid) = some e) :
    (Game.fireTimers dt s).player =
      (if Utils.distance s.player.x s.player.y e.x e.y < 200
        then s.player.takeDamage 15 else s.player) := by
  rw [Game.fireTimers_single dt r aid s e hr hpend hrev hfind]

theorem c8_takeDamage :
    ({ Player.init 140 0 with currentAngle := 60 } : Player).takeDamage 15 =
      { Player.init 140 0 with currentAngle := 60, hp := 85, invincible := 0.5 } := by
  simp only [Player.takeDamage, Player.init]
  norm_num

theorem c8_dist300 : Utils.distance 140 0 300 0 < 200 := by
  unfold Utils.distance
  rw [show ((300 : ℝ) - 140) ^ 2 + (0 - 0) ^ 2 = 160 ^ 2 by norm_num,
    Real.sqrt_sq (by norm_num : (0 : ℝ) ≤ 160)]
  norm_num

theorem c8_dist348 : 200 < Utils.distance 140 0 348 0 := by
  unfold Utils.distance
  rw [show ((348 : ℝ) - 140) ^ 2 + (0 - 0) ^ 2 = 208 ^ 2 by norm_num,
    Real.sqrt_sq (by norm_num : (0 : ℝ) ≤ 208)]
  norm_num

/-- The third frame's event-loop step: the pending attack expires, the
enemy with id 7 now stands at x = 300, only 160 from the player, so the
15 damage lands. -/
theorem c8_fireC : Game.fireTimers 0.1 c8S2 =
    { Game.initState with
      player := { Player.init 140 0 with currentAngle := 60, hp := 85, invincible := 0.5 }
      enemies := [{ c8Boss with x := 300, attackCooldown := 4.6 }]
      survivalTime := 0.5
      enemySpawnTimer := 0.5
      chestSpawnTimer := 0.5
      bossSpawned := true
      bossAlive := true } := by
  rw [Game.fireTimers_single 0.1 0.1 7 c8S2 { c8Boss with x := 300, attackCooldown := 4.6 } le_rfl rfl rfl rfl]
  rw [if_pos (show Utils.distance c8S2.player.x c8S2.player.y
      ({ c8Boss with x := 300, attackCooldown := 4.6 } : Enemy).x ({ c8Boss with x := 300, attackCooldown := 4.6 } : Enemy).y < 200 from c8_dist300)]
  rw [show c8S2.player = { Player.init 140 0 with currentAngle := 60 } from rfl, c8_takeDamage]
  rfl

/-- The third frame's Game.update: the boss advances from 300 to 288; the
player's invincibility window runs down to 0.4. -/
theorem c8_updateC : Game.update 0.1 trivialEnv
    { Game.initState with
      player := { Player.init 140 0 with currentAngle := 60, hp := 85, invincible := 0.5 }
      enemies := [{ c8Boss with x := 300, attackCooldown := 4.6 }]
      survivalTime := 0.5
      enemySpawnTimer := 0.5
      chestSpawnTimer := 0.5
      bossSpawned := true
      bossAlive := true } = c8S3 := by
  have e1 : Game.updSurvivalTime 0.1
      { Game.initState with
        player := { Player.init 140 0 with currentAngle := 60, hp := 85, invincible := 0.5 }
        enemies := [{ c8Boss with x := 300, attackCooldown := 4.6 }]
        survivalTime := 0.5
        enemySpawnTimer := 0.5
        chestSpawnTimer := 0.5
        bossSpawned := true
        bossAlive := true } =
      { Game.initState with
        player := { Player.init 140 0 with currentAngle := 60, hp := 85, invincible := 0.5 }
        enemies := [{ c8Boss with x := 300, attackCooldown := 4.6 }]
        survivalTime := 0.6
        enemySpawnTimer := 0.5
        chestSpawnTimer := 0.5
        bossSpawned := true
        bossAlive := true } := by
    simp only [Game.updSurvivalTime, Game.initState]
    norm_num
  have e2 : Game.updPlayer 0.1 trivialEnv
      { Game.initState with
        player := { Player.init 140 0 with currentAngle := 60, hp := 85, invincible := 0.5 }
        enemies := [{ c8Boss with x := 300, attackCooldown := 4.6 }]
        survivalTime := 0.6
        enemySpawnTimer := 0.5
        chestSpawnTimer := 0.5
        bossSpawned := true
        bossAlive := true } =
      { Game.initState with
        player := { Player.init 140 0 with currentAngle := 72, hp := 85, invincible := 0.4 }
        enemies := [{ c8Boss with x := 300, attackCooldown := 4.6 }]
        survivalTime := 0.6
        enemySpawnTimer := 0.5
        chestSpawnTimer := 0.5
        bossSpawned := true
        bossAlive := true } := by
    rw [Game.updPlayer,
      show ({ Game.initState with
        player := { Player.init 140 0 with currentAngle := 60, hp := 85, invincible := 0.5 }
        enemies := [{ c8Boss with x := 300, attackCooldown := 4.6 }]
        survivalTime := 0.6
        enemySpawnTimer := 0.5
        chestSpawnTimer := 0.5
        bossSpawned := true
        bossAlive := true } : GameState).player = { Player.init 140 0 with currentAngle := 60, hp := 85, invincible := 0.5 } from rfl,
      show trivialEnv.keys = Keys.none from rfl, c8_player_stepC]
  have e3 : Game.updLevelUp trivialEnv
      { Game.initState with
        player := { Player.init 140 0 with currentAngle := 72, hp := 85, invincible := 0.4 }
        enemies := [{ c8Boss with x := 300, attackCooldown := 4.6 }]
        survivalTime := 0.6
        enemySpawnTimer := 0.5
        chestSpawnTimer := 0.5
        bossSpawned := true
        bossAlive := true } =
      { Game.initState with
        player := { Player.init 140 0 with currentAngle := 72, hp := 85, invincible := 0.4 }
        enemies := [{ c8Boss with x := 300, attackCooldown := 4.6 }]
        survivalTime := 0.6
        enemySpawnTimer := 0.5
        chestSpawnTimer := 0.5
        bossSpawned := true
        bossAlive := true } := by
    simp only [Game.updLevelUp]
    rw [c8_checkLevelUp { Player.init 140 0 with currentAngle := 72, hp := 85, invincible := 0.4 } rfl rfl]
    rfl
  have e4 : Game.updEnemies 0.1 trivialEnv
      { Game.initState with
        player := { Player.init 140 0 with currentAngle := 72, hp := 85, invincible := 0.4 }
        enemies := [{ c8Boss with x := 300, attackCooldown := 4.6 }]
        survivalTime := 0.6
        enemySpawnTimer := 0.5
        chestSpawnTimer := 0.5
        bossSpawned := true
        bossAlive := true } =
      { Game.initState with
        player := { Player.init 140 0 with currentAngle := 72, hp := 85, invincible := 0.4 }
        enemies := [{ c8Boss with x := 288, attackCooldown := 4.5 }]
        survivalTime := 0.6
        enemySpawnTimer := 0.5
        chestSpawnTimer := 0.5
        bossSpawned := true
        bossAlive := true } := by
    rw [Game.updEnemies,
      show ({ Game.initState with
        player := { Player.init 140 0 with currentAngle := 72, hp := 85, invincible := 0.4 }
        enemies := [{ c8Boss with x := 300, attackCooldown := 4.6 }]
        survivalTime := 0.6
        enemySpawnTimer := 0.5
        chestSpawnTimer := 0.5
        bossSpawned := true
        bossAlive := true } : GameState).enemies = [{ c8Boss with x := 300, attackCooldown := 4.6 }] from rfl]
    simp only [Game.enemiesLoop]
    rw [c8_process_noattack 0.1 trivialEnv.killDraws
      { Game.initState with
        player := { Player.init 140 0 with currentAngle := 72, hp := 85, invincible := 0.4 }
        enemies := [{ c8Boss with x := 300, attackCooldown := 4.6 }]
        survivalTime := 0.6
        enemySpawnTimer := 0.5
        chestSpawnTimer := 0.5
        bossSpawned := true
        bossAlive := true } 300 4.6 rfl rfl rfl rfl
      (by norm_num) (by norm_num) (by norm_num)]
    norm_num [Game.initState, c8Boss, Enemy.init, enemyConfigs]
  have e5 : Game.updRemoveDead
      { Game.initState with
        player := { Player.init 140 0 with currentAngle := 72, hp := 85, invincible := 0.4 }
        enemies := [{ c8Boss with x := 288, attackCooldown := 4.5 }]
        survivalTime := 0.6
        enemySpawnTimer := 0.5
        chestSpawnTimer := 0.5
        bossSpawned := true
        bossAlive := true } =
      { Game.initState with
        player := { Player.init 140 0 with currentAngle := 72, hp := 85, invincible := 0.4 }
        enemies := [{ c8Boss with x := 288, attackCooldown := 4.5 }]
        survivalTime := 0.6
        enemySpawnTimer := 0.5
        chestSpawnTimer := 0.5
        bossSpawned := true
        bossAlive := true } := rfl
  have e6 : Game.updOrbs 0.1 trivialEnv.keys.space
      { Game.initState with
        player := { Player.init 140 0 with currentAngle := 72, hp := 85, invincible := 0.4 }
        enemies := [{ c8Boss with x := 288, attackCooldown := 4.5 }]
        survivalTime := 0.6
        enemySpawnTimer := 0.5
        chestSpawnTimer := 0.5
        bossSpawned := true
        bossAlive := true } =
      { Game.initState with
        player := { Player.init 140 0 with currentAngle := 72, hp := 85, invincible := 0.4 }
        enemies := [{ c8Boss with x := 288, attackCooldown := 4.5 }]
        survivalTime := 0.6
        enemySpawnTimer := 0.5
        chestSpawnTimer := 0.5
        bossSpawned := true
        bossAlive := true } := rfl
  have e7 : Game.updChests 0.1 trivialEnv
      { Game.initState with
        player := { Player.init 140 0 with currentAngle := 72, hp := 85, invincible := 0.4 }
        enemies := [{ c8Boss with x := 288, attackCooldown := 4.5 }]
        survivalTime := 0.6
        enemySpawnTimer := 0.5
        chestSpawnTimer := 0.5
        bossSpawned := true
        bossAlive := true } =
      { Game.initState with
        player := { Player.init 140 0 with currentAngle := 72, hp := 85, invincible := 0.4 }
        enemies := [{ c8Boss with x := 288, attackCooldown := 4.5 }]
        survivalTime := 0.6
        enemySpawnTimer := 0.5
        chestSpawnTimer := 0.5
        bossSpawned := true
        bossAlive := true } := rfl
  have e8 : Game.updParticles 0.1
      { Game.initState with
        player := { Player.init 140 0 with currentAngle := 72, hp := 85, invincible := 0.4 }
        enemies := [{ c8Boss with x := 288, attackCooldown := 4.5 }]
        survivalTime := 0.6
        enemySpawnTimer := 0.5
        chestSpawnTimer := 0.5
        bossSpawned := true
        bossAlive := true } =
      { Game.initState with
        player := { Player.init 140 0 with currentAngle := 72, hp := 85, invincible := 0.4 }
        enemies := [{ c8Boss with x := 288, attackCooldown := 4.5 }]
        survivalTime := 0.6
        enemySpawnTimer := 0.5
        chestSpawnTimer := 0.5
        bossSpawned := true
        bossAlive := true } := rfl
  have e9 : Game.spawnEnemies 0.1 trivialEnv
      { Game.initState with
        player := { Player.init 140 0 with currentAngle := 72, hp := 85, invincible := 0.4 }
        enemies := [{ c8Boss with x := 288, attackCooldown := 4.5 }]
        survivalTime := 0.6
        enemySpawnTimer := 0.5
        chestSpawnTimer := 0.5
        bossSpawned := true
        bossAlive := true } =
      { Game.initState with
        player := { Player.init 140 0 with currentAngle := 72, hp := 85, invincible := 0.4 }
        enemies := [{ c8Boss with x := 288, attackCooldown := 4.5 }]
        survivalTime := 0.6
        enemySpawnTimer := 0.6
        chestSpawnTimer := 0.5
        bossSpawned := true
        bossAlive := true } := by
    simp only [Game.spawnEnemies]
    norm_num [Game.initState]
  have e10 : Game.updChestSpawn 0.1 trivialEnv
      { Game.initState with
        player := { Player.init 140 0 with currentAngle := 72, hp := 85, invincible := 0.4 }
        enemies := [{ c8Boss with x := 288, attackCooldown := 4.5 }]
        survivalTime := 0.6
        enemySpawnTimer := 0.6
        chestSpawnTimer := 0.5
        bossSpawned := true
        bossAlive := true } =
      { Game.initState with
        player := { Player.init 140 0 with currentAngle := 72, hp := 85, invincible := 0.4 }
        enemies := [{ c8Boss with x := 288, attackCooldown := 4.5 }]
        survivalTime := 0.6
        enemySpawnTimer := 0.6
        chestSpawnTimer := 0.6
        bossSpawned := true
        bossAlive := true } := by
    simp only [Game.updChestSpawn, Game.spawnChest]
    norm_num [Game.initState]
  have e11 : Game.updBossCheck trivialEnv
      { Game.initState with
        player := { Player.init 140 0 with currentAngle := 72, hp := 85, invincible := 0.4 }
        enemies := [{ c8Boss with x := 288, attackCooldown := 4.5 }]
        survivalTime := 0.6
        enemySpawnTimer := 0.6
        chestSpawnTimer := 0.6
        bossSpawned := true
        bossAlive := true } =
      { Game.initState with
        player := { Player.init 140 0 with currentAngle := 72, hp := 85, invincible := 0.4 }
        enemies := [{ c8Boss with x := 288, attackCooldown := 4.5 }]
        survivalTime := 0.6
        enemySpawnTimer := 0.6
        chestSpawnTimer := 0.6
        bossSpawned := true
        bossAlive := true } := by
    simp only [Game.updBossCheck, Game.spawnBoss]
    norm_num [Game.initState]
  have e12 : Game.updDefeatCheck
      { Game.initState with
        player := { Player.init 140 0 with currentAngle := 72, hp := 85, invincible := 0.4 }
        enemies := [{ c8Boss with x := 288, attackCooldown := 4.5 }]
        survivalTime := 0.6
        enemySpawnTimer := 0.6
        chestSpawnTimer := 0.6
        bossSpawned := true
        bossAlive := true } =
      { Game.initState with
        player := { Player.init 140 0 with currentAngle := 72, hp := 85, invincible := 0.4 }
        enemies := [{ c8Boss with x := 288, attackCooldown := 4.5 }]
        survivalTime := 0.6
        enemySpawnTimer := 0.6
        chestSpawnTimer := 0.6
        bossSpawned := true
        bossAlive := true } := by
    simp only [Game.updDefeatCheck, Game.gameOver]
    norm_num [Game.initState, Player.init]
  rw [Game.update, e1, e2, e3, e4, e5, e6, e7, e8, e9, e10, e11, e12]
  simp only [Game.updScore]
  norm_num [Game.initState, c8S3]


/-- C8 counterexample: a three-frame run in which the boss triggers its
delayed attack at x = 348 — more than 200 from the player parked at
(140, 0), so under the claim's reading (distance to the trigger position)
no damage would ever land — and keeps marching; when the 0.5s delay
expires the resolution measures the boss's live position x = 300, only
160 away, and the player's hp drops from 100 to 85. -/
theorem game_boss_attack_ignores_trigger_position :
    (Game.frame (c8Inp 0.1) c8State).enemies
        = [{ c8Boss with x := 348, attackCooldown := 5 }] ∧
    (Game.frame (c8Inp 0.1) c8State).pendingAttacks = [⟨0.5, 7⟩] ∧
    200 < Utils.distance 140 0 348 0 ∧
    Utils.distance 140 0 300 0 < 200 ∧
    (Game.frame (c8Inp 0.1) (Game.frame (c8Inp 0.4) (Game.frame (c8Inp 0.1)
      c8State))).player.hp = 85 ∧
    c8State.player.hp = 100 := by
  have hA : Game.frame (c8Inp 0.1) c8State = c8S1 := by
    rw [Game.frame_playing (c8Inp 0.1) c8State rfl rfl]
    rw [show Game.fireTimers (c8Inp 0.1).dt c8State = c8State from rfl]
    exact c8_updateA
  have hB : Game.frame (c8Inp 0.4) c8S1 = c8S2 := by
    rw [Game.frame_playing (c8Inp 0.4) c8S1 rfl rfl]
    rw [show (c8Inp 0.4).dt = 0.4 from rfl, show (c8Inp 0.4).env = trivialEnv from rfl]
    rw [c8_fireB]
    exact c8_updateB
  have hC : Game.frame (c8Inp 0.1) c8S2 = c8S3 := by
    rw [Game.frame_playing (c8Inp 0.1) c8S2 rfl rfl]
    rw [show (c8Inp 0.1).dt = 0.1 from rfl, show (c8Inp 0.1).env = trivialEnv from rfl]
    rw [c8_fireC]
    exact c8_updateC
  refine ⟨?_, ?_, c8_dist348, c8_dist300, ?_, rfl⟩
  · rw [hA]
    rfl
  · rw [hA]
    rfl
  · rw [hA, hB, hC]
    rfl

/-- C8 witness for the amended theorem: a pending attack expiring against
an enemy standing 100 units from the player lands its 15 damage
(hp 100 → 85). -/
theorem game_boss_attack_resolution_live_witness :
    (Game.fireTimers 0.5 { Game.initState with
      enemies := [{ c8Boss with x := 500, y := 400 }]
      pendingAttacks := [⟨0.5, 7⟩] }).player.hp = 85 := by
  have hdist : Utils.distance 600 400 500 400 = 100 := by
    unfold Utils.distance
    rw [show ((500 : ℝ) - 600) ^ 2 + ((400 : ℝ) - 400) ^ 2 = 100 ^ 2 by norm_num,
      Real.sqrt_sq (by norm_num : (0 : ℝ) ≤ 100)]
  rw [game_boss_attack_resolution_live 0.5 0.5 7
    { Game.initState with
      enemies := [{ c8Boss with x := 500, y := 400 }]
      pendingAttacks := [⟨0.5, 7⟩] }
    { c8Boss with x := 500, y := 400 } le_rfl rfl rfl rfl]
  norm_num [Game.initState, Player.init, c8Boss, Enemy.init, enemyConfigs, hdist,
    Player.takeDamage, Game.centerX, Game.centerY]

/-- C10: in every state the simulation driver can reach, every enemy's slow
countdown is ≤ 0 (the driver never calls Enemy.applySlow, and Enemy.update
only ever decrements an already-positive countdown), and consequently every
live enemy moves at its full archetype speed: its position update uses the
speed multiplier 1, never the slowed 0.7. -/
theorem game_slow_never_applied (s : GameState) (h : Game.Reachable s) :
    ∀ e ∈ s.enemies, e.slowEffect ≤ 0 ∧
      ∀ (dt px py : ℝ), e.isDead = false →
        ((e.update dt px py).x =
          (if 0 < Real.sqrt ((px - e.x) * (px - e.x) + (py - e.y) * (py - e.y)) then
            e.x + ((px - e.x) /
                Real.sqrt ((px - e.x) * (px - e.x) + (py - e.y) * (py - e.y)))
              * e.speed * 1 * dt
          else e.x) ∧
        (e.update dt px py).y =
          (if 0 < Real.sqrt ((px - e.x) * (px - e.x) + (py - e.y) * (py - e.y)) then
            e.y + ((py - e.y) /
                Real.sqrt ((px - e.x) * (px - e.x) + (py - e.y) * (py - e.y)))
              * e.speed * 1 * dt
          else e.y)) := by
  have hinv : ∀ e ∈ s.enemies, e.slowEffect ≤ 0 := by
    induction h with
    | init =>
        intro e he
        exact absurd he (List.not_mem_nil e)
    | step inp hr ih =>
        exact Game.frame_slow_invariant inp _ ih
  intro e he
  exact ⟨hinv e he,
    fun dt px py hd => Enemy.update_full_speed dt px py e (hinv e he) hd⟩

/-- C10 witness: one 10-second idle frame after the constructor state spawns
the first minion wave; the state is reachable, the wave's first minion is in
it, and the theorem gives its slow countdown ≤ 0. -/
theorem game_slow_never_applied_witness :
    Game.mkBoundaryEnemy 0 (trivialEnv.minionAngle 0) EType.minion ∈
      (Game.frame ⟨10, Option.none, false, 0, trivialEnv⟩ Game.initState).enemies ∧
    (Game.mkBoundaryEnemy 0 (trivialEnv.minionAngle 0) EType.minion).slowEffect ≤ 0 := by
  have hreach : Game.Reachable
      (Game.frame ⟨10, Option.none, false, 0, trivialEnv⟩ Game.initState) :=
    Game.Reachable.step ⟨10, Option.none, false, 0, trivialEnv⟩ Game.Reachable.init
  have hframe : Game.frame ⟨10, Option.none, false, 0, trivialEnv⟩ Game.initState
      = Game.update 10 trivialEnv Game.initState := rfl
  have p1 : Game.updSurvivalTime 10 Game.initState
      = { Game.initState with survivalTime := 10 } := by
    simp only [Game.updSurvivalTime, Game.initState]
    norm_num
  have p2 : Game.updPlayer 10 trivialEnv { Game.initState with survivalTime := 10 }
      = { Game.initState with
        survivalTime := 10
        player := Player.update 10 trivialEnv.keys Game.arenaRadius (Player.init 600 400) } := rfl
  have hexp : (Player.update 10 trivialEnv.keys Game.arenaRadius (Player.init 600 400)).exp = 0 :=
    (Player.update_exp 10 trivialEnv.keys Game.arenaRadius (Player.init 600 400)).trans rfl
  have hthr : (Player.update 10 trivialEnv.keys Game.arenaRadius (Player.init 600 400)).expToLevel = 100 :=
    (Player.update_expToLevel 10 trivialEnv.keys Game.arenaRadius
      (Player.init 600 400)).trans rfl
  have p3 : Game.updLevelUp trivialEnv
      { Game.initState with
        survivalTime := 10
        player := Player.update 10 trivialEnv.keys Game.arenaRadius (Player.init 600 400) } =
      { Game.initState with
        survivalTime := 10
        player := Player.update 10 trivialEnv.keys Game.arenaRadius (Player.init 600 400) } := by
    simp only [Game.updLevelUp]
    rw [c8_checkLevelUp (Player.update 10 trivialEnv.keys Game.arenaRadius (Player.init 600 400)) hexp hthr]
    rfl
  have p4 : Game.updEnemies 10 trivialEnv
      { Game.initState with
        survivalTime := 10
        player := Player.update 10 trivialEnv.keys Game.arenaRadius (Player.init 600 400) } =
      { Game.initState with
        survivalTime := 10
        player := Player.update 10 trivialEnv.keys Game.arenaRadius (Player.init 600 400) } := rfl
  have p5 : Game.updRemoveDead
      { Game.initState with
        survivalTime := 10
        player := Player.update 10 trivialEnv.keys Game.arenaRadius (Player.init 600 400) } =
      { Game.initState with
        survivalTime := 10
        player := Player.update 10 trivialEnv.keys Game.arenaRadius (Player.init 600 400) } := rfl
  have p6 : Game.updOrbs 10 trivialEnv.keys.space
      { Game.initState with
        survivalTime := 10
        player := Player.update 10 trivialEnv.keys Game.arenaRadius (Player.init 600 400) } =
      { Game.initState with
        survivalTime := 10
        player := Player.update 10 trivialEnv.keys Game.arenaRadius (Player.init 600 400) } := rfl
  have p7 : Game.updChests 10 trivialEnv
      { Game.initState with
        survivalTime := 10
        player := Player.update 10 trivialEnv.keys Game.arenaRadius (Player.init 600 400) } =
      { Game.initState with
        survivalTime := 10
        player := Player.update 10 trivialEnv.keys Game.arenaRadius (Player.init 600 400) } := rfl
  have p8 : Game.updParticles 10
      { Game.initState with
        survivalTime := 10
        player := Player.update 10 trivialEnv.keys Game.arenaRadius (Player.init 600 400) } =
      { Game.initState with
        survivalTime := 10
        player := Player.update 10 trivialEnv.keys Game.arenaRadius (Player.init 600 400) } := rfl
  have p9 : Game.spawnEnemies 10 trivialEnv
      { Game.initState with
        survivalTime := 10
        player := Player.update 10 trivialEnv.keys Game.arenaRadius (Player.init 600 400) } =
      { Game.initState with
        survivalTime := 10
        player := Player.update 10 trivialEnv.keys Game.arenaRadius (Player.init 600 400)
        enemies := (List.range 3).map fun i => Game.mkBoundaryEnemy i (trivialEnv.minionAngle i) EType.minion
        enemySpawnTimer := 0
        nextId := 3 } := by
    simp only [Game.spawnEnemies]
    norm_num [Game.initState, trivialEnv]
    exact ⟨rfl, rfl⟩
  have p10 : Game.updChestSpawn 10 trivialEnv
      { Game.initState with
        survivalTime := 10
        player := Player.update 10 trivialEnv.keys Game.arenaRadius (Player.init 600 400)
        enemies := (List.range 3).map fun i => Game.mkBoundaryEnemy i (trivialEnv.minionAngle i) EType.minion
        enemySpawnTimer := 0
        nextId := 3 } =
      { Game.initState with
        survivalTime := 10
        player := Player.update 10 trivialEnv.keys Game.arenaRadius (Player.init 600 400)
        enemies := (List.range 3).map fun i => Game.mkBoundaryEnemy i (trivialEnv.minionAngle i) EType.minion
        enemySpawnTimer := 0
        nextId := 3
        chestSpawnTimer := 10 } := by
    simp only [Game.updChestSpawn, Game.spawnChest]
    norm_num [Game.initState]
  have hlvl : (Player.update 10 trivialEnv.keys Game.arenaRadius (Player.init 600 400)).level = 1 :=
    (Player.update_level 10 trivialEnv.keys Game.arenaRadius (Player.init 600 400)).trans rfl
  have p11 : Game.updBossCheck trivialEnv
      { Game.initState with
        survivalTime := 10
        player := Player.update 10 trivialEnv.keys Game.arenaRadius (Player.init 600 400)
        enemies := (List.range 3).map fun i => Game.mkBoundaryEnemy i (trivialEnv.minionAngle i) EType.minion
        enemySpawnTimer := 0
        nextId := 3
        chestSpawnTimer := 10 } =
      { Game.initState with
        survivalTime := 10
        player := Player.update 10 trivialEnv.keys Game.arenaRadius (Player.init 600 400)
        enemies := (List.range 3).map fun i => Game.mkBoundaryEnemy i (trivialEnv.minionAngle i) EType.minion
        enemySpawnTimer := 0
        nextId := 3
        chestSpawnTimer := 10 } := by
    rw [Game.updBossCheck, if_neg]
    rintro ⟨-, h | h⟩
    · have h1 : ({ Game.initState with
        survivalTime := 10
        player := Player.update 10 trivialEnv.keys Game.arenaRadius (Player.init 600 400)
        enemies := (List.range 3).map fun i => Game.mkBoundaryEnemy i (trivialEnv.minionAngle i) EType.minion
        enemySpawnTimer := 0
        nextId := 3
        chestSpawnTimer := 10 } : GameState).player.level = 1 := hlvl
      rw [h1] at h
      norm_num at h
    · have h2 : ({ Game.initState with
        survivalTime := 10
        player := Player.update 10 trivialEnv.keys Game.arenaRadius (Player.init 600 400)
        enemies := (List.range 3).map fun i => Game.mkBoundaryEnemy i (trivialEnv.minionAngle i) EType.minion
        enemySpawnTimer := 0
        nextId := 3
        chestSpawnTimer := 10 } : GameState).survivalTime = 10 := rfl
      rw [h2] at h
      norm_num at h
  have hhp : (Player.update 10 trivialEnv.keys Game.arenaRadius (Player.init 600 400)).hp = 100 :=
    (Player.update_hp 10 trivialEnv.keys Game.arenaRadius (Player.init 600 400)).trans rfl
  have p12 : Game.updDefeatCheck
      { Game.initState with
        survivalTime := 10
        player := Player.update 10 trivialEnv.keys Game.arenaRadius (Player.init 600 400)
        enemies := (List.range 3).map fun i => Game.mkBoundaryEnemy i (trivialEnv.minionAngle i) EType.minion
        enemySpawnTimer := 0
        nextId := 3
        chestSpawnTimer := 10 } =
      { Game.initState with
        survivalTime := 10
        player := Player.update 10 trivialEnv.keys Game.arenaRadius (Player.init 600 400)
        enemies := (List.range 3).map fun i => Game.mkBoundaryEnemy i (trivialEnv.minionAngle i) EType.minion
        enemySpawnTimer := 0
        nextId := 3
        chestSpawnTimer := 10 } := by
    rw [Game.updDefeatCheck, if_neg]
    have h1 : ({ Game.initState with
        survivalTime := 10
        player := Player.update 10 trivialEnv.keys Game.arenaRadius (Player.init 600 400)
        enemies := (List.range 3).map fun i => Game.mkBoundaryEnemy i (trivialEnv.minionAngle i) EType.minion
        enemySpawnTimer := 0
        nextId := 3
        chestSpawnTimer := 10 } : GameState).player.hp = 100 := hhp
    rw [h1]
    norm_num
  have hen : (Game.update 10 trivialEnv Game.initState).enemies
      = (List.range 3).map fun i =>
          Game.mkBoundaryEnemy i (trivialEnv.minionAngle i) EType.minion := by
    rw [Game.update, p1, p2, p3, p4, p5, p6, p7, p8, p9, p10, p11, p12,
      Game.updScore_enemies]
  have hmem : Game.mkBoundaryEnemy 0 (trivialEnv.minionAngle 0) EType.minion ∈
      (Game.frame ⟨10, Option.none, false, 0, trivialEnv⟩ Game.initState).enemies := by
    rw [hframe, hen]
    exact List.mem_map.mpr ⟨0, by norm_num, rfl⟩
  exact ⟨hmem, (game_slow_never_applied
    (Game.frame ⟨10, Option.none, false, 0, trivialEnv⟩ Game.initState) hreach
    (Game.mkBoundaryEnemy 0 (trivialEnv.minionAngle 0) EType.minion) hmem).1⟩

/-- C7: along every driver trace, while the boss-spawn flag is still unset a
driver step raises it exactly when the step is a playing-state update whose
resulting level/survival-clock values satisfy level ≥ 10 or time ≥ 120 (the
values the mid-step check reads are the post-step values, since no later
stage touches them); once set the flag stays set forever, so the spawn
happens exactly once, at the first update step in which the condition holds;
and the spawning step appends exactly one boss-type enemy, at the boss spawn
angle of that frame's draw. -/
theorem game_boss_spawned_once (inputs : ℕ → Game.FrameInput) (n : ℕ) :
    ((Game.run inputs n).bossSpawned = false →
      ((Game.run inputs (n + 1)).bossSpawned = true ↔
        ((Game.run inputs n).state = GState.playing ∧
          (10 ≤ (Game.run inputs (n + 1)).player.level ∨
            120 ≤ (Game.run inputs (n + 1)).survivalTime)))) ∧
    ((Game.run inputs n).bossSpawned = true →
      (Game.run inputs (n + 1)).bossSpawned = true) ∧
    ((Game.run inputs n).bossSpawned = false →
      (Game.run inputs (n + 1)).bossSpawned = true →
      ∃ es k, (Game.run inputs (n + 1)).enemies =
        es ++ [Game.mkBoundaryEnemy k (inputs n).env.bossAngle EType.boss]) := by
  refine ⟨?_, ?_, ?_⟩
  · intro hs
    exact Game.frame_spawn_iff (inputs n) (Game.run inputs n) hs
  · intro h
    exact Game.frame_bossSpawned_mono (inputs n) (Game.run inputs n) h
  · intro hs ht
    exact Game.frame_spawn_appends_boss (inputs n) (Game.run inputs n) hs ht

/-- A full driver frame never changes the exp threshold: the timer
callbacks, the pointer handler, Game.update and skill selection all leave
player.expToLevel untouched. -/
theorem Game.frame_expToLevel (inp : FrameInput) (s : GameState) :
    (Game.frame inp s).player.expToLevel = s.player.expToLevel := by
  obtain ⟨s2, _, _, h3, _, _, _, heq⟩ := Game.frame_char inp s
  rw [heq]
  split
  · exact (Game.update_player_expToLevel _ _ _).trans h3
  · split
    · exact ((Game.selectSkill_pres _ _).2.2.1).trans h3
    · exact h3

/-- C9: in every state a game session can reach, the exp-to-next-level
threshold still holds its constructor value 100: no driver step (update,
timer callback, pointer input, skill selection, chest reward) ever writes
player.expToLevel, so every level costs exactly 100 experience. -/
theorem player_expToLevel_constant (s : GameState) (h : Game.Reachable s) :
    s.player.expToLevel = 100 := by
  induction h with
  | init => rfl
  | step inp hr ih => exact (Game.frame_expToLevel inp _).trans ih

/-- C9 witness: the constructor state is reachable and the theorem yields
its threshold value 100. -/
theorem player_expToLevel_constant_witness :
    Game.initState.player.expToLevel = 100 :=
  player_expToLevel_constant Game.initState Game.Reachable.init

/-- C7 witness: on the trace of idle frames (dt = 0, no input), the spawn
condition fails after the first step (level 1 < 10, clock 0 < 120), so the
claim theorem's characterization forces the flag to stay unset. -/
theorem game_boss_spawned_once_witness :
    (Game.run (fun _ => ⟨0, Option.none, false, 0, trivialEnv⟩) 0).bossSpawned = false ∧
    (Game.run (fun _ => ⟨0, Option.none, false, 0, trivialEnv⟩) 1).bossSpawned = false := by
  have h := (game_boss_spawned_once
    (fun _ => ⟨0, Option.none, false, 0, trivialEnv⟩) 0).1 rfl
  refine ⟨rfl, ?_⟩
  have hrun : Game.run (fun _ => (⟨0, Option.none, false, 0, trivialEnv⟩ :
      Game.FrameInput)) 1 = Game.update 0 trivialEnv Game.initState := rfl
  have hlvl : (Game.run (fun _ => (⟨0, Option.none, false, 0, trivialEnv⟩ :
      Game.FrameInput)) 1).player.level = 1 := by
    rw [hrun, Game.update_player_level]
    norm_num [Game.initState, Player.init]
  have htime : (Game.run (fun _ => (⟨0, Option.none, false, 0, trivialEnv⟩ :
      Game.FrameInput)) 1).survivalTime = 0 := by
    rw [hrun, Game.update_survivalTime]
    norm_num [Game.initState]
  cases hb : (Game.run (fun _ => (⟨0, Option.none, false, 0, trivialEnv⟩ :
      Game.FrameInput)) 1).bossSpawned with
  | false => rfl
  | true =>
      obtain ⟨-, hc⟩ := h.mp hb
      rw [hlvl, htime] at hc
      rcases hc with hc | hc <;> norm_num at hc

/-- C3 counterexample: in the step in which the boss is defeated (bossAlive
goes true -> false, killCount becomes 1, survivalTime 0), the session score
after the step is 10 = killCount*10 + floor(survivalTime)*2, not 60: the
50-point victory bonus added by killEnemy does not survive the end-of-step
recompute. -/
theorem game_update_score_drops_victory_bonus :
    c3State.bossAlive = true ∧
    (Game.update 0 trivialEnv c3State).bossAlive = false ∧
    (Game.update 0 trivialEnv c3State).killCount = 1 ∧
    (Game.update 0 trivialEnv c3State).survivalTime = 0 ∧
    (Game.update 0 trivialEnv c3State).score = 10 ∧
    (Game.update 0 trivialEnv c3State).score ≠
      ((Game.update 0 trivialEnv c3State).killCount : ℝ) * 10 +
        (⌊(Game.update 0 trivialEnv c3State).survivalTime⌋ : ℝ) * 2 + 50 := by
  rw [c3_update_eval]
  refine ⟨rfl, rfl, rfl, rfl, rfl, ?_⟩
  norm_num

end Rogue
